import Mathlib

/-!
Avatar photo booth: face cutout pipeline, composite orchestrator and avatarize
route.

A shallow embedding of `src/app/your-character/page.js` and of
`src/app/api/avatarize/route.js`.

Conventions of the embedding.

* JavaScript numbers are exact rationals (`ℚ`).  The source produces `±Infinity`
  and `NaN` when it folds over an empty point list; list minima and maxima
  are `0` there, and every statement below that depends on them fixes a
  non-empty list.  It also produces `NaN` when a calibration lookup yields a
  member inherited from `Object.prototype`; that case is a constructor of its
  own (`JsProp.inherited`), and `renderComposite` throws on it.
* A canvas call that throws (`drawImage` of a canvas without pixels, a negative
  radius, a non-finite `double`) makes the function return `Except.error`, and
  the `async` job that called it reject.  The limits a browser puts on the
  memory of a canvas are not part of the embedding.
* A canvas is its integer `width` and `height` plus a symbolic description of
  what was drawn on it (`Pixels`): the decoded image it came from, the
  `drawImage` rectangle, and the mask combined with `destination-in`.
* A promise is the time (milliseconds after it was started) at which it settles
  together with its value; `pending` never settles.
* The module-level `Map`s are association lists; one event of a state machine is
  one run of synchronous code between two suspension points.
-/

namespace PhotoBooth

/-! ## Numbers -/

/-- `Math.round`: the nearest integer, halves rounded towards `+∞`. -/
def jsRound (q : ℚ) : ℤ := ⌊q + 1 / 2⌋

/-- Assigning a non-negative number to `canvas.width` / `canvas.height`
truncates it to an integer (the values the program assigns with it are clamped
to at least 1 and far below `2^31`; the one value that is not clamped, the size
of the box crop, is assigned with `assignCanvasDim`). -/
def canvasDim (q : ℚ) : ℕ := ⌊q⌋.toNat

/-- `Math.min(...xs)` on a non-empty list (`0` stands for the `Infinity` of the
empty list). -/
def minOf : List ℚ → ℚ
  | [] => 0
  | x :: xs => xs.foldl min x

/-- `Math.max(...xs)` on a non-empty list (`0` stands for the `-Infinity` of the
empty list). -/
def maxOf : List ℚ → ℚ
  | [] => 0
  | x :: xs => xs.foldl max x

/-! ## Data model -/

/-- A 2D point `{ x, y }`. -/
structure Point where
  x : ℚ
  y : ℚ
  deriving DecidableEq, Repr

/-- A rectangle `{ x, y, width, height }` (a face box, or polygon bounds). -/
structure Bounds where
  x : ℚ
  y : ℚ
  width : ℚ
  height : ℚ
  deriving DecidableEq, Repr

/-- What a canvas holds, as the drawing calls that produced it. -/
inductive Pixels where
  /-- The pixels of a decoded image, named by its source. -/
  | image (src : String)
  /-- One `drawImage(source, sx, sy, sw, sh, dx, dy, dw, dh)` on a fresh canvas. -/
  | drawn (source : Pixels) (sx sy sw sh dx dy dw dh : ℚ)
  /-- The base kept only inside a filled ellipse (`destination-in`); `blur` is
  the radius in px of the `blur(..)` filter on the mask. -/
  | ellipseMasked (base : Pixels) (cx cy rx ry : ℚ) (blur : ℕ)
  /-- The base kept only inside a filled closed polygon (`destination-in`). -/
  | polygonMasked (base : Pixels) (polygon : List Point)
  deriving DecidableEq, Repr

/-- A raster (decoded image or canvas): integer size and contents. -/
structure Canvas where
  width : ℕ
  height : ℕ
  pixels : Pixels
  deriving DecidableEq, Repr

/-- The value `{ image, size }` returned by the cutout builders. -/
structure FaceCutout where
  image : Canvas
  size : ℕ
  deriving DecidableEq, Repr

/-- The value `{ polygon, bounds }` returned by the polygon builders. -/
structure PolyData where
  polygon : List Point
  bounds : Bounds
  deriving DecidableEq, Repr

/-- The crop `{ sx, sy, size }` returned by `getCropFromBox`. -/
structure Crop where
  sx : ℚ
  sy : ℚ
  size : ℚ
  deriving DecidableEq, Repr

/-! ## Calibration tables -/

/-- The property names every object literal inherits from `Object.prototype`;
reading one of them from a table yields the inherited member, not `undefined`. -/
def objectPrototypeKeys : List String :=
  ["constructor", "__defineGetter__", "__defineSetter__", "hasOwnProperty",
   "__lookupGetter__", "__lookupSetter__", "isPrototypeOf", "propertyIsEnumerable",
   "toString", "valueOf", "__proto__", "toLocaleString"]

/-- The result of reading a property of an object literal. -/
inductive JsProp (α : Type) where
  /-- An own property: the record written in the literal. -/
  | own (value : α)
  /-- A member inherited from `Object.prototype` (a function or the prototype
  object: truthy, with none of the record's fields). -/
  | inherited (name : String)
  /-- No such property. -/
  | undefined
  deriving DecidableEq, Repr

/-- `table[key]` for an object literal with the given own properties. -/
def getProp {α : Type} (table : List (String × α)) (key : String) : JsProp α :=
  match table.lookup key with
  | some v => .own v
  | none => if key ∈ objectPrototypeKeys then .inherited key else .undefined

/-- The property key a character id is converted to (`undefined` when absent). -/
def propertyKey (characterId : Option String) : String :=
  characterId.getD "undefined"

/-- `TABLE[characterId] || TABLE.default`; `truthy` tells which own values are
truthy (every record is; a number is unless it is zero). -/
def lookupOrDefault {α : Type} (truthy : α → Bool) (table : List (String × α))
    (characterId : Option String) : JsProp α :=
  match getProp table (propertyKey characterId) with
  | .own v => if truthy v then .own v else getProp table "default"
  | .inherited name => .inherited name
  | .undefined => getProp table "default"

/-- A record of `CHARACTER_FACE_CONFIG`; `rot`, `scaleX`, `scaleY` are optional. -/
structure FaceConfig where
  cx : ℚ
  cy : ℚ
  size : ℚ
  rot : Option ℚ
  scaleX : Option ℚ
  scaleY : Option ℚ
  deriving DecidableEq, Repr

/-- A record of `FACE_TRIM`. -/
structure Trim where
  top : ℚ
  bottom : ℚ
  deriving DecidableEq, Repr

/-- A record of `DISPLAY_LAYOUT`. -/
structure Layout where
  top : ℚ
  width : ℚ
  deriving DecidableEq, Repr

def FIT_SCALE : List (String × ℚ) :=
  [("migu", 1), ("teddy", 78 / 100), ("pipper", 62 / 100), ("tasha", 78 / 100),
   ("default", 1)]

def DISPLAY_LAYOUT : List (String × Layout) :=
  [("migu", ⟨35, 82⟩), ("teddy", ⟨36, 72⟩), ("pipper", ⟨36, 58⟩), ("tasha", ⟨36, 72⟩),
   ("default", ⟨35, 82⟩)]

def CHARACTER_FACE_CONFIG : List (String × FaceConfig) :=
  [("migu", ⟨41, 40, 62, some (-16), some (19 / 10), some (126 / 100)⟩),
   ("teddy", ⟨385 / 10, 332 / 10, 98, none, some (18 / 10), some (135 / 100)⟩),
   ("pipper", ⟨50, 225 / 10, 78, none, some (132 / 100), some (112 / 100)⟩),
   ("tasha", ⟨465 / 10, 32, 80, none, some (135 / 100), some (112 / 100)⟩),
   ("default", ⟨50, 22, 32, none, none, none⟩)]

def FACE_TRIM : List (String × Trim) :=
  [("migu", ⟨6 / 100, 0⟩), ("teddy", ⟨8 / 100, 0⟩), ("pipper", ⟨10 / 100, 0⟩),
   ("tasha", ⟨8 / 100, 0⟩), ("default", ⟨6 / 100, 0⟩)]

def FACE_FOREHEAD_RATIO : ℚ := 26 / 100

def FACE_PAD_RATIO : ℚ := 14 / 100

/-- `CHARACTER_FACE_CONFIG[characterId] || CHARACTER_FACE_CONFIG.default`. -/
def faceConfigFor (characterId : Option String) : JsProp FaceConfig :=
  lookupOrDefault (fun _ => true) CHARACTER_FACE_CONFIG characterId

/-- `FACE_TRIM[characterId] || FACE_TRIM.default`. -/
def faceTrimFor (characterId : Option String) : JsProp Trim :=
  lookupOrDefault (fun _ => true) FACE_TRIM characterId

/-- `DISPLAY_LAYOUT[characterId] || DISPLAY_LAYOUT.default`. -/
def displayLayoutFor (characterId : Option String) : JsProp Layout :=
  lookupOrDefault (fun _ => true) DISPLAY_LAYOUT characterId

/-- `FIT_SCALE[characterId] || FIT_SCALE.default`. -/
def fitScaleFor (characterId : Option String) : JsProp ℚ :=
  lookupOrDefault (fun v => decide (v ≠ 0)) FIT_SCALE characterId

/-! ## Geometric primitives -/

/-- `downscaleImage(img, maxSize)`. -/
def downscaleImage (img : Canvas) (maxSize : ℚ) : Canvas :=
  let maxDim : ℚ := max (img.width : ℚ) (img.height : ℚ)
  -- `maxSize / 0` is `Infinity`, so the minimum is `1`
  let scale : ℚ := if maxDim = 0 then 1 else min 1 (maxSize / maxDim)
  let width := canvasDim (max 1 (jsRound (img.width * scale)))
  let height := canvasDim (max 1 (jsRound (img.height * scale)))
  { width := width
    height := height
    pixels := .drawn img.pixels 0 0 img.width img.height 0 0 width height }

/-- `createFallbackCutout(img)`: the centered square of side
`min(width, height)`, masked with an ellipse. -/
def createFallbackCutout (img : Canvas) : FaceCutout :=
  let size : ℕ := min img.width img.height
  let sx : ℚ := ((img.width : ℚ) - size) / 2
  let sy : ℚ := ((img.height : ℚ) - size) / 2
  let out : Pixels := .drawn img.pixels sx sy size size 0 0 size size
  { image :=
      { width := size
        height := size
        pixels := .ellipseMasked out ((size : ℚ) / 2) ((size : ℚ) / 2)
          ((size : ℚ) * (45 / 100)) ((size : ℚ) * (55 / 100)) 0 }
    size := size }

/-- `trimCanvas(canvas, topRatio, bottomRatio)`. -/
def trimCanvas (canvas : Canvas) (topRatio bottomRatio : ℚ) : Canvas :=
  let top : ℤ := max 0 (jsRound (canvas.height * topRatio))
  let bottom : ℤ := max 0 (jsRound (canvas.height * bottomRatio))
  let newHeight : ℤ := max 1 ((canvas.height : ℤ) - top - bottom)
  { width := canvas.width
    height := canvasDim newHeight
    pixels := .drawn canvas.pixels 0 top canvas.width newHeight 0 0 canvas.width newHeight }

/-- `applyTrim(canvas, characterId)`. -/
def applyTrim (canvas : Canvas) (characterId : Option String) : Canvas :=
  match faceTrimFor characterId with
  | .own trim =>
    if trim.top = 0 ∧ trim.bottom = 0 then canvas
    else trimCanvas canvas trim.top trim.bottom
  -- an inherited member has no `top` or `bottom`
  | .inherited _ => canvas
  | .undefined => canvas

/-- `getCropFromBox(img, box)`. -/
def getCropFromBox (img : Canvas) (box : Option Bounds) : Crop :=
  let minSize : ℚ := min (img.width : ℚ) (img.height : ℚ)
  match box with
  | none =>
    let fallback := minSize * (7 / 10)
    { sx := ((img.width : ℚ) - fallback) / 2
      sy := (img.height : ℚ) * (8 / 100)
      size := fallback }
  | some box =>
    let scale : ℚ := 105 / 100
    let size := max box.width box.height * scale
    let cx := box.x + box.width / 2
    let cy := box.y + box.height * (54 / 100)
    { sx := max 0 (min ((img.width : ℚ) - size) (cx - size / 2))
      sy := max 0 (min ((img.height : ℚ) - size) (cy - size / 2))
      size := size }

/-- `cropCanvasToBounds(canvas, bounds, padRatio)`. -/
def cropCanvasToBounds (canvas : Canvas) (bounds : Bounds) (padRatio : ℚ) : Canvas :=
  let sizeRaw := max bounds.width bounds.height * (1 + padRatio)
  let size : ℤ := max 1 (jsRound sizeRaw)
  let cx := bounds.x + bounds.width / 2
  let cy := bounds.y + bounds.height / 2
  let sx : ℤ := max 0 (min ((canvas.width : ℤ) - size) (jsRound (cx - size / 2)))
  let sy : ℤ := max 0 (min ((canvas.height : ℤ) - size) (jsRound (cy - size / 2)))
  { width := canvasDim size
    height := canvasDim size
    pixels := .drawn canvas.pixels sx sy size size 0 0 size size }

/-- `maskImageWithPolygon(img, polygon)`. -/
def maskImageWithPolygon (img : Canvas) (polygon : List Point) : Canvas :=
  { width := img.width
    height := img.height
    pixels := .polygonMasked
      (.drawn img.pixels 0 0 img.width img.height 0 0 img.width img.height) polygon }

/-- Whether `drawImage` refuses this source with an `InvalidStateError`: it does
for a canvas element whose width or height is 0, while a decoded image without
pixels is skipped silently. -/
def Canvas.isEmptyCanvas (c : Canvas) : Bool :=
  match c.pixels with
  | .image _ => false
  | _ => c.width == 0 || c.height == 0

/-- `applyEllipseMask(canvas, box, crop)`.  Three canvas calls can throw:
`drawImage(canvas, 0, 0)` when `canvas` is a canvas element without pixels,
`ellipse` when a radius is negative, and `drawImage(mask, 0, 0)` when the mask,
which has the size of `canvas`, has no pixels. -/
def applyEllipseMask (canvas : Canvas) (box : Option Bounds) (crop : Crop) :
    Except String Canvas :=
  let base : Pixels :=
    .drawn canvas.pixels 0 0 canvas.width canvas.height 0 0 canvas.width canvas.height
  let cx : ℚ :=
    match box with
    | none => (canvas.width : ℚ) / 2
    | some box => (box.x - crop.sx) + box.width / 2
  let cy : ℚ :=
    match box with
    | none => (canvas.height : ℚ) / 2
    | some box => (box.y - crop.sy) + box.height / 2 + box.height * (6 / 100)
  let rx : ℚ :=
    match box with
    | none => (canvas.width : ℚ) * (38 / 100)
    | some box => box.width * (65 / 100)
  let ry : ℚ :=
    match box with
    | none => (canvas.height : ℚ) * (48 / 100)
    | some box => box.height * (9 / 10)
  if canvas.isEmptyCanvas then
    .error "InvalidStateError: the image argument is a canvas element without pixels"
  else if rx < 0 ∨ ry < 0 then
    .error "IndexSizeError: the radius provided is negative"
  else if canvas.width = 0 ∨ canvas.height = 0 then
    .error "InvalidStateError: the image argument is a canvas element without pixels"
  else
    .ok { width := canvas.width, height := canvas.height
          pixels := .ellipseMasked base cx cy rx ry 6 }

/-- The tight bounding box computed by the `forEach` loops of the polygon
builders. -/
def boundsOf (polygon : List Point) : Bounds :=
  let minX := minOf (polygon.map fun p => p.x)
  let minY := minOf (polygon.map fun p => p.y)
  let maxX := maxOf (polygon.map fun p => p.x)
  let maxY := maxOf (polygon.map fun p => p.y)
  { x := minX, y := minY, width := maxX - minX, height := maxY - minY }

/-! ## Polygon builders -/

/-- The 68-point landmark set of face-api, through the three accessors the
program calls. -/
structure Landmarks68 where
  getJawOutline : List Point
  getLeftEyeBrow : List Point
  getRightEyeBrow : List Point
  deriving DecidableEq, Repr

/-- `buildFacePolygon(landmarks)`. -/
def buildFacePolygon (landmarks : Landmarks68) : PolyData :=
  let jaw := landmarks.getJawOutline
  let leftBrow := landmarks.getLeftEyeBrow
  let rightBrow := landmarks.getRightEyeBrow
  let browPoints := rightBrow.reverse ++ leftBrow.reverse
  let minBrowY := minOf (browPoints.map fun p => p.y)
  let maxJawY := maxOf (jaw.map fun p => p.y)
  let faceHeight := max 1 (maxJawY - minBrowY)
  let topY := max 0 (minBrowY - faceHeight * FACE_FOREHEAD_RATIO)
  let delta := minBrowY - topY
  let topPoints := browPoints.map fun p => ({ x := p.x, y := p.y - delta } : Point)
  let polygon := (jaw.map fun p => ({ x := p.x, y := p.y } : Point)) ++ topPoints
  { polygon := polygon, bounds := boundsOf polygon }

def FACE_OVAL : List ℕ :=
  [10, 338, 297, 332, 284, 251, 389, 356, 454, 323, 361, 288, 397, 365, 379,
   378, 400, 377, 152, 148, 176, 149, 150, 136, 172, 58, 132, 93, 234, 127,
   162, 21, 54, 103, 67, 109]

/-- The second `map` of `buildFacePolygonFromMesh`: one outline point pushed
outwards. -/
def adjustPoint (minX maxX minY faceHeight : ℚ) (p : Point) : Point :=
  let expandX := faceHeight * (12 / 100)
  let expandTop := faceHeight * (14 / 100)
  let expandBottom := faceHeight * (16 / 100)
  let centerX := (minX + maxX) / 2
  let nx := centerX + (p.x - centerX) * (1 + expandX / max 1 (maxX - minX))
  let ny :=
    if p.y ≤ minY + faceHeight * (35 / 100) then max 0 (p.y - expandTop)
    else if p.y ≥ minY + faceHeight * (75 / 100) then p.y + expandBottom
    else p.y
  { x := nx, y := ny }

/-- `xs.map(f)` where the callback throws on some elements (`f x = none`): the
mapped list, or `none` when a call threw. -/
def mapOrThrow {α β : Type} (f : α → Option β) : List α → Option (List β)
  | [] => some []
  | x :: xs =>
    match f x with
    | none => none
    | some y => (mapOrThrow f xs).map fun ys => y :: ys

/-- The callback of the first `map` of `buildFacePolygonFromMesh`:
`p = landmarks[idx]` scaled to pixels; reading `p.x` throws a `TypeError` when
`landmarks[idx]` is `undefined`, the index being beyond the end of the list. -/
def outlinePoint (landmarks : List Point) (width height : ℚ) (idx : ℕ) : Option Point :=
  match landmarks[idx]? with
  | none => none
  | some p => some { x := p.x * width, y := p.y * height }

/-- `buildFacePolygonFromMesh(landmarks, width, height)`; the `error` result is
the `TypeError` thrown by the first `map`. -/
def buildFacePolygonFromMesh (landmarks : Option (List Point)) (width height : ℚ) :
    Except String (Option PolyData) :=
  match landmarks with
  | none => .ok none
  | some landmarks =>
    if landmarks.length < 200 then .ok none
    else
      match mapOrThrow (outlinePoint landmarks width height) FACE_OVAL with
      | none => .error "TypeError: Cannot read properties of undefined (reading 'x')"
      | some polygon =>
        let b := boundsOf polygon
        let minX := b.x
        let minY := b.y
        let maxX := b.x + b.width
        let maxY := b.y + b.height
        let faceHeight := max 1 (maxY - minY)
        let adjusted := polygon.map (adjustPoint minX maxX minY faceHeight)
        .ok (some { polygon := adjusted, bounds := boundsOf adjusted })

/-! ## Promises and detectors -/

/-- A promise, seen from the moment it is started. -/
inductive Promise (α : Type) where
  /-- Never settles. -/
  | pending
  /-- Fulfils `after` milliseconds later with `value`. -/
  | fulfilled (after : ℕ) (value : α)
  /-- Rejects `after` milliseconds later. -/
  | rejected (after : ℕ)
  deriving DecidableEq, Repr

/-- A promise started `t0` milliseconds late. -/
def Promise.delay {α : Type} (t0 : ℕ) : Promise α → Promise α
  | .pending => .pending
  | .fulfilled t v => .fulfilled (t0 + t) v
  | .rejected t => .rejected (t0 + t)

/-- The rest of an `async` body after `const v = await p`. -/
def Promise.andThen {α β : Type} (p : Promise α) (k : α → Promise β) : Promise β :=
  match p with
  | .pending => .pending
  | .rejected t => .rejected t
  | .fulfilled t v => (k v).delay t

/-- The body `try { return await p } catch { return null }`. -/
def Promise.catchNull {α : Type} (p : Promise (Option α)) : Promise (Option α) :=
  match p with
  | .pending => .pending
  | .fulfilled t v => .fulfilled t v
  | .rejected t => .fulfilled t none

/-- `withTimeout(promise, ms, fallback)`: a race against a timer; the promise
wins when it settles strictly before the timer fires. -/
def withTimeout {α : Type} (promise : Promise α) (ms : ℕ) (fallback : α) : Promise α :=
  match promise with
  | .pending => .fulfilled ms fallback
  | .fulfilled t v => if t < ms then .fulfilled t v else .fulfilled ms fallback
  | .rejected t => if t < ms then .rejected t else .fulfilled ms fallback

/-- A result of `detectSingleFace(..).withFaceLandmarks(true)`. -/
structure Detection where
  landmarks : Option Landmarks68
  deriving DecidableEq, Repr

/-- What the detection libraries do when called on the working image. -/
structure Detectors where
  /-- The call `loadFaceMesh()`. -/
  meshLoad : Promise Unit
  /-- The call `faceMesh.send`: fulfilled when `onResults` delivers
  `results?.multiFaceLandmarks?.[0]`, rejected when `send` rejects first. -/
  meshSend : Promise (Option (List Point))
  /-- The calls `loadFaceApi()` then `detectSingleFace(..).withFaceLandmarks(true)`. -/
  landmarks68 : Promise (Option Detection)
  /-- The call `new window.FaceDetector(..).detect(img)`, returning bounding
  boxes; `none` when the browser has no `FaceDetector`. -/
  nativeFaces : Option (Promise (List Bounds))
  /-- The calls `loadFaceApi()` then `detectSingleFace(..)`, returning
  `detection?.box`. -/
  tinyFace : Promise (Option Bounds)

/-- `detectFaceMeshLandmarks(img)`. -/
def detectFaceMeshLandmarks (env : Detectors) : Promise (Option (List Point)) :=
  let results : Promise (Option (List Point)) :=
    match env.meshSend with
    | .fulfilled t v => if t < 3500 then .fulfilled t v else .fulfilled 3500 none
    | .rejected t => if t < 3500 then .fulfilled t none else .fulfilled 3500 none
    | .pending => .fulfilled 3500 none
  match env.meshLoad with
  | .fulfilled t () => if t < 4000 then results.delay t else .fulfilled 4000 none
  | .rejected t => if t < 4000 then .fulfilled t none else .fulfilled 4000 none
  | .pending => .fulfilled 4000 none

/-- `detectLandmarks(img)`. -/
def detectLandmarks (env : Detectors) : Promise (Option Detection) :=
  env.landmarks68.catchNull

/-- `faces.sort((a, b) => area(b) - area(a))[0]`: the first face of largest
area. -/
def largestFace (first : Bounds) (rest : List Bounds) : Bounds :=
  rest.foldl
    (fun best f => if best.width * best.height < f.width * f.height then f else best) first

/-- `detectFaceBox(img)`. -/
def detectFaceBox (env : Detectors) : Promise (Option Bounds) :=
  match env.nativeFaces with
  | none => env.tinyFace.catchNull
  | some detect =>
    match detect with
    | .pending => .pending
    | .rejected t => env.tinyFace.catchNull.delay t
    | .fulfilled t [] => env.tinyFace.catchNull.delay t
    | .fulfilled t (f :: fs) => .fulfilled t (some (largestFace f fs))

/-! ## Face cutout builder -/

/-- The four lines shared by the two polygon branches of `createFaceCutout`:
mask, tighten, trim, and report the trimmed width as size. -/
def polygonCutout (sample : Canvas) (polyData : PolyData) (characterId : Option String) :
    FaceCutout :=
  let masked := maskImageWithPolygon sample polyData.polygon
  let tightened := cropCanvasToBounds masked polyData.bounds FACE_PAD_RATIO
  let trimmed := applyTrim tightened characterId
  { image := trimmed, size := trimmed.width }

/-- Assigning an arbitrary number to `canvas.width` or `canvas.height`, which
are `unsigned long` attributes reflected with a default: the number is
truncated towards zero and taken modulo 2^32, and a result above 2^31 − 1 is
replaced by the default, 300 for the width and 150 for the height.  For a number
from 0 up to 2^31 this is `canvasDim`. -/
def assignCanvasDim (dflt : ℕ) (value : ℚ) : ℕ :=
  let truncated : ℤ := if 0 ≤ value then ⌊value⌋ else ⌈value⌉
  let wrapped : ℤ := truncated % 4294967296
  if wrapped ≤ 2147483647 then wrapped.toNat else dflt

/-- The box branch of `createFaceCutout`: crop, ellipse mask, trim.  The crop
size is not clamped before it is assigned to the crop canvas: a size below one
pixel gives a canvas without pixels, and `applyEllipseMask` throws when it
draws that canvas. -/
def boxCutout (sample : Canvas) (box : Bounds) (characterId : Option String) :
    Except String FaceCutout :=
  let crop := getCropFromBox sample (some box)
  let cropCanvas : Canvas :=
    { width := assignCanvasDim 300 crop.size
      height := assignCanvasDim 150 crop.size
      pixels := .drawn sample.pixels crop.sx crop.sy crop.size crop.size 0 0 crop.size crop.size }
  match applyEllipseMask cropCanvas (some box) crop with
  | .error e => .error e
  | .ok masked =>
    let trimmed := applyTrim masked characterId
    .ok { image := trimmed, size := trimmed.width }

/-- The `job` of `createFaceCutout(img, faceSrc, characterId)`; `fastFace` is the
module constant `FAST_FACE`. -/
def createFaceCutoutJob (fastFace : Bool) (img : Canvas) (characterId : Option String)
    (env : Detectors) : Promise FaceCutout :=
  let sample := downscaleImage img 512
  let fallback := createFallbackCutout sample
  if fastFace then
    .fulfilled 0 { image := applyTrim fallback.image characterId, size := fallback.size }
  else
    (withTimeout (detectFaceMeshLandmarks env) 1800 none).andThen fun meshLandmarks =>
      let polyData : Except String (Option PolyData) :=
        match meshLandmarks with
        | none => .ok none
        | some lm => buildFacePolygonFromMesh (some lm) sample.width sample.height
      match polyData with
      | .error _ => .rejected 0
      | .ok (some polyData) => .fulfilled 0 (polygonCutout sample polyData characterId)
      | .ok none =>
        (withTimeout (detectLandmarks env) 1800 none).andThen fun detection =>
          match detection.bind fun d => d.landmarks with
          | some landmarks =>
            .fulfilled 0 (polygonCutout sample (buildFacePolygon landmarks) characterId)
          | none =>
            (withTimeout (detectFaceBox env) 1200 none).andThen fun box =>
              match box with
              | none => .fulfilled 0 fallback
              | some box =>
                match boxCutout sample box characterId with
                | .error _ => .rejected 0
                | .ok cutout => .fulfilled 0 cutout

/-! ## Module-level maps -/

/-- A JavaScript `Map` with string keys, as an association list without
duplicate keys. -/
abbrev JsMap (α : Type) := List (String × α)

/-- `map.get(key)`. -/
def mapGet {α : Type} : JsMap α → String → Option α
  | [], _ => none
  | (k, v) :: rest, key => if k = key then some v else mapGet rest key

/-- `map.has(key)`. -/
def mapHas {α : Type} (m : JsMap α) (key : String) : Bool := (mapGet m key).isSome

/-- `map.delete(key)`. -/
def mapDelete {α : Type} (m : JsMap α) (key : String) : JsMap α :=
  m.filter fun e => decide (e.1 ≠ key)

/-- `map.set(key, value)`. -/
def mapSet {α : Type} (m : JsMap α) (key : String) (value : α) : JsMap α :=
  (key, value) :: mapDelete m key

/-- Whether a string is truthy. -/
def truthyString : Option String → Option String
  | some s => if s = "" then none else some s
  | none => none

/-- The module constants read from the environment. -/
structure Config where
  /-- The constant `FAST_FACE`. -/
  fastFace : Bool
  /-- The constant `USE_AI_AVATAR`. -/
  useAiAvatar : Bool
  deriving DecidableEq, Repr

/-! ## createFaceCutout: cache and in-flight map -/

/-- The cache key of `createFaceCutout`:
`faceSrc ? (characterId || "default") + ":" + faceSrc : null`. -/
def faceCutoutKey (faceSrc characterId : Option String) : Option String :=
  match truthyString faceSrc with
  | none => none
  | some src => some ((truthyString characterId).getD "default" ++ ":" ++ src)

/-- A started `job` of `createFaceCutout` that has not settled yet. -/
structure CutoutJob where
  id : ℕ
  key : Option String
  img : Canvas
  characterId : Option String
  deriving DecidableEq, Repr

/-- The state `createFaceCutout` works on. -/
structure CutoutState where
  faceCutoutCache : JsMap FaceCutout
  /-- The map `faceCutoutInflight`: a key is mapped to the id of the job whose
  promise it holds. -/
  faceCutoutInflight : JsMap ℕ
  /-- The jobs that have not settled. -/
  running : List CutoutJob
  /-- The ids of the jobs that rejected. -/
  rejected : List ℕ
  /-- How many jobs were started; the next job gets this id. -/
  started : ℕ
  deriving DecidableEq, Repr

/-- What a call of a de-duplicating function hands to its caller. -/
inductive Returned (α : Type) where
  /-- The cached value. -/
  | cached (value : α)
  /-- The promise found in the in-flight map. -/
  | joined (job : ℕ)
  /-- The promise of a job started by this call. -/
  | started (job : ℕ)
  /-- No value (`null`). -/
  | nothing
  deriving DecidableEq, Repr

/-- The synchronous part of `createFaceCutout(img, faceSrc, characterId)`, up to
`await job`: cache check, in-flight check, otherwise the job is started and
registered. -/
def createFaceCutout (s : CutoutState) (img : Canvas) (faceSrc characterId : Option String) :
    CutoutState × Returned FaceCutout :=
  let cacheKey := faceCutoutKey faceSrc characterId
  let start : CutoutState × Returned FaceCutout :=
    let job : CutoutJob :=
      { id := s.started, key := cacheKey, img := img, characterId := characterId }
    let s1 := { s with running := s.running ++ [job], started := s.started + 1 }
    match cacheKey with
    | none => (s1, .started job.id)
    | some key =>
      ({ s1 with faceCutoutInflight := mapSet s1.faceCutoutInflight key job.id },
        .started job.id)
  match cacheKey with
  | none => start
  | some key =>
    match mapGet s.faceCutoutCache key with
    | some cutout => (s, .cached cutout)
    | none =>
      match mapGet s.faceCutoutInflight key with
      | some job => (s, .joined job)
      | none => start

/-- The job `job` settles, the detectors having behaved as `env`; the rest of
`createFaceCutout` after `await job` runs in the call that started the job.
When the job rejects, `await job` throws and the two statements after it are
not reached. -/
def faceCutoutSettles (cfg : Config) (s : CutoutState) (job : ℕ) (env : Detectors) :
    CutoutState :=
  match s.running.find? fun j => decide (j.id = job) with
  | none => s
  | some j =>
    match createFaceCutoutJob cfg.fastFace j.img j.characterId env with
    | .pending => s
    | .rejected _ =>
      { s with
        running := s.running.filter fun r => decide (r.id ≠ job)
        rejected := job :: s.rejected }
    | .fulfilled _ result =>
      let s1 := { s with running := s.running.filter fun r => decide (r.id ≠ job) }
      match j.key with
      | none => s1
      | some key =>
        { s1 with
          faceCutoutInflight := mapDelete s1.faceCutoutInflight key
          faceCutoutCache := mapSet s1.faceCutoutCache key result }

/-! ## getAvatarDataUrl: cache and in-flight map -/

/-- The UTF-16 code units of a string (`charCodeAt`). -/
def utf16 (s : String) : List ℕ :=
  (s.toList.map fun c =>
    if c.toNat < 65536 then [c.toNat]
    else [55296 + (c.toNat - 65536) / 1024, 56320 + (c.toNat - 65536) % 1024]).flatten

/-- `hashString(input)`: the 32-bit pattern of `((hash << 5) + hash) ^ code`,
printed in base 16. -/
def hashString (input : String) : String :=
  let hash := (utf16 input).foldl (fun hash code => Nat.xor ((hash * 32 + hash) % 2 ^ 32) code) 5381
  String.mk (Nat.toDigits 16 hash)

/-- `getAvatarCacheKey(sourceDataUrl)`. -/
def getAvatarCacheKey (sourceDataUrl : Option String) : Option String :=
  match truthyString sourceDataUrl with
  | none => none
  | some src => some ("avatar_" ++ hashString src)

/-- How the `job` of `getAvatarDataUrl` goes. -/
inductive AvatarOutcome where
  /-- Neither the source nor the face canvas gave image data. -/
  | noImageData
  /-- The call `fetch` or another step threw. -/
  | threw
  /-- The response was not `ok`. -/
  | notOk
  /-- The response was `ok`; `avatarDataUrl` is `data?.avatarDataUrl` (absent
  also when the body was not JSON). -/
  | ok (avatarDataUrl : Option String)
  deriving DecidableEq, Repr

/-- The value the `job` of `getAvatarDataUrl` resolves with; it never rejects. -/
def avatarJobResult : AvatarOutcome → Option String
  | .noImageData => none
  | .threw => none
  | .notOk => none
  | .ok avatarDataUrl => truthyString avatarDataUrl

/-- A started `job` of `getAvatarDataUrl` that has not settled yet. -/
structure AvatarJob where
  id : ℕ
  key : String
  deriving DecidableEq, Repr

/-- The state `getAvatarDataUrl` works on. -/
structure AvatarState where
  avatarCache : JsMap String
  avatarInflight : JsMap ℕ
  running : List AvatarJob
  started : ℕ
  deriving DecidableEq, Repr

/-- The synchronous part of `getAvatarDataUrl(faceCanvas, sourceDataUrl)`, up to
`await job`. -/
def getAvatarDataUrl (cfg : Config) (s : AvatarState) (sourceDataUrl : Option String) :
    AvatarState × Returned String :=
  if !cfg.useAiAvatar then (s, .nothing)
  else
    match getAvatarCacheKey (some ((truthyString sourceDataUrl).getD "")) with
    | none => (s, .nothing)
    | some cacheKey =>
      match mapGet s.avatarCache cacheKey with
      | some url => (s, .cached url)
      | none =>
        match mapGet s.avatarInflight cacheKey with
        | some job => (s, .joined job)
        | none =>
          ({ s with
             running := s.running ++ [{ id := s.started, key := cacheKey }]
             started := s.started + 1
             avatarInflight := mapSet s.avatarInflight cacheKey s.started },
            .started s.started)

/-- The job `job` settles; the rest of `getAvatarDataUrl` after `await job` runs
in the call that started it. -/
def avatarSettles (s : AvatarState) (job : ℕ) (outcome : AvatarOutcome) : AvatarState :=
  match s.running.find? fun j => decide (j.id = job) with
  | none => s
  | some j =>
    let s1 :=
      { s with
        running := s.running.filter fun r => decide (r.id ≠ job)
        avatarInflight := mapDelete s.avatarInflight j.key }
    match avatarJobResult outcome with
    | none => s1
    | some result => { s1 with avatarCache := mapSet s1.avatarCache j.key result }

/-! ## The composite effect of YourCharacterScreen -/

/-- A call of one of the three setters the effect publishes through. -/
inductive UiCall where
  | setCompositeSrc (value : String)
  | setComposite (value : String)
  | setLoadingComposite (value : Bool)
  deriving DecidableEq, Repr

/-- Which pair of handlers an effect run attached to a job. -/
inductive Role where
  /-- The run started the job (the handlers on `job`). -/
  | starter
  /-- The run found the job in `compositeInflight` (the handlers on `inflight`). -/
  | joiner
  deriving DecidableEq, Repr

/-- One run of the effect. -/
structure Caller where
  id : ℕ
  /-- The variable `active` of this run. -/
  active : Bool
  /-- The value of `compositeSrc` the run closed over. -/
  compositeSrc : String
  /-- The cache key of the run. -/
  key : String
  /-- The job the run attached handlers to, if it did. -/
  watching : Option (ℕ × Role)
  deriving DecidableEq, Repr

/-- A started composite `job` that has not settled yet. -/
structure CompositeJob where
  id : ℕ
  key : String
  deriving DecidableEq, Repr

/-- The state the effect works on. -/
structure CompositeState where
  compositeCache : JsMap String
  compositeInflight : JsMap ℕ
  running : List CompositeJob
  started : ℕ
  /-- The runs of the effect, oldest first. -/
  callers : List Caller
  /-- The value `lastCompositeRef.current`. -/
  lastCompositeRef : Option String
  /-- Every setter call made so far, oldest first, with the run that made it. -/
  ui : List (ℕ × UiCall)
  deriving DecidableEq, Repr

/-- How a composite `job` settles. -/
inductive CompositeOutcome where
  /-- The template or the photo did not load: the job resolves with `null`. -/
  | imageLoadFailed
  /-- The composition returned the data URL `out`. -/
  | composed (out : String)
  /-- An exception was thrown while building the cutout or composing: the job
  rejects. -/
  | threw
  deriving DecidableEq, Repr

/-- The cache key of the effect:
`(characterId || "none") + ":" + (USE_AI_AVATAR ? "ai" : "raw") + ":" + faceSrc`. -/
def compositeKey (cfg : Config) (characterId : Option String) (faceSrc : String) : String :=
  (truthyString characterId).getD "none" ++ ":" ++ (if cfg.useAiAvatar then "ai" else "raw")
    ++ ":" ++ faceSrc

/-- The setter calls made for a composite `out` by a run that is entitled to
publish (cache-hit branch and the `then` handler of a started job). -/
def publish (s : CompositeState) (caller : ℕ) (compositeSrc out : String) : CompositeState :=
  let s1 : CompositeState :=
    if s.lastCompositeRef ≠ some out then
      { s with
        lastCompositeRef := some out
        ui := s.ui ++ [(caller, .setCompositeSrc out), (caller, .setComposite out)] }
    else if compositeSrc ≠ out then
      { s with ui := s.ui ++ [(caller, .setCompositeSrc out)] }
    else s
  { s1 with ui := s1.ui ++ [(caller, .setLoadingComposite false)] }

/-- One run of the effect for `faceSrc` (`state.shots?.[0]`) and `characterId`
(`state.character?.id`), in a render where `compositeSrc` had the given value. -/
def effect (cfg : Config) (s : CompositeState) (faceSrc characterId : Option String)
    (compositeSrc : String) : CompositeState :=
  -- `characterImg` is null exactly when `characterId` is falsy
  match truthyString faceSrc, truthyString characterId with
  | none, _ => s
  | some _, none => s
  | some faceSrc, some characterId =>
    let caller := s.callers.length
    let cacheKey := compositeKey cfg (some characterId) faceSrc
    let record (watching : Option (ℕ × Role)) : Caller :=
      { id := caller, active := true, compositeSrc := compositeSrc, key := cacheKey,
        watching := watching }
    match mapGet s.compositeCache cacheKey with
    | some cached =>
      publish { s with callers := s.callers ++ [record none] } caller compositeSrc cached
    | none =>
      match mapGet s.compositeInflight cacheKey with
      | some inflight =>
        { s with
          callers := s.callers ++ [record (some (inflight, .joiner))]
          ui := s.ui ++ [(caller, .setLoadingComposite true)] }
      | none =>
        { s with
          callers := s.callers ++ [record (some (s.started, .starter))]
          ui := s.ui ++ [(caller, .setCompositeSrc ""), (caller, .setLoadingComposite true)]
          running := s.running ++ [{ id := s.started, key := cacheKey }]
          started := s.started + 1
          compositeInflight := mapSet s.compositeInflight cacheKey s.started }

/-- The cleanup function of a run that attached handlers: `active = false`. -/
def cleanup (s : CompositeState) (caller : ℕ) : CompositeState :=
  { s with
    callers := s.callers.map fun c =>
      if c.id = caller ∧ c.watching.isSome then { c with active := false } else c }

/-- The handler a run attached, called when the job settled as `outcome`. -/
def runHandler (s : CompositeState) (c : Caller) (role : Role) (outcome : CompositeOutcome) :
    CompositeState :=
  match role, outcome with
  | .starter, .threw =>
    let s1 := { s with compositeInflight := mapDelete s.compositeInflight c.key }
    if !c.active then s1
    else { s1 with ui := s1.ui ++ [(c.id, .setCompositeSrc ""), (c.id, .setLoadingComposite false)] }
  | .starter, .imageLoadFailed =>
    let s1 := { s with compositeInflight := mapDelete s.compositeInflight c.key }
    if c.active then { s1 with ui := s1.ui ++ [(c.id, .setLoadingComposite false)] } else s1
  | .starter, .composed out =>
    let s1 := { s with compositeInflight := mapDelete s.compositeInflight c.key }
    if !c.active || out = "" then
      if c.active then { s1 with ui := s1.ui ++ [(c.id, .setLoadingComposite false)] } else s1
    else
      publish { s1 with compositeCache := mapSet s1.compositeCache c.key out } c.id
        c.compositeSrc out
  | .joiner, .threw =>
    if !c.active then s
    else { s with ui := s.ui ++ [(c.id, .setLoadingComposite false)] }
  | .joiner, .imageLoadFailed => s
  | .joiner, .composed out =>
    if !c.active || out = "" then s
    else
      { s with
        ui := s.ui ++ [(c.id, .setCompositeSrc out), (c.id, .setComposite out),
          (c.id, .setLoadingComposite false)] }

/-- The handler of one effect run is called if the run attached one to `job`. -/
def notify (job : ℕ) (outcome : CompositeOutcome) (s : CompositeState) (c : Caller) :
    CompositeState :=
  match c.watching with
  | some (watched, role) => if watched = job then runHandler s c role outcome else s
  | none => s

/-- The composite job `job` settles as `outcome`: the handlers attached to it
run in the order in which they were attached. -/
def compositeSettles (s : CompositeState) (job : ℕ) (outcome : CompositeOutcome) :
    CompositeState :=
  if s.running.any fun j => decide (j.id = job) then
    s.callers.foldl (notify job outcome)
      { s with running := s.running.filter fun r => decide (r.id ≠ job) }
  else s

/-! ## The whole module as a state machine -/

/-- The module-level state. -/
structure Machine where
  composite : CompositeState
  cutout : CutoutState
  avatar : AvatarState

/-- The state after the module is loaded. -/
def Machine.initial : Machine :=
  { composite :=
      { compositeCache := [], compositeInflight := [], running := [], started := 0,
        callers := [], lastCompositeRef := none, ui := [] }
    cutout :=
      { faceCutoutCache := [], faceCutoutInflight := [], running := [], rejected := [],
        started := 0 }
    avatar := { avatarCache := [], avatarInflight := [], running := [], started := 0 } }

/-- One run of synchronous code on the single-threaded scheduler. -/
inductive Event where
  /-- The effect runs. -/
  | effect (faceSrc characterId : Option String) (compositeSrc : String)
  /-- The cleanup of an effect run is called. -/
  | cleanup (caller : ℕ)
  /-- A composite job settles and its handlers run. -/
  | compositeSettles (job : ℕ) (outcome : CompositeOutcome)
  /-- A call of `createFaceCutout` runs up to its `await`. -/
  | createFaceCutout (img : Canvas) (faceSrc characterId : Option String)
  /-- A face cutout job settles and `createFaceCutout` resumes. -/
  | faceCutoutSettles (job : ℕ) (env : Detectors)
  /-- A call of `getAvatarDataUrl` runs up to its `await`. -/
  | getAvatarDataUrl (sourceDataUrl : Option String)
  /-- An avatar job settles and `getAvatarDataUrl` resumes. -/
  | avatarSettles (job : ℕ) (outcome : AvatarOutcome)

/-- The effect of one event. -/
def step (cfg : Config) (s : Machine) : Event → Machine
  | .effect faceSrc characterId compositeSrc =>
    { s with composite := effect cfg s.composite faceSrc characterId compositeSrc }
  | .cleanup caller => { s with composite := cleanup s.composite caller }
  | .compositeSettles job outcome =>
    { s with composite := compositeSettles s.composite job outcome }
  | .createFaceCutout img faceSrc characterId =>
    { s with cutout := (createFaceCutout s.cutout img faceSrc characterId).1 }
  | .faceCutoutSettles job env => { s with cutout := faceCutoutSettles cfg s.cutout job env }
  | .getAvatarDataUrl sourceDataUrl =>
    { s with avatar := (getAvatarDataUrl cfg s.avatar sourceDataUrl).1 }
  | .avatarSettles job outcome => { s with avatar := avatarSettles s.avatar job outcome }

/-- The state after a sequence of events, in any interleaving. -/
def run (cfg : Config) (events : List Event) : Machine :=
  events.foldl (step cfg) Machine.initial

/-! ## Invariants of the state machine -/

/-- The invariant of `createFaceCutout`: running jobs have distinct ids below
`started`, and a running job with a key is the entry of `faceCutoutInflight`
for that key while `faceCutoutCache` has none. -/
def CutoutInv (s : CutoutState) : Prop :=
  (∀ j ∈ s.running, j.id < s.started) ∧
    s.running.Pairwise (fun a b => a.id ≠ b.id) ∧
    (∀ j ∈ s.running, ∀ k, j.key = some k → mapGet s.faceCutoutInflight k = some j.id) ∧
    (∀ j ∈ s.running, ∀ k, j.key = some k → mapGet s.faceCutoutCache k = none)

/-- The invariant of `getAvatarDataUrl`, as for `createFaceCutout`. -/
def AvatarInv (s : AvatarState) : Prop :=
  (∀ j ∈ s.running, j.id < s.started) ∧
    s.running.Pairwise (fun a b => a.id ≠ b.id) ∧
    (∀ j ∈ s.running, mapGet s.avatarInflight j.key = some j.id) ∧
    (∀ j ∈ s.running, mapGet s.avatarCache j.key = none)

/-- The invariant of the composite effect: running jobs have distinct ids below
`started`; a running job is the entry of `compositeInflight` for its key while
`compositeCache` has none; the run that started a running job has the key of
that job; the ids of the runs are below their number. -/
def CompositeInv (s : CompositeState) : Prop :=
  (∀ j ∈ s.running, j.id < s.started) ∧
    s.running.Pairwise (fun a b => a.id ≠ b.id) ∧
    (∀ j ∈ s.running, mapGet s.compositeInflight j.key = some j.id) ∧
    (∀ j ∈ s.running, mapGet s.compositeCache j.key = none) ∧
    (∀ c ∈ s.callers, ∀ job, c.watching = some (job, .starter) →
      job < s.started ∧ ∀ j ∈ s.running, j.id = job → j.key = c.key) ∧
    (∀ c ∈ s.callers, c.id < s.callers.length)

/-- The setter calls made on behalf of one effect run. -/
def uiBy (caller : ℕ) (s : CompositeState) : List (ℕ × UiCall) :=
  s.ui.filter fun e => decide (e.1 = caller)

/-- A further run of the effect for this face and character starts nothing: the
run returns at once, or the composite is cached or in flight. -/
def CompositeKnown (cfg : Config) (s : CompositeState) (faceSrc characterId : Option String) :
    Prop :=
  match truthyString faceSrc, truthyString characterId with
  | some src, some cid =>
    (mapGet s.compositeCache (compositeKey cfg (some cid) src)).isSome = true ∨
      (mapGet s.compositeInflight (compositeKey cfg (some cid) src)).isSome = true
  | _, _ => True

/-- A further call of `createFaceCutout` for this key starts nothing: the cutout
is cached or in flight. -/
def CutoutKnown (s : CutoutState) (key : String) : Prop :=
  (mapGet s.faceCutoutCache key).isSome = true ∨ (mapGet s.faceCutoutInflight key).isSome = true

/-- A further call of `getAvatarDataUrl` for this source starts nothing: it
returns `null` at once, or the avatar is cached or in flight. -/
def AvatarKnown (cfg : Config) (s : AvatarState) (sourceDataUrl : Option String) : Prop :=
  cfg.useAiAvatar = false ∨
    match getAvatarCacheKey (some ((truthyString sourceDataUrl).getD "")) with
    | none => True
    | some key =>
      (mapGet s.avatarCache key).isSome = true ∨ (mapGet s.avatarInflight key).isSome = true

/-- No handler can publish on behalf of this effect run any more: every run with
this id has `active = false` or attached no handler. -/
def Quiet (s : CompositeState) (caller : ℕ) : Prop :=
  ∀ c ∈ s.callers, c.id = caller → c.active = false ∨ c.watching = none

/-! ## Sample inputs -/

/-- A decoded 100 × 100 photo. -/
def samplePhoto : Canvas := { width := 100, height := 100, pixels := .image "photo" }

/-- Detectors that never answer: every bounded wait runs out. -/
def silentDetectors : Detectors :=
  { meshLoad := .pending, meshSend := .pending, landmarks68 := .pending, nativeFaces := none,
    tinyFace := .pending }

/-- A mesh detector that answers after 110 ms with the given landmark list; the
other detectors never answer. -/
def meshDetectors (landmarks : List Point) : Detectors :=
  { silentDetectors with meshLoad := .fulfilled 10 (), meshSend := .fulfilled 100 (some landmarks) }

/-- A landmark list of 200 points, all at the centre of the image. -/
def shortMesh : List Point := List.replicate 200 { x := 1 / 2, y := 1 / 2 }

/-- A 300 × 400 photo. -/
def portraitPhoto : Canvas := { width := 300, height := 400, pixels := .image "portrait" }

/-- A box detector (the bundled model, no native `FaceDetector`) that answers
after 100 ms with the given box; the landmark detectors never answer. -/
def boxDetectors (box : Bounds) : Detectors :=
  { silentDetectors with tinyFace := .fulfilled 100 (some box) }

/-- The height `trimCanvas` gives a canvas of height `size` under a trim
record. -/
def trimmedHeight (size : ℕ) (trim : Trim) : ℤ :=
  max 1 ((size : ℤ) - max 0 (jsRound (size * trim.top)) - max 0 (jsRound (size * trim.bottom)))

/-- The module constants of the sample runs: FAST_FACE off, USE_AI_AVATAR on. -/
def sampleConfig : Config := { fastFace := false, useAiAvatar := true }

/-- A composite data URL. -/
def sampleComposite : String := "data:image/png;base64,AAAA"

/-- One request: the effect runs for the photo "photo-1" and the character
"migu". -/
def sampleRequest : Event := .effect (some "photo-1") (some "migu") ""

/-- The composite job started by `sampleRequest`. -/
def sampleJob : CompositeJob := { id := 0, key := "migu:ai:photo-1" }

/-- The effect run of `sampleRequest` after its cleanup. -/
def detachedCaller : Caller :=
  { id := 0, active := false, compositeSrc := "", key := "migu:ai:photo-1",
    watching := some (0, .starter) }

/-- One composite request whose mesh detector answers with a 200-point list:
the effect runs, the job calls `createFaceCutout`, the cutout job rejects, and
the composite job rejects in turn. -/
def rejectingRun : List Event :=
  [sampleRequest,
   .createFaceCutout samplePhoto (some "photo-1") (some "migu"),
   .faceCutoutSettles 0 (meshDetectors shortMesh),
   .compositeSettles 0 .threw]

/-- A 3 × 3 image. -/
def tinyPhoto : Canvas := { width := 3, height := 3, pixels := .image "tiny" }

/-- The rectangle `b` is the tight bounding box of the points: every point lies
in it and each of its four sides passes through a point. -/
def TightBounds (polygon : List Point) (b : Bounds) : Prop :=
  (∀ p ∈ polygon, b.x ≤ p.x ∧ p.x ≤ b.x + b.width ∧ b.y ≤ p.y ∧ p.y ≤ b.y + b.height) ∧
    (∃ p ∈ polygon, p.x = b.x) ∧ (∃ p ∈ polygon, p.x = b.x + b.width) ∧
    (∃ p ∈ polygon, p.y = b.y) ∧ (∃ p ∈ polygon, p.y = b.y + b.height)

/-- A mesh landmark list of 454 points, one short of the largest outline index. -/
def incompleteMesh : List Point := List.replicate 454 { x := 1 / 2, y := 1 / 2 }

/-- A mesh landmark list of 468 points, all at the centre of the image. -/
def flatMesh : List Point := List.replicate 468 { x := 1 / 2, y := 1 / 2 }

/-- A landmark set whose brows are 10 px below the top edge and whose jaw
reaches y = 110. -/
def highFace : Landmarks68 :=
  { getJawOutline := [⟨0, 60⟩, ⟨15, 110⟩, ⟨30, 60⟩]
    getLeftEyeBrow := [⟨18, 12⟩, ⟨28, 10⟩]
    getRightEyeBrow := [⟨2, 10⟩, ⟨12, 12⟩] }

/-- Detectors that all answer: the mesh detector after 110 ms with the given
landmark list, the sparse-landmark detector after 50 ms with the landmarks of
`highFace`, and the box detector after 100 ms with a box of 40 × 40 at
(20, 20). -/
def answeringDetectors (landmarks : List Point) : Detectors :=
  { meshLoad := .fulfilled 10 ()
    meshSend := .fulfilled 100 (some landmarks)
    landmarks68 := .fulfilled 50 (some { landmarks := some highFace })
    nativeFaces := none
    tinyFace := .fulfilled 100 (some ⟨20, 20, 40, 40⟩) }

/-- A face box half a pixel wide and high. -/
def subPixelBox : Bounds := { x := 20, y := 20, width := 1 / 2, height := 1 / 2 }

/-! ## Character compositor -/

/-- The arguments of `ctx.ellipse(cx, cy, rx, ry, 0, 0, 2π)`. -/
structure Ellipse where
  cx : ℚ
  cy : ℚ
  rx : ℚ
  ry : ℚ
  deriving DecidableEq, Repr

/-- The face layer drawn inside the clip region: after `translate(centerX,
centerY)` and `rotate`, `drawImage(image, -drawW / 2, -drawH / 2, drawW,
drawH)`, under the filter of `enhanceFace`. -/
structure FaceLayer where
  image : Canvas
  /-- The angle `cfg.rot || 0` in degrees (the code multiplies it by π / 180). -/
  rotationDegrees : ℚ
  centerX : ℚ
  centerY : ℚ
  drawW : ℚ
  drawH : ℚ
  deriving DecidableEq, Repr

/-- The canvas `renderComposite` encodes with `toDataURL`. -/
structure Composite where
  width : ℕ
  height : ℕ
  /-- The clip region, the ellipse of `ctx.ellipse(cx, cy, size / 2, size / 2, 0,
  0, 2π)`. -/
  clip : Ellipse
  /-- The face layer, drawn inside the clip region. -/
  face : FaceLayer
  /-- The rectangle of `drawInnerShadow(ctx, x, y, drawW, drawH)`, blended with
  `multiply` inside the clip region. -/
  shadow : Bounds
  /-- The character template, drawn last at (0, 0). -/
  template : Canvas
  deriving DecidableEq, Repr

/-- `value || 1` for an optional number. -/
def orOne : Option ℚ → ℚ
  | some v => if v = 0 then 1 else v
  | none => 1

/-- `renderComposite(characterImg, faceCutout, characterId)`.

When the lookup yields a member inherited from `Object.prototype`, `cfg.size`,
`cfg.cx` and `cfg.cy` are `undefined` and every coordinate is `NaN`: `ellipse`,
`translate` and `drawImage` return without effect, and `createRadialGradient`
in `drawInnerShadow`, whose parameters are restricted `double`s, throws a
`TypeError`.  With a record, the two `drawImage` calls throw for a canvas
element without pixels; the radii given to `ellipse` and `createRadialGradient`
are products of the positive numbers of the record and the template width, so
they are never negative. -/
def renderComposite (characterImg faceCutout : Canvas) (characterId : Option String) :
    Except String Composite :=
  match faceConfigFor characterId with
  | .own cfg =>
    let rotation := cfg.rot.getD 0
    let size := cfg.size / 100 * characterImg.width
    let cx := cfg.cx / 100 * characterImg.width
    let cy := cfg.cy / 100 * characterImg.height
    let drawW := size * orOne cfg.scaleX
    let drawH := size * orOne cfg.scaleY
    let x := cx - drawW / 2
    let y := cy - drawH / 2
    if faceCutout.isEmptyCanvas ∨ characterImg.isEmptyCanvas then
      .error "InvalidStateError: the image argument is a canvas element without pixels"
    else
      .ok
        { width := characterImg.width
          height := characterImg.height
          clip := { cx := cx, cy := cy, rx := size / 2, ry := size / 2 }
          face :=
            { image := faceCutout, rotationDegrees := rotation, centerX := cx, centerY := cy,
              drawW := drawW, drawH := drawH }
          shadow := { x := x, y := y, width := drawW, height := drawH }
          template := characterImg }
  | .inherited _ =>
    .error "TypeError: createRadialGradient: the provided double value is non-finite"
  | .undefined => .error "TypeError: Cannot read properties of undefined (reading 'rot')"

def CHARACTER_IMG : List (String × String) :=
  [("migu", "/assets/Character/Miru.png"), ("teddy", "/assets/Character/Teddy.png"),
   ("pipper", "/assets/Character/pied.png"), ("tasha", "/assets/Character/Teddy-old.png")]

/-- The memo `characterImg` of the screen: `null` without a character id,
otherwise `CHARACTER_IMG[characterId] || CHARACTER_IMG.migu`.  The effect loads
the template from it and starts no composite when the template fails to load. -/
def characterImgFor (characterId : Option String) : Option (JsProp String) :=
  match truthyString characterId with
  | none => none
  | some id =>
    match getProp CHARACTER_IMG id with
    | .own src => if src = "" then some (getProp CHARACTER_IMG "migu") else some (.own src)
    | .inherited name => some (.inherited name)
    | .undefined => some (getProp CHARACTER_IMG "migu")

/-- A 600 × 800 character template. -/
def sampleTemplate : Canvas := { width := 600, height := 800, pixels := .image "Teddy.png" }

/-! ## The avatarize route (src/app/api/avatarize/route.js) -/

/-- The two environment variables the route reads its credential from. -/
structure RouteEnv where
  GEMINI_API_KEY : Option String
  GOOGLE_API_KEY : Option String
  deriving DecidableEq, Repr

/-- The constant `API_KEY`:
`process.env.GEMINI_API_KEY || process.env.GOOGLE_API_KEY || ""`. -/
def API_KEY (env : RouteEnv) : String :=
  match truthyString env.GEMINI_API_KEY with
  | some key => key
  | none => (truthyString env.GOOGLE_API_KEY).getD ""

/-- A thrown error, through the two fields the handler reads. -/
structure JsError where
  name : String
  message : String
  deriving DecidableEq, Repr

/-- The field `imageData` of the request body. -/
inductive ImageField where
  /-- Missing, or a value that is not a string. -/
  | notString
  /-- A string. -/
  | string (value : String)
  deriving DecidableEq, Repr

/-- What `await req.json()` gives. -/
inductive RequestBody where
  /-- The call throws. -/
  | invalid (err : JsError)
  /-- The parsed body, through `body?.imageData` and `body?.characterId`. -/
  | json (imageData : ImageField) (characterId : Option String)
  deriving DecidableEq, Repr

/-- The object `inline_data` / `inlineData` of a response part. -/
structure InlineData where
  mime_type : Option String
  mimeType : Option String
  data : Option String
  deriving DecidableEq, Repr

/-- A part of `data.candidates[0].content.parts`. -/
structure Part where
  inline_data : Option InlineData
  inlineData : Option InlineData
  deriving DecidableEq, Repr

/-- What `await res.json()` gives on the upstream response. -/
inductive UpstreamJson where
  /-- The call throws. -/
  | invalid (err : JsError)
  /-- The parsed body, through `data?.candidates?.[0]?.content?.parts || []`. -/
  | data (parts : List Part)
  deriving DecidableEq, Repr

/-- What the call `fetch(endpoint, ..)` of `callGemini` does. -/
inductive Upstream where
  /-- The timer fires first: `controller.abort()` makes `fetch` reject with an
  `AbortError`. -/
  | aborted
  /-- The call rejects for another reason. -/
  | failed (err : JsError)
  /-- The call resolves with a response: its status, the elapsed time, its body
  as text (`none` when `res.text()` rejects) and as JSON. -/
  | responded (status : ℕ) (elapsedMs : ℕ) (text : Option String) (json : UpstreamJson)
  deriving DecidableEq, Repr

/-- The JSON body of a response of the route. -/
structure ResponseBody where
  error : Option String
  status : Option ℕ
  elapsedMs : Option ℕ
  details : Option String
  ok : Option Bool
  avatarDataUrl : Option String
  deriving DecidableEq, Repr

/-- A response of the route: `NextResponse.json(body, { status })`. -/
structure Response where
  status : ℕ
  body : ResponseBody
  deriving DecidableEq, Repr

/-- A body with the field `error` only. -/
def errorBody (message : String) : ResponseBody :=
  { error := some message, status := none, elapsedMs := none, details := none, ok := none,
    avatarDataUrl := none }

/-- What the handler does besides answering. -/
inductive RouteEffect where
  /-- The call `req.json()`. -/
  | readBody
  /-- The call `fetch` to the generative model, with the character label of the
  prompt and the image sent. -/
  | fetch (characterId : String) (mime base64 : String)
  /-- A line written with `console.log` or `console.error`. -/
  | log (line : String)
  deriving DecidableEq, Repr

/-- The class `[a-zA-Z0-9.+-]` of the data URL pattern. -/
def isMimeChar (c : Char) : Bool :=
  c.isAlphanum || c.toNat = 46 || c.toNat = 43 || c.toNat = 45

/-- The characters `.` does not match: the line terminators. -/
def isLineTerminator (c : Char) : Bool :=
  c.toNat = 10 || c.toNat = 13 || c.toNat = 8232 || c.toNat = 8233

/-- The class `\s`. -/
def isJsSpace (c : Char) : Bool :=
  c.toNat = 9 || c.toNat = 10 || c.toNat = 11 || c.toNat = 12 || c.toNat = 13 ||
    c.toNat = 32 || c.toNat = 160 || c.toNat = 5760 || (8192 ≤ c.toNat && c.toNat ≤ 8202) ||
    c.toNat = 8232 || c.toNat = 8233 || c.toNat = 8239 || c.toNat = 8287 ||
    c.toNat = 12288 || c.toNat = 65279

/-- The rest of a list after a given beginning, if it begins so. -/
def afterStart : List Char → List Char → Option (List Char)
  | [], rest => some rest
  | _ :: _, [] => none
  | c :: cs, d :: ds => if c = d then afterStart cs ds else none

/-- `parseDataUrl(dataUrl)` for a string: the match of
`/^data:(image\/[a-zA-Z0-9.+-]+);base64,(.+)$/`, the payload stripped of white
space. -/
def parseDataUrl (dataUrl : String) : Option (String × String) :=
  match afterStart "data:image/".toList dataUrl.toList with
  | none => none
  | some rest =>
    let subtype := rest.takeWhile isMimeChar
    if subtype = [] then none
    else
      match afterStart ";base64,".toList (rest.dropWhile isMimeChar) with
      | none => none
      | some payload =>
        if payload = [] ∨ payload.any isLineTerminator = true then none
        else
          some ("image/" ++ String.mk subtype,
            String.mk (payload.filter fun c => !isJsSpace c))

/-- `extractImageFromResponse(data)`, as the pair (mime, base64). -/
def extractImageFromResponse (parts : List Part) : String × String :=
  let hasData (inline : Option InlineData) : Bool :=
    ((inline.bind fun i => truthyString i.data).isSome)
  let imagePart := parts.find? fun p => hasData p.inline_data || hasData p.inlineData
  let inline : Option InlineData :=
    match imagePart with
    | none => none
    | some p =>
      match p.inline_data with
      | some i => some i
      | none => p.inlineData
  let mime : String :=
    match inline with
    | none => "image/png"
    | some i =>
      match truthyString i.mime_type with
      | some m => m
      | none => (truthyString i.mimeType).getD "image/png"
  let base64 : String := ((inline.bind fun i => truthyString i.data).getD "")
  (mime, base64)

/-- Whether a status is a success status (`res.ok`). -/
def statusOk (status : ℕ) : Bool := decide (200 ≤ status ∧ status ≤ 299)

/-- The value `callGemini` returns. -/
inductive GeminiResult where
  /-- The object `{ ok: false, status, elapsedMs, details }`. -/
  | failure (status : ℕ) (elapsedMs : ℕ) (details : String)
  /-- The object `{ ok: true, mime, base64 }`. -/
  | image (mime base64 : String)
  deriving DecidableEq, Repr

/-- `callGemini({ prompt, images, reqId })` once `fetch` has behaved as
`upstream`: the value returned or the error thrown, and the lines logged. -/
def callGemini (upstream : Upstream) : Except JsError GeminiResult × List RouteEffect :=
  match upstream with
  | .aborted => (.error { name := "AbortError", message := "This operation was aborted" }, [])
  | .failed err => (.error err, [])
  | .responded status elapsedMs text json =>
    if !statusOk status then
      (.ok (.failure status elapsedMs (text.getD "")), [.log "fail status"])
    else
      match json with
      | .invalid err => (.error err, [])
      | .data parts =>
        if (extractImageFromResponse parts).2 = "" then
          (.ok (.failure 500 elapsedMs "No image returned from Gemini."),
            [.log "fail empty image"])
        else
          (.ok (.image (extractImageFromResponse parts).1 (extractImageFromResponse parts).2),
            [.log "success"])

/-- The `catch` block of `POST`. -/
def handleError (err : JsError) : Response × List RouteEffect :=
  if err.name = "AbortError" then
    ({ status := 504, body := errorBody "Gemini request timed out." }, [.log "timeout"])
  else
    ({ status := 500,
       body := errorBody (if err.message = "" then "Avatarize failed." else err.message) },
      [.log "Avatarize failed"])

/-- `POST(req)`: the response, and what the handler did, in order.  `request` is
what reading the body would give and `upstream` what the call to the model
would do; either is used only if the handler gets there. -/
def POST (env : RouteEnv) (request : RequestBody) (upstream : Upstream) :
    Response × List RouteEffect :=
  if API_KEY env = "" then
    ({ status := 500, body := errorBody "Missing GEMINI_API_KEY." }, [])
  else
    match request with
    | .invalid err =>
      ((handleError err).1, [.log "start", .readBody] ++ (handleError err).2)
    | .json imageData characterId =>
      match imageData with
      | .notString =>
        ({ status := 400, body := errorBody "Missing image data." },
          [.log "start", .readBody, .log "fail missing image data"])
      | .string value =>
        if value = "" then
          ({ status := 400, body := errorBody "Missing image data." },
            [.log "start", .readBody, .log "fail missing image data"])
        else
          match parseDataUrl value with
          | none =>
            ({ status := 400, body := errorBody "Invalid image data format." },
              [.log "start", .readBody, .log "fail invalid data url"])
          | some parsed =>
            let before : List RouteEffect :=
              [.log "start", .readBody,
                .fetch ((truthyString characterId).getD "unknown") parsed.1 parsed.2]
            match callGemini upstream with
            | (.error err, logged) => ((handleError err).1, before ++ logged ++ (handleError err).2)
            | (.ok (.failure status elapsedMs details), logged) =>
              ({ status := 500,
                 body :=
                   { error := some "Gemini avatar step failed.", status := some status,
                     elapsedMs := some elapsedMs, details := some details, ok := none,
                     avatarDataUrl := none } },
                before ++ logged)
            | (.ok (.image mime base64), logged) =>
              ({ status := 200,
                 body :=
                   { error := none, status := none, elapsedMs := none, details := none,
                     ok := some true,
                     avatarDataUrl := some ("data:" ++ mime ++ ";base64," ++ base64) } },
                before ++ logged)

/-- An environment without a credential. -/
def noCredential : RouteEnv := { GEMINI_API_KEY := none, GOOGLE_API_KEY := some "" }

/-- An environment with a credential. -/
def withCredential : RouteEnv := { GEMINI_API_KEY := some "key-1", GOOGLE_API_KEY := none }

/-- A request with a well-formed image. -/
def sampleBody : RequestBody := .json (.string "data:image/png;base64,AAAA") (some "migu")

/-! ## The detectors never reject -/

theorem withTimeout_fulfilled {α : Type} (p : Promise α) (h : ∀ t, p ≠ .rejected t) (ms : ℕ)
    (fallback : α) : ∃ t v, withTimeout p ms fallback = .fulfilled t v ∧ t ≤ ms := by
  cases p with
  | pending => exact ⟨ms, fallback, rfl, le_refl _⟩
  | fulfilled t v =>
    by_cases ht : t < ms
    · exact ⟨t, v, by simp [withTimeout, ht], le_of_lt ht⟩
    · exact ⟨ms, fallback, by simp [withTimeout, ht], le_refl _⟩
  | rejected t => exact absurd rfl (h t)

theorem delay_ne_rejected {α : Type} (p : Promise α) (h : ∀ t, p ≠ .rejected t) (t0 t : ℕ) :
    p.delay t0 ≠ .rejected t := by
  cases p with
  | pending => simp [Promise.delay]
  | fulfilled t1 v => simp [Promise.delay]
  | rejected t1 => exact absurd rfl (h t1)

theorem catchNull_ne_rejected {α : Type} (p : Promise (Option α)) (t : ℕ) :
    p.catchNull ≠ .rejected t := by
  cases p <;> simp [Promise.catchNull]

theorem detectFaceMeshLandmarks_ne_rejected (env : Detectors) (t : ℕ) :
    detectFaceMeshLandmarks env ≠ .rejected t := by
  have hres : ∀ t,
      (match env.meshSend with
        | .fulfilled t v =>
          if t < 3500 then Promise.fulfilled t v else Promise.fulfilled 3500 none
        | .rejected t => if t < 3500 then .fulfilled t none else .fulfilled 3500 none
        | .pending => .fulfilled 3500 none) ≠ Promise.rejected t := by
    intro t
    cases env.meshSend with
    | pending => simp
    | fulfilled t1 v => by_cases h : t1 < 3500 <;> simp [h]
    | rejected t1 => by_cases h : t1 < 3500 <;> simp [h]
  unfold detectFaceMeshLandmarks
  cases env.meshLoad with
  | pending => simp
  | fulfilled t1 v =>
    by_cases h : t1 < 4000
    · simp only [h, if_true]
      exact delay_ne_rejected _ hres _ _
    · simp [h]
  | rejected t1 => by_cases h : t1 < 4000 <;> simp [h]

theorem detectLandmarks_ne_rejected (env : Detectors) (t : ℕ) :
    detectLandmarks env ≠ .rejected t :=
  catchNull_ne_rejected _ t

theorem detectFaceBox_ne_rejected (env : Detectors) (t : ℕ) :
    detectFaceBox env ≠ .rejected t := by
  unfold detectFaceBox
  cases env.nativeFaces with
  | none => exact catchNull_ne_rejected _ t
  | some detect =>
    cases detect with
    | pending => simp
    | rejected t1 => exact delay_ne_rejected _ (catchNull_ne_rejected _) _ _
    | fulfilled t1 faces =>
      cases faces with
      | nil => exact delay_ne_rejected _ (catchNull_ne_rejected _) _ _
      | cons f fs => simp

/-! ## The strategy cascade of createFaceCutout -/

theorem applyTrim_pixels (c : Canvas) (characterId : Option String) :
    (applyTrim c characterId).pixels = c.pixels ∨
      ∃ sx sy sw sh dx dy dw dh,
        (applyTrim c characterId).pixels = .drawn c.pixels sx sy sw sh dx dy dw dh := by
  unfold applyTrim
  cases faceTrimFor characterId with
  | own trim =>
    by_cases h : trim.top = 0 ∧ trim.bottom = 0
    · left; simp [h]
    · right; simp only [h, if_false, trimCanvas]; exact ⟨_, _, _, _, _, _, _, _, rfl⟩
  | inherited name => left; rfl
  | undefined => left; rfl

theorem polygonCutout_ne_fallback (sample : Canvas) (polyData : PolyData)
    (characterId : Option String) (img : Canvas) :
    polygonCutout sample polyData characterId ≠ createFallbackCutout img := by
  intro h
  have hp := congrArg (fun c => c.image.pixels) h
  simp only [polygonCutout, createFallbackCutout] at hp
  rcases applyTrim_pixels
      (cropCanvasToBounds (maskImageWithPolygon sample polyData.polygon) polyData.bounds
        FACE_PAD_RATIO) characterId with h1 | ⟨_, _, _, _, _, _, _, _, h1⟩
  · rw [h1] at hp; simp [cropCanvasToBounds] at hp
  · rw [h1] at hp; simp at hp

/-- A canvas that `applyEllipseMask` returns for a box: it has the size of the
canvas it was given, which has pixels, the box has no negative side, and the
contents are the canvas under the blurred ellipse mask. -/
theorem applyEllipseMask_ok {canvas masked : Canvas} {box : Bounds} {crop : Crop}
    (h : applyEllipseMask canvas (some box) crop = .ok masked) :
    masked.width = canvas.width ∧ masked.height = canvas.height ∧
      1 ≤ canvas.width ∧ 1 ≤ canvas.height ∧ 0 ≤ box.width ∧ 0 ≤ box.height ∧
      ∃ base cx cy rx ry, masked.pixels = .ellipseMasked base cx cy rx ry 6 := by
  unfold applyEllipseMask at h
  simp only at h
  split at h
  · cases h
  · split at h
    · cases h
    · split at h
      · cases h
      · rename_i _ hr hz
        simp only [Except.ok.injEq] at h
        subst h
        simp only [not_or, not_lt] at hr hz
        refine ⟨rfl, rfl, by omega, by omega, ?_, ?_, ⟨_, _, _, _, _, rfl⟩⟩
        · have := hr.1
          linarith
        · have := hr.2
          linarith

theorem assignCanvasDim_eq_canvasDim (dflt : ℕ) (value : ℚ) (h0 : 0 ≤ value)
    (h1 : value < 2147483648) : assignCanvasDim dflt value = canvasDim value := by
  have hf0 : 0 ≤ ⌊value⌋ := Int.floor_nonneg.mpr h0
  have hf1 : ⌊value⌋ < 2147483648 := Int.floor_lt.mpr (by exact_mod_cast h1)
  have hmod : ⌊value⌋ % 4294967296 = ⌊value⌋ := Int.emod_eq_of_lt hf0 (by omega)
  simp only [assignCanvasDim, h0, if_true, hmod, canvasDim]
  rw [if_pos (by omega)]

/-- The crop canvas is never higher than wide: both attributes get the same
number, or their defaults 300 and 150. -/
theorem assignCanvasDim_height_le_width (value : ℚ) :
    assignCanvasDim 150 value ≤ assignCanvasDim 300 value := by
  simp only [assignCanvasDim]
  split_ifs <;> simp

/-- A box cutout that was produced: the masked crop has at least one pixel, is
not higher than wide, is square when the crop size is below 2^31, and the
cutout is its trim. -/
theorem boxCutout_ok {sample : Canvas} {box : Bounds} {characterId : Option String}
    {c : FaceCutout} (h : boxCutout sample box characterId = .ok c) :
    ∃ masked : Canvas,
      1 ≤ masked.width ∧ 1 ≤ masked.height ∧ masked.height ≤ masked.width ∧
      ((getCropFromBox sample (some box)).size < 2147483648 → masked.width = masked.height) ∧
      (∃ base cx cy rx ry, masked.pixels = .ellipseMasked base cx cy rx ry 6) ∧
      c = { image := applyTrim masked characterId
            size := (applyTrim masked characterId).width } := by
  unfold boxCutout at h
  simp only at h
  split at h
  · cases h
  · rename_i masked hm
    simp only [Except.ok.injEq] at h
    obtain ⟨hw, hh, h1w, h1h, hbw, hbh, hpix⟩ := applyEllipseMask_ok hm
    have hsize : 0 ≤ (getCropFromBox sample (some box)).size := by
      simp only [getCropFromBox]
      have : 0 ≤ max box.width box.height := le_trans hbw (le_max_left _ _)
      positivity
    simp only at hw hh h1w h1h
    refine ⟨masked, by rw [hw]; exact h1w, by rw [hh]; exact h1h, ?_, ?_, hpix, h.symm⟩
    · rw [hw, hh]
      exact assignCanvasDim_height_le_width _
    · intro hlt
      rw [hw, hh, assignCanvasDim_eq_canvasDim _ _ hsize hlt,
        assignCanvasDim_eq_canvasDim _ _ hsize hlt]

theorem boxCutout_ne_fallback (sample : Canvas) (box : Bounds)
    (characterId : Option String) (img : Canvas) (c : FaceCutout)
    (h : boxCutout sample box characterId = .ok c) : c ≠ createFallbackCutout img := by
  obtain ⟨masked, -, -, -, -, ⟨base, cx, cy, rx, ry, hpix⟩, rfl⟩ := boxCutout_ok h
  intro heq
  have hp := congrArg (fun c => c.image.pixels) heq
  simp only [createFallbackCutout] at hp
  rcases applyTrim_pixels masked characterId with h1 | ⟨_, _, _, _, _, _, _, _, h1⟩
  · rw [h1, hpix] at hp; simp at hp
  · rw [h1] at hp; simp at hp

/-- The builder is applied to the mesh list only when there is one, and gives
`null` for no list. -/
theorem buildFacePolygonFromMesh_of_option (mesh : Option (List Point)) (width height : ℚ) :
    (match mesh with
      | none => Except.ok none
      | some lm => buildFacePolygonFromMesh (some lm) width height) =
      buildFacePolygonFromMesh mesh width height := by
  cases mesh <;> rfl

/-- The job with FAST_FACE off, written over the values of its three bounded
waits. -/
theorem createFaceCutoutJob_eq (img : Canvas) (characterId : Option String) (env : Detectors) :
    ∃ t1 t2 t3 mesh detection box,
      withTimeout (detectFaceMeshLandmarks env) 1800 none = .fulfilled t1 mesh ∧
      withTimeout (detectLandmarks env) 1800 none = .fulfilled t2 detection ∧
      withTimeout (detectFaceBox env) 1200 none = .fulfilled t3 box ∧
      t1 ≤ 1800 ∧ t2 ≤ 1800 ∧ t3 ≤ 1200 ∧
      createFaceCutoutJob false img characterId env =
        (match buildFacePolygonFromMesh mesh (downscaleImage img 512).width
            (downscaleImage img 512).height with
          | .error _ => Promise.rejected 0
          | .ok (some polyData) =>
            .fulfilled 0 (polygonCutout (downscaleImage img 512) polyData characterId)
          | .ok none =>
            (match detection.bind fun d => d.landmarks with
              | some landmarks =>
                Promise.fulfilled 0
                  (polygonCutout (downscaleImage img 512) (buildFacePolygon landmarks)
                    characterId)
              | none =>
                (match box with
                  | none => Promise.fulfilled 0 (createFallbackCutout (downscaleImage img 512))
                  | some box =>
                    (match boxCutout (downscaleImage img 512) box characterId with
                      | .error _ => Promise.rejected 0
                      | .ok cutout => Promise.fulfilled 0 cutout)).delay t3).delay
              t2).delay t1 := by
  obtain ⟨t1, mesh, h1, hle1⟩ :=
    withTimeout_fulfilled _ (detectFaceMeshLandmarks_ne_rejected env) 1800 none
  obtain ⟨t2, detection, h2, hle2⟩ :=
    withTimeout_fulfilled _ (detectLandmarks_ne_rejected env) 1800 none
  obtain ⟨t3, box, h3, hle3⟩ :=
    withTimeout_fulfilled _ (detectFaceBox_ne_rejected env) 1200 none
  refine ⟨t1, t2, t3, mesh, detection, box, h1, h2, h3, hle1, hle2, hle3, ?_⟩
  simp only [createFaceCutoutJob, h1, h2, h3, Promise.andThen, Bool.false_eq_true,
    if_false]
  cases mesh <;> rfl

set_option maxRecDepth 100000 in
/-- C1 fails when the mesh detector delivers a landmark list of 200 points while
the sparse-landmark and the box detector would both succeed: the list passes
the usability guard of `buildFacePolygonFromMesh` (`length < 200` is false), the
builder throws at the outline index 338, and the job rejects after 110 ms, so
the result is neither the mesh-polygon cutout nor the cutout of a later
strategy.  With 468 points the same detectors give the mesh-polygon cutout after
110 ms, and with 199 points the sparse-landmark polygon cutout after 160 ms.  A
face box of half a pixel, found when both landmark detectors fail, makes the job
reject as well. -/
theorem guarded_mesh_list_wins_nothing :
    withTimeout (detectFaceMeshLandmarks (answeringDetectors shortMesh)) 1800 none =
        .fulfilled 110 (some shortMesh) ∧
      ¬ shortMesh.length < 200 ∧
      withTimeout (detectLandmarks (answeringDetectors shortMesh)) 1800 none =
        .fulfilled 50 (some { landmarks := some highFace }) ∧
      withTimeout (detectFaceBox (answeringDetectors shortMesh)) 1200 none =
        .fulfilled 100 (some ⟨20, 20, 40, 40⟩) ∧
      createFaceCutoutJob false samplePhoto (some "migu") (answeringDetectors shortMesh) =
        .rejected 110 ∧
      (∃ polyData,
        buildFacePolygonFromMesh (some flatMesh) 100 100 = .ok (some polyData) ∧
        createFaceCutoutJob false samplePhoto (some "migu") (answeringDetectors flatMesh) =
          .fulfilled 110
            (polygonCutout (downscaleImage samplePhoto 512) polyData (some "migu"))) ∧
      createFaceCutoutJob false samplePhoto (some "migu")
          (answeringDetectors (List.replicate 199 ⟨1 / 2, 1 / 2⟩)) =
        .fulfilled 160
          (polygonCutout (downscaleImage samplePhoto 512) (buildFacePolygon highFace)
            (some "migu")) ∧
      boxCutout (downscaleImage samplePhoto 512) subPixelBox (some "migu") =
        .error "InvalidStateError: the image argument is a canvas element without pixels" ∧
      createFaceCutoutJob false samplePhoto (some "migu") (boxDetectors subPixelBox) =
        .rejected 3700 := by
  refine ⟨by with_unfolding_all rfl, by with_unfolding_all decide, by with_unfolding_all rfl,
    by with_unfolding_all rfl, by with_unfolding_all rfl,
    ⟨_, by with_unfolding_all rfl, by with_unfolding_all rfl⟩, by with_unfolding_all rfl,
    by with_unfolding_all rfl, by with_unfolding_all rfl⟩

set_option maxRecDepth 100000 in
/-- C2 at a mesh landmark list of 200 points: the list passes the length guard
of `buildFacePolygonFromMesh`, the outline index 338 is beyond its end, the
builder throws and the job of `createFaceCutout` rejects. -/
theorem createFaceCutout_rejects_on_short_mesh :
    buildFacePolygonFromMesh (some shortMesh) 100 100 =
        .error "TypeError: Cannot read properties of undefined (reading 'x')" ∧
      createFaceCutoutJob false samplePhoto (some "migu") (meshDetectors shortMesh) =
        .rejected 110 := by
  constructor
  · with_unfolding_all rfl
  · with_unfolding_all rfl

/-! ## Shape of the cutouts -/

theorem delay_eq_fulfilled {α : Type} {p : Promise α} {t0 t : ℕ} {v : α}
    (h : p.delay t0 = .fulfilled t v) : ∃ t1, p = .fulfilled t1 v := by
  cases p with
  | pending => simp [Promise.delay] at h
  | rejected t1 => simp [Promise.delay] at h
  | fulfilled t1 v1 =>
    simp only [Promise.delay, Promise.fulfilled.injEq] at h
    exact ⟨t1, by rw [h.2]⟩

/-- Every value the job resolves with comes from one of its five `return`s, and
which one is decided by the values of the three bounded waits. -/
theorem createFaceCutoutJob_value {fastFace : Bool} {img : Canvas} {characterId : Option String}
    {env : Detectors} {t t1 t2 t3 : ℕ} {c : FaceCutout} {mesh : Option (List Point)}
    {detection : Option Detection} {box : Option Bounds}
    (h1 : withTimeout (detectFaceMeshLandmarks env) 1800 none = .fulfilled t1 mesh)
    (h2 : withTimeout (detectLandmarks env) 1800 none = .fulfilled t2 detection)
    (h3 : withTimeout (detectFaceBox env) 1200 none = .fulfilled t3 box)
    (h : createFaceCutoutJob fastFace img characterId env = .fulfilled t c) :
    (fastFace = true ∧
        c = { image := applyTrim (createFallbackCutout (downscaleImage img 512)).image characterId
              size := (createFallbackCutout (downscaleImage img 512)).size }) ∨
      (fastFace = false ∧
        ((∃ polyData,
            buildFacePolygonFromMesh mesh (downscaleImage img 512).width
              (downscaleImage img 512).height = .ok (some polyData) ∧
            c = polygonCutout (downscaleImage img 512) polyData characterId) ∨
          (∃ landmarks,
            buildFacePolygonFromMesh mesh (downscaleImage img 512).width
              (downscaleImage img 512).height = .ok none ∧
            (detection.bind fun d => d.landmarks) = some landmarks ∧
            c = polygonCutout (downscaleImage img 512) (buildFacePolygon landmarks)
              characterId) ∨
          (∃ b,
            buildFacePolygonFromMesh mesh (downscaleImage img 512).width
              (downscaleImage img 512).height = .ok none ∧
            (detection.bind fun d => d.landmarks) = none ∧ box = some b ∧
            boxCutout (downscaleImage img 512) b characterId = .ok c) ∨
          (buildFacePolygonFromMesh mesh (downscaleImage img 512).width
              (downscaleImage img 512).height = .ok none ∧
            (detection.bind fun d => d.landmarks) = none ∧ box = none ∧
            c = createFallbackCutout (downscaleImage img 512)))) := by
  cases fastFace with
  | true =>
    left
    simp only [createFaceCutoutJob, if_true, Promise.fulfilled.injEq] at h
    exact ⟨rfl, h.2.symm⟩
  | false =>
    right
    refine ⟨rfl, ?_⟩
    simp only [createFaceCutoutJob, h1, h2, h3, Promise.andThen, Bool.false_eq_true, if_false,
      buildFacePolygonFromMesh_of_option] at h
    obtain ⟨_, h⟩ := delay_eq_fulfilled h
    cases hb : buildFacePolygonFromMesh mesh (downscaleImage img 512).width
        (downscaleImage img 512).height with
    | error e => rw [hb] at h; simp at h
    | ok r =>
      rw [hb] at h
      cases r with
      | some polyData =>
        simp only [Promise.fulfilled.injEq] at h
        exact Or.inl ⟨polyData, rfl, h.2.symm⟩
      | none =>
        simp only at h
        obtain ⟨_, h⟩ := delay_eq_fulfilled h
        cases hd : (detection.bind fun d => d.landmarks) with
        | some landmarks =>
          rw [hd] at h
          simp only [Promise.fulfilled.injEq] at h
          exact Or.inr (Or.inl ⟨landmarks, rfl, rfl, h.2.symm⟩)
        | none =>
          rw [hd] at h
          simp only at h
          obtain ⟨_, h⟩ := delay_eq_fulfilled h
          cases box with
          | some b =>
            simp only at h
            cases hbox : boxCutout (downscaleImage img 512) b characterId with
            | error e => rw [hbox] at h; simp at h
            | ok cutout =>
              rw [hbox] at h
              simp only [Promise.fulfilled.injEq] at h
              exact Or.inr (Or.inr (Or.inl ⟨b, rfl, rfl, rfl, by rw [hbox, h.2]⟩))
          | none =>
            simp only [Promise.fulfilled.injEq] at h
            exact Or.inr (Or.inr (Or.inr ⟨rfl, rfl, rfl, h.2.symm⟩))

theorem canvasDim_intCast (z : ℤ) : canvasDim (z : ℚ) = z.toNat := by
  simp [canvasDim]

theorem applyTrim_width (c : Canvas) (characterId : Option String) :
    (applyTrim c characterId).width = c.width := by
  unfold applyTrim
  cases faceTrimFor characterId with
  | own trim => by_cases h : trim.top = 0 ∧ trim.bottom = 0 <;> simp [h, trimCanvas]
  | inherited name => rfl
  | undefined => rfl

theorem applyTrim_height (c : Canvas) (characterId : Option String) :
    (applyTrim c characterId).height = c.height ∨
      ∃ trim, faceTrimFor characterId = .own trim ∧
        ((applyTrim c characterId).height : ℤ) = trimmedHeight c.height trim := by
  unfold applyTrim
  cases hl : faceTrimFor characterId with
  | own trim =>
    by_cases h : trim.top = 0 ∧ trim.bottom = 0
    · left; simp [h]
    · right
      refine ⟨trim, rfl, ?_⟩
      simp only [h, if_false, trimCanvas, trimmedHeight]
      rw [canvasDim_intCast, Int.toNat_of_nonneg]
      exact le_trans (by norm_num) (le_max_left _ _)
  | inherited name => left; rfl
  | undefined => left; rfl

/-- The shape shared by every cutout: the reported size is the width, and the
height is the size or the size after the trim. -/
theorem trimmed_square_shape (x : Canvas) (hx : x.width = x.height)
    (characterId : Option String) :
    (applyTrim x characterId).width = x.width ∧
      ((applyTrim x characterId).height = x.width ∨
        ∃ trim, faceTrimFor characterId = .own trim ∧
          ((applyTrim x characterId).height : ℤ) = trimmedHeight x.width trim) := by
  refine ⟨applyTrim_width x characterId, ?_⟩
  rw [hx]
  exact applyTrim_height x characterId

/-- The height after `applyTrim` of a canvas of at least one row, by the trim
record of the character id: with a record it is `trimmedHeight`, without one the
canvas is returned as it is; in both cases it is at least 1 and at most the
height before. -/
theorem applyTrim_height_eq (x : Canvas) (h1 : 1 ≤ x.height) (characterId : Option String) :
    (∀ trim, faceTrimFor characterId = .own trim →
        ((applyTrim x characterId).height : ℤ) = trimmedHeight x.height trim) ∧
      ((∀ trim, faceTrimFor characterId ≠ .own trim) →
        (applyTrim x characterId).height = x.height) ∧
      1 ≤ (applyTrim x characterId).height ∧ (applyTrim x characterId).height ≤ x.height := by
  have hform : ∀ trim : Trim,
      ((trimCanvas x trim.top trim.bottom).height : ℤ) = trimmedHeight x.height trim := by
    intro trim
    simp only [trimCanvas, trimmedHeight]
    rw [canvasDim_intCast, Int.toNat_of_nonneg]
    exact le_trans (by norm_num) (le_max_left _ _)
  have hrange : ∀ trim : Trim, 1 ≤ trimmedHeight x.height trim ∧
      trimmedHeight x.height trim ≤ x.height := by
    intro trim
    have ha : (0 : ℤ) ≤ max 0 (jsRound (x.height * trim.top)) := le_max_left _ _
    have hb : (0 : ℤ) ≤ max 0 (jsRound (x.height * trim.bottom)) := le_max_left _ _
    have hx : (1 : ℤ) ≤ x.height := by exact_mod_cast h1
    refine ⟨le_max_left _ _, max_le hx ?_⟩
    linarith
  unfold applyTrim
  cases hl : faceTrimFor characterId with
  | own trim =>
    by_cases h : trim.top = 0 ∧ trim.bottom = 0
    · simp only [h, and_self, if_true]
      refine ⟨?_, fun hno => absurd rfl (hno trim), h1, le_refl _⟩
      intro trim1 htrim1
      cases htrim1
      have hx : (1 : ℤ) ≤ x.height := by exact_mod_cast h1
      simp only [trimmedHeight, h.1, h.2, mul_zero]
      have hr : jsRound 0 = 0 := by norm_num [jsRound]
      rw [hr]
      simp only [max_self, sub_zero]
      exact (max_eq_right hx).symm
    · simp only [h, if_false]
      have hf := hform trim
      have hr := hrange trim
      refine ⟨?_, fun hno => absurd rfl (hno trim), ?_, ?_⟩
      · intro trim1 htrim1
        cases htrim1
        exact hf
      · have : (1 : ℤ) ≤ ((trimCanvas x trim.top trim.bottom).height : ℤ) := by
          rw [hf]; exact hr.1
        exact_mod_cast this
      · have : ((trimCanvas x trim.top trim.bottom).height : ℤ) ≤ (x.height : ℤ) := by
          rw [hf]; exact hr.2
        exact_mod_cast this
  | inherited name =>
    exact ⟨(fun trim htrim => by cases htrim), fun _ => rfl, h1, le_refl _⟩
  | undefined =>
    exact ⟨(fun trim htrim => by cases htrim), fun _ => rfl, h1, le_refl _⟩

theorem downscaleImage_nonempty (img : Canvas) (maxSize : ℚ) :
    1 ≤ (downscaleImage img maxSize).width ∧ 1 ≤ (downscaleImage img maxSize).height := by
  have hdim : ∀ z : ℤ, 1 ≤ canvasDim (max 1 (z : ℚ)) := by
    intro z
    have h : (max 1 (z : ℚ)) = ((max 1 z : ℤ) : ℚ) := by push_cast; rfl
    rw [h, canvasDim_intCast]
    have : (1 : ℤ) ≤ max 1 z := le_max_left _ _
    omega
  simp only [downscaleImage]
  exact ⟨hdim _, hdim _⟩

theorem cropCanvasToBounds_square (canvas : Canvas) (bounds : Bounds) (padRatio : ℚ) :
    (cropCanvasToBounds canvas bounds padRatio).width =
        (cropCanvasToBounds canvas bounds padRatio).height ∧
      1 ≤ (cropCanvasToBounds canvas bounds padRatio).width := by
  refine ⟨rfl, ?_⟩
  simp only [cropCanvasToBounds]
  rw [canvasDim_intCast]
  have : (1 : ℤ) ≤ max 1 (jsRound (max bounds.width bounds.height * (1 + padRatio))) :=
    le_max_left _ _
  omega

/-- The cutout made by trimming a square canvas of at least one pixel. -/
theorem trimmed_cutout_shape (x : Canvas) (hx : x.width = x.height) (h1 : 1 ≤ x.width)
    (characterId : Option String) :
    (applyTrim x characterId).width = x.width ∧
      (∀ trim, faceTrimFor characterId = .own trim →
        ((applyTrim x characterId).height : ℤ) = trimmedHeight x.width trim) ∧
      ((∀ trim, faceTrimFor characterId ≠ .own trim) →
        (applyTrim x characterId).height = x.width) ∧
      1 ≤ (applyTrim x characterId).height ∧ (applyTrim x characterId).height ≤ x.width := by
  have h := applyTrim_height_eq x (by omega) characterId
  rw [← hx] at h
  exact ⟨applyTrim_width x characterId, h⟩

/-- The shape of every cutout the job resolves with, by the path that returned
it: the width is the reported size, the raster has at least one pixel and is at
most as high as wide, and on every path but the final fallback the height is
the height `applyTrim` leaves of a square of that size (for a face box, when
the side of its crop is below 2^31). -/
theorem createFaceCutoutJob_shape {fastFace : Bool} {img : Canvas}
    {characterId : Option String} {env : Detectors} {t t1 t2 t3 : ℕ} {c : FaceCutout}
    {mesh : Option (List Point)} {detection : Option Detection} {box : Option Bounds}
    (h1 : withTimeout (detectFaceMeshLandmarks env) 1800 none = .fulfilled t1 mesh)
    (h2 : withTimeout (detectLandmarks env) 1800 none = .fulfilled t2 detection)
    (h3 : withTimeout (detectFaceBox env) 1200 none = .fulfilled t3 box)
    (h : createFaceCutoutJob fastFace img characterId env = .fulfilled t c) :
    c.image.width = c.size ∧ 1 ≤ c.image.width ∧ 1 ≤ c.image.height ∧
      c.image.height ≤ c.image.width ∧
      ((fastFace = true ∨
          (∃ polyData, buildFacePolygonFromMesh mesh (downscaleImage img 512).width
            (downscaleImage img 512).height = .ok (some polyData)) ∨
          (∃ landmarks, (detection.bind fun d => d.landmarks) = some landmarks) ∨
          (∃ b, box = some b ∧
            (getCropFromBox (downscaleImage img 512) (some b)).size < 2147483648)) →
        (∀ trim, faceTrimFor characterId = .own trim →
          (c.image.height : ℤ) = trimmedHeight c.size trim) ∧
        ((∀ trim, faceTrimFor characterId ≠ .own trim) → c.image.height = c.size)) := by
  have hsample := downscaleImage_nonempty img 512
  have hfb : 1 ≤ (createFallbackCutout (downscaleImage img 512)).image.width := by
    simp only [createFallbackCutout]
    exact le_min hsample.1 hsample.2
  have hshape : ∀ x : Canvas, x.width = x.height → 1 ≤ x.width →
      1 ≤ (applyTrim x characterId).width ∧ 1 ≤ (applyTrim x characterId).height ∧
      (applyTrim x characterId).height ≤ (applyTrim x characterId).width ∧
      ((∀ trim, faceTrimFor characterId = .own trim →
          ((applyTrim x characterId).height : ℤ) =
            trimmedHeight (applyTrim x characterId).width trim) ∧
        ((∀ trim, faceTrimFor characterId ≠ .own trim) →
          (applyTrim x characterId).height = (applyTrim x characterId).width)) := by
    intro x hx hx1
    obtain ⟨hw, htrim, hno, hge, hle⟩ := trimmed_cutout_shape x hx hx1 characterId
    rw [hw]
    exact ⟨hx1, hge, hle, htrim, hno⟩
  rcases createFaceCutoutJob_value h1 h2 h3 h with
    ⟨-, rfl⟩ | ⟨hff, ⟨pd, -, rfl⟩ | ⟨lms, -, -, rfl⟩ | ⟨b, hb, hd, hsome, hbox⟩ |
      ⟨hb, hd, hnb, rfl⟩⟩
  · obtain ⟨hw1, hh1, hle, hrest⟩ :=
      hshape (createFallbackCutout (downscaleImage img 512)).image rfl hfb
    have hw := applyTrim_width (createFallbackCutout (downscaleImage img 512)).image characterId
    refine ⟨hw, hw1, hh1, hle, fun _ => ?_⟩
    have hsz : (createFallbackCutout (downscaleImage img 512)).size =
        (applyTrim (createFallbackCutout (downscaleImage img 512)).image characterId).width :=
      hw.symm
    simp only [hsz]
    exact hrest
  · obtain ⟨hw1, hh1, hle, hrest⟩ :=
      hshape (cropCanvasToBounds (maskImageWithPolygon (downscaleImage img 512) pd.polygon)
        pd.bounds FACE_PAD_RATIO) (cropCanvasToBounds_square _ _ _).1
        (cropCanvasToBounds_square _ _ _).2
    exact ⟨rfl, hw1, hh1, hle, fun _ => hrest⟩
  · obtain ⟨hw1, hh1, hle, hrest⟩ :=
      hshape (cropCanvasToBounds
        (maskImageWithPolygon (downscaleImage img 512) (buildFacePolygon lms).polygon)
        (buildFacePolygon lms).bounds FACE_PAD_RATIO) (cropCanvasToBounds_square _ _ _).1
        (cropCanvasToBounds_square _ _ _).2
    exact ⟨rfl, hw1, hh1, hle, fun _ => hrest⟩
  · obtain ⟨masked, hm1, hmh1, hmle, hmsq, -, rfl⟩ := boxCutout_ok hbox
    obtain ⟨-, -, hge, hle⟩ := applyTrim_height_eq masked hmh1 characterId
    refine ⟨rfl, by rw [applyTrim_width]; exact hm1, hge, ?_, ?_⟩
    · rw [applyTrim_width]
      exact le_trans hle hmle
    · rintro (hf | ⟨pd, hpd⟩ | ⟨lms, hl⟩ | ⟨b1, hb1, hlt⟩)
      · rw [hff] at hf; cases hf
      · rw [hb] at hpd; cases hpd
      · rw [hd] at hl; cases hl
      · rw [hsome] at hb1
        cases hb1
        exact (hshape masked (hmsq hlt) hm1).2.2.2
  · refine ⟨rfl, hfb, hfb, le_refl _, ?_⟩
    rintro (hf | ⟨pd, hpd⟩ | ⟨lms, hl⟩ | ⟨b, hb1, -⟩)
    · rw [hff] at hf; cases hf
    · rw [hb] at hpd; cases hpd
    · rw [hd] at hl; cases hl
    · rw [hnb] at hb1; cases hb1

/-- Every cutout the job resolves with is a source `drawImage` accepts. -/
theorem createFaceCutoutJob_drawable {fastFace : Bool} {img : Canvas}
    {characterId : Option String} {env : Detectors} {t : ℕ} {c : FaceCutout}
    (h : createFaceCutoutJob fastFace img characterId env = .fulfilled t c) :
    c.image.isEmptyCanvas = false := by
  obtain ⟨t1, mesh, h1, -⟩ :=
    withTimeout_fulfilled _ (detectFaceMeshLandmarks_ne_rejected env) 1800 none
  obtain ⟨t2, detection, h2, -⟩ :=
    withTimeout_fulfilled _ (detectLandmarks_ne_rejected env) 1800 none
  obtain ⟨t3, box, h3, -⟩ :=
    withTimeout_fulfilled _ (detectFaceBox_ne_rejected env) 1200 none
  obtain ⟨-, hw, hh, -⟩ := createFaceCutoutJob_shape h1 h2 h3 h
  unfold Canvas.isEmptyCanvas
  split
  · rfl
  · simp only [Bool.or_eq_false_iff, beq_eq_false_iff_ne, ne_eq]
    omega

set_option maxRecDepth 100000 in
/-- C8 at a 300 × 400 photo, character "teddy", no detector answering: with
FAST_FACE off the job returns the fallback cutout as it is, 300 rows high,
although the trim record of "teddy" (top 0.08) gives a trimmed height of 276,
the height the FAST_FACE branch returns for the same fallback cutout. -/
theorem createFaceCutout_fallback_untrimmed :
    createFaceCutoutJob false portraitPhoto (some "teddy") silentDetectors =
        .fulfilled 4800 (createFallbackCutout (downscaleImage portraitPhoto 512)) ∧
      (createFallbackCutout (downscaleImage portraitPhoto 512)).image.height = 300 ∧
      faceTrimFor (some "teddy") = .own ⟨8 / 100, 0⟩ ∧
      trimmedHeight 300 ⟨8 / 100, 0⟩ = 276 ∧
      (∃ t c, createFaceCutoutJob true portraitPhoto (some "teddy") silentDetectors =
          .fulfilled t c ∧ c.image.height = 276) := by
  refine ⟨by with_unfolding_all rfl, by with_unfolding_all rfl, by rfl,
    by with_unfolding_all rfl, ⟨0, _, rfl, by with_unfolding_all rfl⟩⟩

set_option maxRecDepth 100000 in
/-- C9 fails on the box path: for a 100 × 100 photo, character "migu" and a
detected box of 40 × 40 the cutout is 42 wide and 39 high with reported size
42, so not every cutout is square. -/
theorem cutout_not_always_square :
    ¬ ∀ (fastFace : Bool) (img : Canvas) (characterId : Option String) (env : Detectors)
        (t : ℕ) (c : FaceCutout),
        createFaceCutoutJob fastFace img characterId env = .fulfilled t c →
          c.image.width = c.size ∧ c.image.height = c.size := by
  intro h
  have hjob : ∃ c, createFaceCutoutJob false samplePhoto (some "migu")
      (boxDetectors ⟨20, 20, 40, 40⟩) = .fulfilled 3700 c ∧
      c.image.width = 42 ∧ c.image.height = 39 ∧ c.size = 42 :=
    ⟨_, by with_unfolding_all rfl, by with_unfolding_all rfl, by with_unfolding_all rfl,
      by with_unfolding_all rfl⟩
  obtain ⟨c, hc, -, hheight, hsize⟩ := hjob
  have := (h _ _ _ _ _ _ hc).2
  omega

/-- C9, amended. For every source image, character id and detector outcome
(FAST_FACE on or off) a cutout returned by the job of createFaceCutout has
width equal to its reported size and is at most as high as wide.  On the
FAST_FACE path and on the three detector paths (a polygon from the mesh list,
landmarks from the sparse detector, or a face box, the side of its crop below
2^31) its height is that size after the vertical trim of the character's
FACE_TRIM record, `max(1, size − round(size × top) − round(size × bottom))`,
and the size itself for an id without a record. -/
theorem cutout_width_is_size (fastFace : Bool) (img : Canvas) (characterId : Option String)
    (env : Detectors) (t t1 t2 t3 : ℕ) (c : FaceCutout) (mesh : Option (List Point))
    (detection : Option Detection) (box : Option Bounds)
    (h1 : withTimeout (detectFaceMeshLandmarks env) 1800 none = .fulfilled t1 mesh)
    (h2 : withTimeout (detectLandmarks env) 1800 none = .fulfilled t2 detection)
    (h3 : withTimeout (detectFaceBox env) 1200 none = .fulfilled t3 box)
    (h : createFaceCutoutJob fastFace img characterId env = .fulfilled t c) :
    c.image.width = c.size ∧ c.image.height ≤ c.image.width ∧
      ((fastFace = true ∨
          (∃ polyData, buildFacePolygonFromMesh mesh (downscaleImage img 512).width
            (downscaleImage img 512).height = .ok (some polyData)) ∨
          (∃ landmarks, (detection.bind fun d => d.landmarks) = some landmarks) ∨
          (∃ b, box = some b ∧
            (getCropFromBox (downscaleImage img 512) (some b)).size < 2147483648)) →
        (∀ trim, faceTrimFor characterId = .own trim →
          (c.image.height : ℤ) = trimmedHeight c.size trim) ∧
        ((∀ trim, faceTrimFor characterId ≠ .own trim) → c.image.height = c.size)) := by
  obtain ⟨hw, -, -, hle, hpath⟩ := createFaceCutoutJob_shape h1 h2 h3 h
  exact ⟨hw, hle, hpath⟩

set_option maxRecDepth 100000 in
/-- The amended C9 on the box path of a 100 × 100 photo for "migu" (top trim
0.06): width 42 = size 42, height 42 − round(42 × 0.06) = 39. -/
theorem cutout_width_is_size_witness :
    ∃ c, createFaceCutoutJob false samplePhoto (some "migu") (boxDetectors ⟨20, 20, 40, 40⟩) =
        .fulfilled 3700 c ∧
      c.size = 42 ∧ c.image.width = c.size ∧
      (c.image.height : ℤ) = trimmedHeight c.size ⟨6 / 100, 0⟩ ∧
      trimmedHeight 42 ⟨6 / 100, 0⟩ = 39 := by
  have hjob : ∃ c, createFaceCutoutJob false samplePhoto (some "migu")
      (boxDetectors ⟨20, 20, 40, 40⟩) = .fulfilled 3700 c ∧ c.size = 42 :=
    ⟨_, by with_unfolding_all rfl, by with_unfolding_all rfl⟩
  obtain ⟨c, hc, hsize⟩ := hjob
  have hthm := cutout_width_is_size false samplePhoto (some "migu")
    (boxDetectors ⟨20, 20, 40, 40⟩) 3700 1800 1800 100 c none none (some ⟨20, 20, 40, 40⟩)
    (by with_unfolding_all rfl) (by with_unfolding_all rfl) (by with_unfolding_all rfl) hc
  exact ⟨c, hc, hsize, hthm.1,
    (hthm.2.2 (Or.inr (Or.inr (Or.inr ⟨_, rfl, by with_unfolding_all decide⟩)))).1 _ (by rfl),
    by with_unfolding_all rfl⟩

set_option maxRecDepth 100000 in
/-- C10 fails at a 300 × 400 photo with no detector answering: the cutout is the
crop of side 300 (the whole shorter dimension, not 70% of it, which is 210)
starting at row 50 (centered, not 8% down, which is 32), masked with the ellipse
of radii 135 and 165 about (150, 150); `getCropFromBox` without a box, which
computes the 70% crop, is not used. -/
theorem fallback_is_not_the_70_percent_crop :
    createFaceCutoutJob false portraitPhoto (some "migu") silentDetectors =
        .fulfilled 4800
          { image :=
              { width := 300, height := 300,
                pixels := .ellipseMasked
                  (.drawn (downscaleImage portraitPhoto 512).pixels 0 50 300 300 0 0 300 300)
                  150 150 135 165 0 }
            size := 300 } ∧
      getCropFromBox (downscaleImage portraitPhoto 512) none =
        { sx := 45, sy := 32, size := 210 } ∧
      (300 : ℚ) ≠ 7 / 10 * min 300 400 ∧ (50 : ℚ) ≠ 8 / 100 * 400 := by
  refine ⟨by with_unfolding_all rfl, by with_unfolding_all rfl, by norm_num, by norm_num⟩

/-- C10, amended. When every localization strategy fails or times out, the
cutout produced by createFaceCutout is the square crop whose side is the whole
shorter dimension of the working image, centered horizontally and vertically,
masked with a centered ellipse with radii 45% and 55% of the crop side. -/
theorem fallback_cutout_geometry (img : Canvas) (characterId : Option String) (env : Detectors)
    (t1 t2 t3 : ℕ) (mesh : Option (List Point)) (detection : Option Detection)
    (h1 : withTimeout (detectFaceMeshLandmarks env) 1800 none = .fulfilled t1 mesh)
    (hmesh : buildFacePolygonFromMesh mesh (downscaleImage img 512).width
      (downscaleImage img 512).height = .ok none)
    (h2 : withTimeout (detectLandmarks env) 1800 none = .fulfilled t2 detection)
    (hdetection : (detection.bind fun d => d.landmarks) = none)
    (h3 : withTimeout (detectFaceBox env) 1200 none = .fulfilled t3 none) :
    createFaceCutoutJob false img characterId env =
      .fulfilled (t1 + t2 + t3)
        { image :=
            { width := min (downscaleImage img 512).width (downscaleImage img 512).height
              height := min (downscaleImage img 512).width (downscaleImage img 512).height
              pixels := .ellipseMasked
                (.drawn (downscaleImage img 512).pixels
                  (((downscaleImage img 512).width -
                    (min (downscaleImage img 512).width (downscaleImage img 512).height : ℕ)) / 2)
                  (((downscaleImage img 512).height -
                    (min (downscaleImage img 512).width (downscaleImage img 512).height : ℕ)) / 2)
                  (min (downscaleImage img 512).width (downscaleImage img 512).height : ℕ)
                  (min (downscaleImage img 512).width (downscaleImage img 512).height : ℕ)
                  0 0
                  (min (downscaleImage img 512).width (downscaleImage img 512).height : ℕ)
                  (min (downscaleImage img 512).width (downscaleImage img 512).height : ℕ))
                ((min (downscaleImage img 512).width (downscaleImage img 512).height : ℕ) / 2)
                ((min (downscaleImage img 512).width (downscaleImage img 512).height : ℕ) / 2)
                ((min (downscaleImage img 512).width (downscaleImage img 512).height : ℕ) *
                  (45 / 100))
                ((min (downscaleImage img 512).width (downscaleImage img 512).height : ℕ) *
                  (55 / 100)) 0 }
          size := min (downscaleImage img 512).width (downscaleImage img 512).height } := by
  have hm : (match mesh with
      | none => Except.ok none
      | some lm => buildFacePolygonFromMesh (some lm) (downscaleImage img 512).width
          (downscaleImage img 512).height) = Except.ok none := by
    cases mesh with
    | none => rfl
    | some lm => exact hmesh
  simp only [createFaceCutoutJob, h1, h2, h3, Promise.andThen, Bool.false_eq_true, if_false, hm,
    hdetection, Promise.delay, Nat.add_zero, createFallbackCutout, Nat.add_assoc]

set_option maxRecDepth 100000 in
/-- The amended C10 at the 300 × 400 photo with no detector answering. -/
theorem fallback_cutout_geometry_witness :
    (createFallbackCutout (downscaleImage portraitPhoto 512)).size = 300 ∧
      ∃ c, createFaceCutoutJob false portraitPhoto (some "migu") silentDetectors =
        .fulfilled (1800 + 1800 + 1200) c :=
  ⟨by with_unfolding_all rfl,
    _, fallback_cutout_geometry portraitPhoto (some "migu") silentDetectors 1800 1800 1200
      none none (by with_unfolding_all rfl) (by with_unfolding_all rfl)
      (by with_unfolding_all rfl) (by with_unfolding_all rfl) (by with_unfolding_all rfl)⟩

/-! ## Calibration lookup -/

/-- C7 fails at the id "constructor": each of the four tables yields the member
inherited from `Object.prototype`, which is truthy, so the default record is not
used and the lookup yields no calibration record. -/
theorem calibration_lookup_inherited_key :
    faceConfigFor (some "constructor") = .inherited "constructor" ∧
      faceTrimFor (some "constructor") = .inherited "constructor" ∧
      displayLayoutFor (some "constructor") = .inherited "constructor" ∧
      fitScaleFor (some "constructor") = .inherited "constructor" ∧
      ¬ ∀ characterId : Option String, ∃ trim, faceTrimFor characterId = .own trim := by
  refine ⟨by decide, by decide, by decide, by with_unfolding_all decide, ?_⟩
  intro h
  obtain ⟨trim, ht⟩ := h (some "constructor")
  have hi : faceTrimFor (some "constructor") = .inherited "constructor" := by decide
  rw [hi] at ht
  cases ht

theorem lookupOrDefault_own {α : Type} (table : List (String × α)) (key : String) (v : α) :
    table.lookup key = some v →
      lookupOrDefault (fun _ => true) table (some key) = .own v := by
  intro h
  simp [lookupOrDefault, getProp, propertyKey, h]

theorem lookupOrDefault_default {α : Type} (truthy : α → Bool) (table : List (String × α))
    (characterId : Option String) (d : α)
    (hkey : table.lookup (propertyKey characterId) = none)
    (hproto : propertyKey characterId ∉ objectPrototypeKeys)
    (hd : table.lookup "default" = some d) :
    lookupOrDefault truthy table characterId = .own d := by
  simp [lookupOrDefault, getProp, hkey, hproto, hd]

theorem lookup_other {α : Type} (key : String) (a b c d e : α)
    (h1 : key ≠ "migu") (h2 : key ≠ "teddy") (h3 : key ≠ "pipper") (h4 : key ≠ "tasha")
    (h5 : key ≠ "default") :
    List.lookup key
      [("migu", a), ("teddy", b), ("pipper", c), ("tasha", d), ("default", e)] = none := by
  have e1 : (key == "migu") = false := by simpa using h1
  have e2 : (key == "teddy") = false := by simpa using h2
  have e3 : (key == "pipper") = false := by simpa using h3
  have e4 : (key == "tasha") = false := by simpa using h4
  have e5 : (key == "default") = false := by simpa using h5
  simp [List.lookup, e1, e2, e3, e4, e5]

/-- C7, amended. For every character id (any string, or none) that is not the
name of a member inherited from `Object.prototype`, the lookups in
CHARACTER_FACE_CONFIG, FACE_TRIM, DISPLAY_LAYOUT and FIT_SCALE each yield a
calibration record: the id's own record for migu, teddy, pipper and tasha, and
the default record for every other id. -/
theorem calibration_lookup_total (characterId : Option String)
    (hproto : propertyKey characterId ∉ objectPrototypeKeys) :
    (characterId = some "migu" →
        faceConfigFor characterId =
            .own ⟨41, 40, 62, some (-16), some (19 / 10), some (126 / 100)⟩ ∧
          faceTrimFor characterId = .own ⟨6 / 100, 0⟩ ∧
          displayLayoutFor characterId = .own ⟨35, 82⟩ ∧
          fitScaleFor characterId = .own 1) ∧
      (characterId = some "teddy" →
        faceConfigFor characterId =
            .own ⟨385 / 10, 332 / 10, 98, none, some (18 / 10), some (135 / 100)⟩ ∧
          faceTrimFor characterId = .own ⟨8 / 100, 0⟩ ∧
          displayLayoutFor characterId = .own ⟨36, 72⟩ ∧
          fitScaleFor characterId = .own (78 / 100)) ∧
      (characterId = some "pipper" →
        faceConfigFor characterId =
            .own ⟨50, 225 / 10, 78, none, some (132 / 100), some (112 / 100)⟩ ∧
          faceTrimFor characterId = .own ⟨10 / 100, 0⟩ ∧
          displayLayoutFor characterId = .own ⟨36, 58⟩ ∧
          fitScaleFor characterId = .own (62 / 100)) ∧
      (characterId = some "tasha" →
        faceConfigFor characterId =
            .own ⟨465 / 10, 32, 80, none, some (135 / 100), some (112 / 100)⟩ ∧
          faceTrimFor characterId = .own ⟨8 / 100, 0⟩ ∧
          displayLayoutFor characterId = .own ⟨36, 72⟩ ∧
          fitScaleFor characterId = .own (78 / 100)) ∧
      (characterId ≠ some "migu" → characterId ≠ some "teddy" →
        characterId ≠ some "pipper" → characterId ≠ some "tasha" →
        faceConfigFor characterId = .own ⟨50, 22, 32, none, none, none⟩ ∧
          faceTrimFor characterId = .own ⟨6 / 100, 0⟩ ∧
          displayLayoutFor characterId = .own ⟨35, 82⟩ ∧
          fitScaleFor characterId = .own 1) := by
  refine ⟨?_, ?_, ?_, ?_, ?_⟩
  · rintro rfl
    exact ⟨by rfl, by rfl, by rfl, by with_unfolding_all decide⟩
  · rintro rfl
    exact ⟨by rfl, by rfl, by rfl, by with_unfolding_all decide⟩
  · rintro rfl
    exact ⟨by rfl, by rfl, by rfl, by with_unfolding_all decide⟩
  · rintro rfl
    exact ⟨by rfl, by rfl, by rfl, by with_unfolding_all decide⟩
  · intro h1 h2 h3 h4
    by_cases h5 : propertyKey characterId = "default"
    · have hid : characterId = some "default" := by
        cases characterId with
        | none => simp [propertyKey] at h5
        | some id => simp [propertyKey] at h5; rw [h5]
      subst hid
      exact ⟨by rfl, by rfl, by rfl, by with_unfolding_all decide⟩
    · have k1 : propertyKey characterId ≠ "migu" := by
        intro hk; cases characterId with
        | none => simp [propertyKey] at hk
        | some id => simp [propertyKey] at hk; exact h1 (by rw [hk])
      have k2 : propertyKey characterId ≠ "teddy" := by
        intro hk; cases characterId with
        | none => simp [propertyKey] at hk
        | some id => simp [propertyKey] at hk; exact h2 (by rw [hk])
      have k3 : propertyKey characterId ≠ "pipper" := by
        intro hk; cases characterId with
        | none => simp [propertyKey] at hk
        | some id => simp [propertyKey] at hk; exact h3 (by rw [hk])
      have k4 : propertyKey characterId ≠ "tasha" := by
        intro hk; cases characterId with
        | none => simp [propertyKey] at hk
        | some id => simp [propertyKey] at hk; exact h4 (by rw [hk])
      exact ⟨lookupOrDefault_default _ _ _ _ (lookup_other _ _ _ _ _ _ k1 k2 k3 k4 h5) hproto rfl,
        lookupOrDefault_default _ _ _ _ (lookup_other _ _ _ _ _ _ k1 k2 k3 k4 h5) hproto rfl,
        lookupOrDefault_default _ _ _ _ (lookup_other _ _ _ _ _ _ k1 k2 k3 k4 h5) hproto rfl,
        lookupOrDefault_default _ _ _ _ (lookup_other _ _ _ _ _ _ k1 k2 k3 k4 h5) hproto rfl⟩

/-- The amended C7 at an id outside the tables, "robot". -/
theorem calibration_lookup_total_witness :
    propertyKey (some "robot") ∉ objectPrototypeKeys ∧
      faceTrimFor (some "robot") = .own ⟨6 / 100, 0⟩ :=
  ⟨by decide,
    ((calibration_lookup_total (some "robot") (by decide)).2.2.2.2
      (by decide) (by decide) (by decide) (by decide)).2.1⟩

/-! ## Module-level maps: lookup after update -/

theorem mapDelete_cons {α : Type} (k1 : String) (v : α) (rest : JsMap α) (k : String) :
    mapDelete ((k1, v) :: rest) k =
      if k1 = k then mapDelete rest k else (k1, v) :: mapDelete rest k := by
  by_cases h : k1 = k <;> simp [mapDelete, List.filter_cons, h]

theorem mapGet_delete_self {α : Type} (m : JsMap α) (k : String) :
    mapGet (mapDelete m k) k = none := by
  induction m with
  | nil => rfl
  | cons e rest ih =>
    obtain ⟨k1, v⟩ := e
    rw [mapDelete_cons]
    by_cases h : k1 = k
    · simpa [h] using ih
    · simpa [h, mapGet] using ih

theorem mapGet_delete_ne {α : Type} (m : JsMap α) {k k1 : String} (h : k1 ≠ k) :
    mapGet (mapDelete m k) k1 = mapGet m k1 := by
  induction m with
  | nil => rfl
  | cons e rest ih =>
    obtain ⟨k2, v⟩ := e
    rw [mapDelete_cons]
    by_cases h2 : k2 = k
    · have h3 : ¬ k2 = k1 := fun e => h (e.symm.trans h2)
      rw [if_pos h2, ih]
      simp [mapGet, h3]
    · rw [if_neg h2]
      by_cases h3 : k2 = k1
      · simp [mapGet, h3]
      · simp [mapGet, h3, ih]

theorem mapGet_set_self {α : Type} (m : JsMap α) (k : String) (v : α) :
    mapGet (mapSet m k v) k = some v := by
  simp [mapSet, mapGet]

theorem mapGet_set_ne {α : Type} (m : JsMap α) {k k1 : String} (v : α) (h : k1 ≠ k) :
    mapGet (mapSet m k v) k1 = mapGet m k1 := by
  have : ¬ k = k1 := fun e => h e.symm
  simp [mapSet, mapGet, this, mapGet_delete_ne m h]

theorem mapDelete_idem {α : Type} (m : JsMap α) (k : String) :
    mapDelete (mapDelete m k) k = mapDelete m k := by
  simp [mapDelete, List.filter_filter]

/-! ## The invariants hold in every reachable state -/

theorem filter_length_le_one {α : Type} (l : List α) (id : α → ℕ) (p : α → Bool) (x : ℕ)
    (hd : l.Pairwise fun a b => id a ≠ id b) (hp : ∀ a ∈ l, p a = true → id a = x) :
    (l.filter p).length ≤ 1 := by
  induction l with
  | nil => simp
  | cons a rest ih =>
    rw [List.pairwise_cons] at hd
    have ih1 := ih hd.2 (fun b hb => hp b (List.mem_cons_of_mem _ hb))
    by_cases ha : p a = true
    · have hempty : rest.filter p = [] := by
        rw [List.filter_eq_nil_iff]
        intro b hb hpb
        have h1 := hp a (List.mem_cons_self _ _) ha
        have h2 := hp b (List.mem_cons_of_mem _ hb) hpb
        exact hd.1 b hb (h1.trans h2.symm)
      simp [List.filter_cons, ha, hempty]
    · simpa [List.filter_cons, ha] using ih1

theorem pairwise_append_fresh {α : Type} (l : List α) (id : α → ℕ) (a : α)
    (hd : l.Pairwise fun a b => id a ≠ id b) (hf : ∀ j ∈ l, id j < id a) :
    (l ++ [a]).Pairwise fun a b => id a ≠ id b := by
  rw [List.pairwise_append]
  refine ⟨hd, List.pairwise_singleton _ _, ?_⟩
  intro x hx y hy
  rw [List.mem_singleton] at hy
  subst hy
  exact Nat.ne_of_lt (hf x hx)

theorem CutoutInv_initial : CutoutInv Machine.initial.cutout := by
  simp [CutoutInv, Machine.initial]

theorem createFaceCutout_inv (s : CutoutState) (img : Canvas) (faceSrc characterId : Option String)
    (h : CutoutInv s) : CutoutInv (createFaceCutout s img faceSrc characterId).1 := by
  obtain ⟨hf, hd, hr, hc⟩ := h
  unfold createFaceCutout
  cases hk : faceCutoutKey faceSrc characterId with
  | none =>
    simp only
    refine ⟨?_, ?_, ?_, ?_⟩
    · intro j hj
      rw [List.mem_append, List.mem_singleton] at hj
      rcases hj with hj | rfl
      · exact Nat.lt_succ_of_lt (hf j hj)
      · exact Nat.lt_succ_self _
    · exact pairwise_append_fresh _ _ _ hd (fun j hj => hf j hj)
    · intro j hj k hjk
      rw [List.mem_append, List.mem_singleton] at hj
      rcases hj with hj | rfl
      · exact hr j hj k hjk
      · cases hjk
    · intro j hj k hjk
      rw [List.mem_append, List.mem_singleton] at hj
      rcases hj with hj | rfl
      · exact hc j hj k hjk
      · cases hjk
  | some key =>
    simp only
    cases hcache : mapGet s.faceCutoutCache key with
    | some cutout => exact ⟨hf, hd, hr, hc⟩
    | none =>
      cases hin : mapGet s.faceCutoutInflight key with
      | some job => exact ⟨hf, hd, hr, hc⟩
      | none =>
        simp only
        refine ⟨?_, ?_, ?_, ?_⟩
        · intro j hj
          rw [List.mem_append, List.mem_singleton] at hj
          rcases hj with hj | rfl
          · exact Nat.lt_succ_of_lt (hf j hj)
          · exact Nat.lt_succ_self _
        · exact pairwise_append_fresh _ _ _ hd (fun j hj => hf j hj)
        · intro j hj k hjk
          rw [List.mem_append, List.mem_singleton] at hj
          rcases hj with hj | rfl
          · have hne : k ≠ key := by
              intro e
              subst e
              rw [hr j hj k hjk] at hin
              cases hin
            rw [mapGet_set_ne _ _ hne]
            exact hr j hj k hjk
          · cases hjk
            exact mapGet_set_self _ _ _
        · intro j hj k hjk
          rw [List.mem_append, List.mem_singleton] at hj
          rcases hj with hj | rfl
          · exact hc j hj k hjk
          · cases hjk
            exact hcache

theorem faceCutoutSettles_inv (cfg : Config) (s : CutoutState) (job : ℕ) (env : Detectors)
    (h : CutoutInv s) : CutoutInv (faceCutoutSettles cfg s job env) := by
  obtain ⟨hf, hd, hr, hc⟩ := h
  unfold faceCutoutSettles
  cases hfind : s.running.find? (fun j => decide (j.id = job)) with
  | none => exact ⟨hf, hd, hr, hc⟩
  | some j =>
    have hjmem : j ∈ s.running := List.mem_of_find?_eq_some hfind
    have hjid : j.id = job := by simpa using List.find?_some hfind
    simp only
    cases createFaceCutoutJob cfg.fastFace j.img j.characterId env with
    | pending => exact ⟨hf, hd, hr, hc⟩
    | rejected t =>
      simp only
      refine ⟨?_, hd.filter _, ?_, ?_⟩
      · intro x hx; exact hf x (List.mem_of_mem_filter hx)
      · intro x hx; exact hr x (List.mem_of_mem_filter hx)
      · intro x hx; exact hc x (List.mem_of_mem_filter hx)
    | fulfilled t result =>
      simp only
      cases hkey : j.key with
      | none =>
        simp only
        refine ⟨?_, hd.filter _, ?_, ?_⟩
        · intro x hx; exact hf x (List.mem_of_mem_filter hx)
        · intro x hx; exact hr x (List.mem_of_mem_filter hx)
        · intro x hx; exact hc x (List.mem_of_mem_filter hx)
      | some key =>
        simp only
        have hother : ∀ x ∈ s.running.filter (fun r => decide (r.id ≠ job)),
            ∀ k, x.key = some k → k ≠ key := by
          intro x hx k hxk e
          subst e
          rw [List.mem_filter] at hx
          have h1 := hr x hx.1 k hxk
          have h2 := hr j hjmem k hkey
          rw [h1] at h2
          injection h2 with h3
          have : x.id ≠ job := by simpa using hx.2
          exact this (h3.trans hjid)
        refine ⟨?_, hd.filter _, ?_, ?_⟩
        · intro x hx; exact hf x (List.mem_of_mem_filter hx)
        · intro x hx k hxk
          rw [mapGet_delete_ne _ (hother x hx k hxk)]
          exact hr x (List.mem_of_mem_filter hx) k hxk
        · intro x hx k hxk
          rw [mapGet_set_ne _ _ (hother x hx k hxk)]
          exact hc x (List.mem_of_mem_filter hx) k hxk

theorem AvatarInv_initial : AvatarInv Machine.initial.avatar := by
  simp [AvatarInv, Machine.initial]

theorem getAvatarDataUrl_inv (cfg : Config) (s : AvatarState) (sourceDataUrl : Option String)
    (h : AvatarInv s) : AvatarInv (getAvatarDataUrl cfg s sourceDataUrl).1 := by
  obtain ⟨hf, hd, hr, hc⟩ := h
  unfold getAvatarDataUrl
  by_cases hai : cfg.useAiAvatar = true
  · simp only [hai, Bool.not_true, Bool.false_eq_true, if_false]
    cases getAvatarCacheKey (some ((truthyString sourceDataUrl).getD "")) with
    | none => exact ⟨hf, hd, hr, hc⟩
    | some key =>
      simp only
      cases hcache : mapGet s.avatarCache key with
      | some url => exact ⟨hf, hd, hr, hc⟩
      | none =>
        cases hin : mapGet s.avatarInflight key with
        | some job => exact ⟨hf, hd, hr, hc⟩
        | none =>
          simp only
          refine ⟨?_, ?_, ?_, ?_⟩
          · intro j hj
            rw [List.mem_append, List.mem_singleton] at hj
            rcases hj with hj | rfl
            · exact Nat.lt_succ_of_lt (hf j hj)
            · exact Nat.lt_succ_self _
          · exact pairwise_append_fresh _ _ _ hd (fun j hj => hf j hj)
          · intro j hj
            rw [List.mem_append, List.mem_singleton] at hj
            rcases hj with hj | rfl
            · have hne : j.key ≠ key := by
                intro e
                rw [← e, hr j hj] at hin
                cases hin
              rw [mapGet_set_ne _ _ hne]
              exact hr j hj
            · exact mapGet_set_self _ _ _
          · intro j hj
            rw [List.mem_append, List.mem_singleton] at hj
            rcases hj with hj | rfl
            · exact hc j hj
            · exact hcache
  · simp only [hai, Bool.not_false, if_true]
    exact ⟨hf, hd, hr, hc⟩

theorem avatarSettles_inv (s : AvatarState) (job : ℕ) (outcome : AvatarOutcome)
    (h : AvatarInv s) : AvatarInv (avatarSettles s job outcome) := by
  obtain ⟨hf, hd, hr, hc⟩ := h
  unfold avatarSettles
  cases hfind : s.running.find? (fun j => decide (j.id = job)) with
  | none => exact ⟨hf, hd, hr, hc⟩
  | some j =>
    have hjmem : j ∈ s.running := List.mem_of_find?_eq_some hfind
    have hjid : j.id = job := by simpa using List.find?_some hfind
    have hother : ∀ x ∈ s.running.filter (fun r => decide (r.id ≠ job)), x.key ≠ j.key := by
      intro x hx e
      rw [List.mem_filter] at hx
      have h1 := hr x hx.1
      have h2 := hr j hjmem
      rw [e, h2] at h1
      injection h1 with h3
      have : x.id ≠ job := by simpa using hx.2
      exact this (h3.symm.trans hjid)
    simp only
    cases avatarJobResult outcome with
    | none =>
      simp only
      refine ⟨?_, hd.filter _, ?_, ?_⟩
      · intro x hx; exact hf x (List.mem_of_mem_filter hx)
      · intro x hx
        rw [mapGet_delete_ne _ (hother x hx)]
        exact hr x (List.mem_of_mem_filter hx)
      · intro x hx; exact hc x (List.mem_of_mem_filter hx)
    | some result =>
      simp only
      refine ⟨?_, hd.filter _, ?_, ?_⟩
      · intro x hx; exact hf x (List.mem_of_mem_filter hx)
      · intro x hx
        rw [mapGet_delete_ne _ (hother x hx)]
        exact hr x (List.mem_of_mem_filter hx)
      · intro x hx
        rw [mapGet_set_ne _ _ (hother x hx)]
        exact hc x (List.mem_of_mem_filter hx)

theorem foldl_preserves {α β : Type} (P : β → Prop) (f : β → α → β) (l : List α) (init : β)
    (h0 : P init) (hstep : ∀ acc a, a ∈ l → P acc → P (f acc a)) : P (l.foldl f init) := by
  induction l generalizing init with
  | nil => exact h0
  | cons a rest ih =>
    rw [List.foldl_cons]
    exact ih _ (hstep _ _ (List.mem_cons_self _ _) h0)
      (fun acc b hb => hstep acc b (List.mem_cons_of_mem _ hb))

theorem publish_frame (s : CompositeState) (caller : ℕ) (compositeSrc out : String) :
    (publish s caller compositeSrc out).running = s.running ∧
      (publish s caller compositeSrc out).started = s.started ∧
      (publish s caller compositeSrc out).callers = s.callers ∧
      (publish s caller compositeSrc out).compositeInflight = s.compositeInflight ∧
      (publish s caller compositeSrc out).compositeCache = s.compositeCache := by
  unfold publish
  by_cases h1 : s.lastCompositeRef ≠ some out
  · simp [h1]
  · by_cases h2 : compositeSrc ≠ out
    · simp [h1, h2]
    · simp [h1, h2]

theorem publish_uiBy (s : CompositeState) (caller other : ℕ) (compositeSrc out : String)
    (h : caller ≠ other) :
    uiBy other (publish s caller compositeSrc out) = uiBy other s := by
  unfold publish uiBy
  by_cases h1 : s.lastCompositeRef ≠ some out
  · simp [h1, List.filter_append, List.filter_cons, h]
  · by_cases h2 : compositeSrc ≠ out
    · simp [h1, h2, List.filter_append, List.filter_cons, h]
    · simp [h1, h2, List.filter_append, List.filter_cons, h]

theorem runHandler_frame (s : CompositeState) (c : Caller) (role : Role)
    (outcome : CompositeOutcome) :
    (runHandler s c role outcome).running = s.running ∧
      (runHandler s c role outcome).started = s.started ∧
      (runHandler s c role outcome).callers = s.callers ∧
      (runHandler s c role outcome).compositeInflight =
        (match role with
          | .starter => mapDelete s.compositeInflight c.key
          | .joiner => s.compositeInflight) ∧
      (match role with
        | .starter => ∀ k, k ≠ c.key →
          mapGet (runHandler s c role outcome).compositeCache k = mapGet s.compositeCache k
        | .joiner => (runHandler s c role outcome).compositeCache = s.compositeCache) := by
  cases role <;> cases outcome <;> simp only [runHandler]
  · by_cases ha : c.active = true <;> simp [ha]
  · by_cases ha : c.active = true
    · by_cases ho : (‹String› = "")
      · simp [ha, ho]
      · simp only [ha, ho, Bool.not_true, decide_False, Bool.or_self, Bool.false_eq_true,
          if_false]
        obtain ⟨h1, h2, h3, h4, h5⟩ := publish_frame
          { s with compositeInflight := mapDelete s.compositeInflight c.key,
                   compositeCache := mapSet s.compositeCache c.key ‹String› } c.id
          c.compositeSrc ‹String›
        refine ⟨h1, h2, h3, h4, ?_⟩
        intro k hk
        rw [h5]
        exact mapGet_set_ne _ _ hk
    · simp [ha]
  · by_cases ha : c.active = true <;> simp [ha]
  · simp
  · by_cases ha : c.active = true
    · by_cases ho : (‹String› = "") <;> simp [ha, ho]
    · simp [ha]
  · by_cases ha : c.active = true <;> simp [ha]

theorem CompositeInv_initial : CompositeInv Machine.initial.composite := by
  simp [CompositeInv, Machine.initial]

theorem effect_inv (cfg : Config) (s : CompositeState) (faceSrc characterId : Option String)
    (compositeSrc : String) (h : CompositeInv s) :
    CompositeInv (effect cfg s faceSrc characterId compositeSrc) := by
  obtain ⟨hf, hd, hr, hc, hw, hi⟩ := h
  unfold effect
  cases truthyString faceSrc with
  | none => exact ⟨hf, hd, hr, hc, hw, hi⟩
  | some src =>
    cases truthyString characterId with
    | none => exact ⟨hf, hd, hr, hc, hw, hi⟩
    | some cid =>
      simp only
      have hids : ∀ (w : Option (ℕ × Role)),
          ∀ c ∈ s.callers ++
              [({ id := s.callers.length, active := true, compositeSrc := compositeSrc,
                  key := compositeKey cfg (some cid) src, watching := w } : Caller)],
            c.id < (s.callers ++
              [({ id := s.callers.length, active := true, compositeSrc := compositeSrc,
                  key := compositeKey cfg (some cid) src, watching := w } : Caller)]).length := by
        intro w c hcm
        rw [List.length_append, List.length_singleton]
        rw [List.mem_append, List.mem_singleton] at hcm
        rcases hcm with hcm | rfl
        · exact Nat.lt_succ_of_lt (hi c hcm)
        · exact Nat.lt_succ_self _
      cases hcache : mapGet s.compositeCache (compositeKey cfg (some cid) src) with
      | some cached =>
        simp only
        obtain ⟨p1, p2, p3, p4, p5⟩ := publish_frame
          { s with callers := s.callers ++
              [({ id := s.callers.length, active := true, compositeSrc := compositeSrc,
                  key := compositeKey cfg (some cid) src, watching := none } : Caller)] }
          s.callers.length compositeSrc cached
        unfold CompositeInv
        rw [p1, p2, p3, p4, p5]
        refine ⟨hf, hd, hr, hc, ?_, hids none⟩
        intro c hcm job hwatch
        rw [List.mem_append, List.mem_singleton] at hcm
        rcases hcm with hcm | rfl
        · exact hw c hcm job hwatch
        · cases hwatch
      | none =>
        cases hin : mapGet s.compositeInflight (compositeKey cfg (some cid) src) with
        | some inflight =>
          simp only
          refine ⟨hf, hd, hr, hc, ?_, hids _⟩
          intro c hcm job hwatch
          rw [List.mem_append, List.mem_singleton] at hcm
          rcases hcm with hcm | rfl
          · exact hw c hcm job hwatch
          · cases hwatch
        | none =>
          simp only
          refine ⟨?_, ?_, ?_, ?_, ?_, hids _⟩
          · intro j hj
            rw [List.mem_append, List.mem_singleton] at hj
            rcases hj with hj | rfl
            · exact Nat.lt_succ_of_lt (hf j hj)
            · exact Nat.lt_succ_self _
          · exact pairwise_append_fresh _ _ _ hd (fun j hj => hf j hj)
          · intro j hj
            rw [List.mem_append, List.mem_singleton] at hj
            rcases hj with hj | rfl
            · have hne : j.key ≠ compositeKey cfg (some cid) src := by
                intro e
                rw [← e, hr j hj] at hin
                cases hin
              rw [mapGet_set_ne _ _ hne]
              exact hr j hj
            · exact mapGet_set_self _ _ _
          · intro j hj
            rw [List.mem_append, List.mem_singleton] at hj
            rcases hj with hj | rfl
            · exact hc j hj
            · exact hcache
          · intro c hcm job hwatch
            rw [List.mem_append, List.mem_singleton] at hcm
            rcases hcm with hcm | rfl
            · obtain ⟨hlt, hkey⟩ := hw c hcm job hwatch
              refine ⟨Nat.lt_succ_of_lt hlt, ?_⟩
              intro j hj hjid
              rw [List.mem_append, List.mem_singleton] at hj
              rcases hj with hj | rfl
              · exact hkey j hj hjid
              · simp only at hjid
                exact absurd hjid (Nat.ne_of_gt hlt)
            · simp only [Option.some.injEq, Prod.mk.injEq, and_true] at hwatch
              subst hwatch
              refine ⟨Nat.lt_succ_self _, ?_⟩
              intro j hj hjid
              rw [List.mem_append, List.mem_singleton] at hj
              rcases hj with hj | rfl
              · exact absurd hjid (Nat.ne_of_lt (hf j hj))
              · rfl

theorem cleanup_inv (s : CompositeState) (caller : ℕ) (h : CompositeInv s) :
    CompositeInv (cleanup s caller) := by
  obtain ⟨hf, hd, hr, hc, hw, hi⟩ := h
  unfold cleanup
  refine ⟨hf, hd, hr, hc, ?_, ?_⟩
  · intro c hcm job hwatch
    simp only [List.mem_map] at hcm
    obtain ⟨c0, hc0, rfl⟩ := hcm
    by_cases hcond : c0.id = caller ∧ c0.watching.isSome = true
    · simp only [hcond, and_self, if_true] at hwatch ⊢
      exact hw c0 hc0 job hwatch
    · simp only [hcond, if_false] at hwatch ⊢
      exact hw c0 hc0 job hwatch
  · intro c hcm
    simp only [List.mem_map] at hcm
    obtain ⟨c0, hc0, rfl⟩ := hcm
    simp only [List.length_map]
    by_cases hcond : c0.id = caller ∧ c0.watching.isSome = true
    · rw [if_pos hcond]
      exact hi c0 hc0
    · rw [if_neg hcond]
      exact hi c0 hc0

theorem compositeSettles_inv (s : CompositeState) (job : ℕ) (outcome : CompositeOutcome)
    (h : CompositeInv s) : CompositeInv (compositeSettles s job outcome) := by
  have h0 := h
  obtain ⟨hf, hd, hr, hc, hw, hi⟩ := h
  unfold compositeSettles
  by_cases hany : (s.running.any fun j => decide (j.id = job)) = true
  · rw [if_pos hany]
    rw [List.any_eq_true] at hany
    obtain ⟨j0, hj0, hj0id⟩ := hany
    have hj0id : j0.id = job := by simpa using hj0id
    have hother : ∀ x ∈ s.running.filter (fun r => decide (r.id ≠ job)), x.key ≠ j0.key := by
      intro x hx e
      rw [List.mem_filter] at hx
      have h1 := hr x hx.1
      have h2 := hr j0 hj0
      rw [e, h2] at h1
      injection h1 with h3
      have : x.id ≠ job := by simpa using hx.2
      exact this (h3.symm.trans hj0id)
    have hfold := foldl_preserves
      (fun acc : CompositeState =>
        acc.running = s.running.filter (fun r => decide (r.id ≠ job)) ∧
          acc.started = s.started ∧ acc.callers = s.callers ∧
          (∀ k, k ≠ j0.key → mapGet acc.compositeInflight k = mapGet s.compositeInflight k) ∧
          (∀ k, k ≠ j0.key → mapGet acc.compositeCache k = mapGet s.compositeCache k))
      (notify job outcome) s.callers
      { s with running := s.running.filter fun r => decide (r.id ≠ job) }
      ⟨rfl, rfl, rfl, fun _ _ => rfl, fun _ _ => rfl⟩
      (by
        intro acc c hcm hacc
        obtain ⟨a1, a2, a3, a4, a5⟩ := hacc
        unfold notify
        cases hwatch : c.watching with
        | none => exact ⟨a1, a2, a3, a4, a5⟩
        | some w =>
          obtain ⟨watched, role⟩ := w
          simp only
          by_cases hwj : watched = job
          · rw [if_pos hwj]
            obtain ⟨f1, f2, f3, f4, f5⟩ := runHandler_frame acc c role outcome
            refine ⟨f1.trans a1, f2.trans a2, f3.trans a3, ?_, ?_⟩
            · intro k hk
              rw [f4]
              cases role with
              | joiner => exact a4 k hk
              | starter =>
                have hkey : j0.key = c.key :=
                  (hw c hcm job (by rw [hwatch, hwj])).2 j0 hj0 hj0id
                simp only
                rw [mapGet_delete_ne _ (by rw [← hkey]; exact hk)]
                exact a4 k hk
            · intro k hk
              cases role with
              | joiner =>
                simp only at f5
                rw [f5]
                exact a5 k hk
              | starter =>
                have hkey : j0.key = c.key :=
                  (hw c hcm job (by rw [hwatch, hwj])).2 j0 hj0 hj0id
                simp only at f5
                rw [f5 k (by rw [← hkey]; exact hk)]
                exact a5 k hk
          · rw [if_neg hwj]
            exact ⟨a1, a2, a3, a4, a5⟩)
    obtain ⟨g1, g2, g3, g4, g5⟩ := hfold
    unfold CompositeInv
    rw [g1, g2, g3]
    refine ⟨?_, hd.filter _, ?_, ?_, ?_, hi⟩
    · intro x hx; exact hf x (List.mem_of_mem_filter hx)
    · intro x hx
      rw [g4 _ (hother x hx)]
      exact hr x (List.mem_of_mem_filter hx)
    · intro x hx
      rw [g5 _ (hother x hx)]
      exact hc x (List.mem_of_mem_filter hx)
    · intro c hcm job1 hwatch
      obtain ⟨hlt, hkey⟩ := hw c hcm job1 hwatch
      exact ⟨hlt, fun j hj hjid => hkey j (List.mem_of_mem_filter hj) hjid⟩
  · rw [if_neg hany]
    exact h0

/-- The invariant of the whole module. -/
theorem step_inv (cfg : Config) (s : Machine) (e : Event)
    (h : CompositeInv s.composite ∧ CutoutInv s.cutout ∧ AvatarInv s.avatar) :
    CompositeInv (step cfg s e).composite ∧ CutoutInv (step cfg s e).cutout ∧
      AvatarInv (step cfg s e).avatar := by
  obtain ⟨h1, h2, h3⟩ := h
  cases e with
  | effect faceSrc characterId compositeSrc => exact ⟨effect_inv _ _ _ _ _ h1, h2, h3⟩
  | cleanup caller => exact ⟨cleanup_inv _ _ h1, h2, h3⟩
  | compositeSettles job outcome => exact ⟨compositeSettles_inv _ _ _ h1, h2, h3⟩
  | createFaceCutout img faceSrc characterId => exact ⟨h1, createFaceCutout_inv _ _ _ _ h2, h3⟩
  | faceCutoutSettles job env => exact ⟨h1, faceCutoutSettles_inv _ _ _ _ h2, h3⟩
  | getAvatarDataUrl sourceDataUrl => exact ⟨h1, h2, getAvatarDataUrl_inv _ _ _ h3⟩
  | avatarSettles job outcome => exact ⟨h1, h2, avatarSettles_inv _ _ _ h3⟩

theorem run_inv (cfg : Config) (events : List Event) :
    CompositeInv (run cfg events).composite ∧ CutoutInv (run cfg events).cutout ∧
      AvatarInv (run cfg events).avatar :=
  foldl_preserves
    (fun s : Machine => CompositeInv s.composite ∧ CutoutInv s.cutout ∧ AvatarInv s.avatar)
    (step cfg) events Machine.initial
    ⟨CompositeInv_initial, CutoutInv_initial, AvatarInv_initial⟩
    (fun acc e _ hacc => step_inv cfg acc e hacc)

/-! ## Requests for a key that is cached or in flight -/

theorem run_append (cfg : Config) (events more : List Event) :
    run cfg (events ++ more) = more.foldl (step cfg) (run cfg events) := by
  simp [run, List.foldl_append]

theorem effect_known (cfg : Config) (s : CompositeState) (faceSrc characterId : Option String)
    (compositeSrc : String) (h : CompositeKnown cfg s faceSrc characterId) :
    (effect cfg s faceSrc characterId compositeSrc).started = s.started ∧
      (effect cfg s faceSrc characterId compositeSrc).running = s.running ∧
      CompositeKnown cfg (effect cfg s faceSrc characterId compositeSrc) faceSrc characterId := by
  unfold CompositeKnown effect at *
  cases hs : truthyString faceSrc with
  | none => simp
  | some src =>
    cases hc : truthyString characterId with
    | none => simp
    | some cid =>
      rw [hs, hc] at h
      simp only at h ⊢
      cases hcache : mapGet s.compositeCache (compositeKey cfg (some cid) src) with
      | some cached =>
        simp only
        obtain ⟨p1, p2, p3, p4, p5⟩ := publish_frame
          { s with callers := s.callers ++
              [({ id := s.callers.length, active := true, compositeSrc := compositeSrc,
                  key := compositeKey cfg (some cid) src, watching := none } : Caller)] }
          s.callers.length compositeSrc cached
        rw [p1, p2, p4, p5]
        exact ⟨rfl, rfl, Or.inl (by simp [hcache])⟩
      | none =>
        cases hin : mapGet s.compositeInflight (compositeKey cfg (some cid) src) with
        | some inflight => exact ⟨rfl, rfl, Or.inr (by simp [hin])⟩
        | none => simp [hcache, hin] at h

theorem effect_makes_known (cfg : Config) (s : CompositeState)
    (faceSrc characterId : Option String) (compositeSrc : String) :
    (effect cfg s faceSrc characterId compositeSrc).started ≤ s.started + 1 ∧
      CompositeKnown cfg (effect cfg s faceSrc characterId compositeSrc) faceSrc characterId := by
  by_cases hk : CompositeKnown cfg s faceSrc characterId
  · obtain ⟨h1, -, h3⟩ := effect_known cfg s faceSrc characterId compositeSrc hk
    exact ⟨by rw [h1]; exact Nat.le_succ _, h3⟩
  · unfold CompositeKnown effect at *
    cases hs : truthyString faceSrc with
    | none => rw [hs] at hk; simp at hk
    | some src =>
      cases hc : truthyString characterId with
      | none => rw [hs, hc] at hk; simp at hk
      | some cid =>
        rw [hs, hc] at hk
        simp only at hk ⊢
        cases hcache : mapGet s.compositeCache (compositeKey cfg (some cid) src) with
        | some cached => simp [hcache] at hk
        | none =>
          cases hin : mapGet s.compositeInflight (compositeKey cfg (some cid) src) with
          | some inflight => simp [hin] at hk
          | none =>
            simp only
            exact ⟨le_refl _, Or.inr (by simp [mapGet_set_self])⟩

theorem effects_start_at_most_one (cfg : Config) (faceSrc characterId : Option String)
    (requests : List String) (s : Machine) :
    ((requests.map fun c => Event.effect faceSrc characterId c).foldl (step cfg) s).composite.started
      ≤ s.composite.started + 1 := by
  have hknown : ∀ (l : List String) (s : Machine),
      CompositeKnown cfg s.composite faceSrc characterId →
      ((l.map fun c => Event.effect faceSrc characterId c).foldl (step cfg) s).composite.started
        = s.composite.started := by
    intro l
    induction l with
    | nil => intro s _; rfl
    | cons c rest ih =>
      intro s hs
      obtain ⟨h1, -, h3⟩ := effect_known cfg s.composite faceSrc characterId c hs
      rw [List.map_cons, List.foldl_cons, ih _ (by simpa [step] using h3)]
      simpa [step] using h1
  cases requests with
  | nil => exact Nat.le_succ _
  | cons c rest =>
    obtain ⟨h1, h2⟩ := effect_makes_known cfg s.composite faceSrc characterId c
    rw [List.map_cons, List.foldl_cons, hknown rest _ (by simpa [step] using h2)]
    simpa [step] using h1

theorem createFaceCutout_known (s : CutoutState) (img : Canvas) (faceSrc characterId : Option String)
    (key : String) (hkey : faceCutoutKey faceSrc characterId = some key)
    (h : CutoutKnown s key) : (createFaceCutout s img faceSrc characterId).1 = s := by
  unfold createFaceCutout
  rw [hkey]
  simp only
  cases hcache : mapGet s.faceCutoutCache key with
  | some cutout => rfl
  | none =>
    cases hin : mapGet s.faceCutoutInflight key with
    | some job => rfl
    | none => simp [CutoutKnown, hcache, hin] at h

theorem createFaceCutout_makes_known (s : CutoutState) (img : Canvas)
    (faceSrc characterId : Option String) (key : String)
    (hkey : faceCutoutKey faceSrc characterId = some key) :
    (createFaceCutout s img faceSrc characterId).1.started ≤ s.started + 1 ∧
      CutoutKnown (createFaceCutout s img faceSrc characterId).1 key := by
  by_cases hk : CutoutKnown s key
  · rw [createFaceCutout_known s img faceSrc characterId key hkey hk]
    exact ⟨Nat.le_succ _, hk⟩
  · unfold createFaceCutout
    rw [hkey]
    simp only
    cases hcache : mapGet s.faceCutoutCache key with
    | some cutout => simp [CutoutKnown, hcache] at hk
    | none =>
      cases hin : mapGet s.faceCutoutInflight key with
      | some job => simp [CutoutKnown, hin] at hk
      | none =>
        simp only
        exact ⟨le_refl _, Or.inr (by simp [mapGet_set_self])⟩

theorem cutout_calls_start_at_most_one (cfg : Config) (faceSrc characterId : Option String)
    (key : String) (hkey : faceCutoutKey faceSrc characterId = some key)
    (requests : List Canvas) (s : Machine) :
    ((requests.map fun img => Event.createFaceCutout img faceSrc characterId).foldl
      (step cfg) s).cutout.started ≤ s.cutout.started + 1 := by
  have hknown : ∀ (l : List Canvas) (s : Machine), CutoutKnown s.cutout key →
      ((l.map fun img => Event.createFaceCutout img faceSrc characterId).foldl
        (step cfg) s).cutout.started = s.cutout.started := by
    intro l
    induction l with
    | nil => intro s _; rfl
    | cons c rest ih =>
      intro s hs
      have h1 := createFaceCutout_known s.cutout c faceSrc characterId key hkey hs
      rw [List.map_cons, List.foldl_cons, ih _ (by simpa [step, h1] using hs)]
      simp [step, h1]
  cases requests with
  | nil => exact Nat.le_succ _
  | cons c rest =>
    obtain ⟨h1, h2⟩ := createFaceCutout_makes_known s.cutout c faceSrc characterId key hkey
    rw [List.map_cons, List.foldl_cons, hknown rest _ (by simpa [step] using h2)]
    simpa [step] using h1

theorem getAvatarDataUrl_known (cfg : Config) (s : AvatarState) (sourceDataUrl : Option String)
    (h : AvatarKnown cfg s sourceDataUrl) : (getAvatarDataUrl cfg s sourceDataUrl).1 = s := by
  unfold getAvatarDataUrl
  by_cases hai : cfg.useAiAvatar = true
  · simp only [hai, Bool.not_true, Bool.false_eq_true, if_false]
    unfold AvatarKnown at h
    cases hk : getAvatarCacheKey (some ((truthyString sourceDataUrl).getD "")) with
    | none => rfl
    | some key =>
      rw [hk] at h
      simp only
      cases hcache : mapGet s.avatarCache key with
      | some url => rfl
      | none =>
        cases hin : mapGet s.avatarInflight key with
        | some job => rfl
        | none => simp [hai, hcache, hin] at h
  · simp [hai]

theorem getAvatarDataUrl_makes_known (cfg : Config) (s : AvatarState)
    (sourceDataUrl : Option String) :
    (getAvatarDataUrl cfg s sourceDataUrl).1.started ≤ s.started + 1 ∧
      AvatarKnown cfg (getAvatarDataUrl cfg s sourceDataUrl).1 sourceDataUrl := by
  by_cases hk : AvatarKnown cfg s sourceDataUrl
  · rw [getAvatarDataUrl_known cfg s sourceDataUrl hk]
    exact ⟨Nat.le_succ _, hk⟩
  · unfold AvatarKnown at hk
    unfold getAvatarDataUrl AvatarKnown
    by_cases hai : cfg.useAiAvatar = true
    · simp only [hai, Bool.not_true, Bool.false_eq_true, if_false, false_or] at hk ⊢
      cases hkey : getAvatarCacheKey (some ((truthyString sourceDataUrl).getD "")) with
      | none => rw [hkey] at hk; simp at hk
      | some key =>
        rw [hkey] at hk
        simp only at hk ⊢
        cases hcache : mapGet s.avatarCache key with
        | some url => simp [hcache] at hk
        | none =>
          cases hin : mapGet s.avatarInflight key with
          | some job => simp [hin] at hk
          | none =>
            simp only
            exact ⟨le_refl _, Or.inr (by simp [mapGet_set_self])⟩
    · simp [hai] at hk

theorem avatar_calls_start_at_most_one (cfg : Config) (sourceDataUrl : Option String)
    (n : ℕ) (s : Machine) :
    ((List.replicate n (Event.getAvatarDataUrl sourceDataUrl)).foldl (step cfg) s).avatar.started
      ≤ s.avatar.started + 1 := by
  have hknown : ∀ (n : ℕ) (s : Machine), AvatarKnown cfg s.avatar sourceDataUrl →
      ((List.replicate n (Event.getAvatarDataUrl sourceDataUrl)).foldl
        (step cfg) s).avatar.started = s.avatar.started := by
    intro n
    induction n with
    | zero => intro s _; rfl
    | succ n ih =>
      intro s hs
      have h1 := getAvatarDataUrl_known cfg s.avatar sourceDataUrl hs
      rw [List.replicate_succ, List.foldl_cons, ih _ (by simpa [step, h1] using hs)]
      simp [step, h1]
  cases n with
  | zero => exact Nat.le_succ _
  | succ n =>
    obtain ⟨h1, h2⟩ := getAvatarDataUrl_makes_known cfg s.avatar sourceDataUrl
    rw [List.replicate_succ, List.foldl_cons, hknown n _ (by simpa [step] using h2)]
    simpa [step] using h1

/-- C3. In every interleaving of events, each of the three layers (composite
effect, `createFaceCutout`, `getAvatarDataUrl`) has at most one running job per
cache key; a request that arrives while a job for its key is running joins that
job and starts nothing; and any number of requests for one key in a row start
at most one composite job, one face cutout job and one avatar job. -/
theorem inflight_requests_join (cfg : Config) (events : List Event) :
    (∀ key : String,
      ((run cfg events).composite.running.filter fun j => decide (j.key = key)).length ≤ 1 ∧
        ((run cfg events).cutout.running.filter fun j => decide (j.key = some key)).length ≤ 1 ∧
        ((run cfg events).avatar.running.filter fun j => decide (j.key = key)).length ≤ 1) ∧
      (∀ j ∈ (run cfg events).composite.running, ∀ src cid compositeSrc : String,
        src ≠ "" → cid ≠ "" → compositeKey cfg (some cid) src = j.key →
        effect cfg (run cfg events).composite (some src) (some cid) compositeSrc =
          { (run cfg events).composite with
            callers := (run cfg events).composite.callers ++
              [{ id := (run cfg events).composite.callers.length, active := true,
                 compositeSrc := compositeSrc, key := j.key,
                 watching := some (j.id, .joiner) }]
            ui := (run cfg events).composite.ui ++
              [((run cfg events).composite.callers.length, .setLoadingComposite true)] }) ∧
      (∀ j ∈ (run cfg events).cutout.running,
        ∀ (img : Canvas) (faceSrc characterId : Option String) (key : String),
        faceCutoutKey faceSrc characterId = some key → j.key = some key →
        createFaceCutout (run cfg events).cutout img faceSrc characterId =
          ((run cfg events).cutout, .joined j.id)) ∧
      (∀ j ∈ (run cfg events).avatar.running, ∀ sourceDataUrl : Option String,
        cfg.useAiAvatar = true →
        getAvatarCacheKey (some ((truthyString sourceDataUrl).getD "")) = some j.key →
        getAvatarDataUrl cfg (run cfg events).avatar sourceDataUrl =
          ((run cfg events).avatar, .joined j.id)) ∧
      (∀ (faceSrc characterId : Option String) (requests : List String),
        (run cfg (events ++ requests.map fun c => Event.effect faceSrc characterId c)).composite.started
          ≤ (run cfg events).composite.started + 1) ∧
      (∀ (faceSrc characterId : Option String) (key : String) (requests : List Canvas),
        faceCutoutKey faceSrc characterId = some key →
        (run cfg (events ++
            requests.map fun img => Event.createFaceCutout img faceSrc characterId)).cutout.started
          ≤ (run cfg events).cutout.started + 1) ∧
      (∀ (sourceDataUrl : Option String) (n : ℕ),
        (run cfg (events ++ List.replicate n (Event.getAvatarDataUrl sourceDataUrl))).avatar.started
          ≤ (run cfg events).avatar.started + 1) := by
  obtain ⟨⟨-, cd, cr, cc, -, -⟩, ⟨-, fd, fr, fc⟩, ⟨-, ad, ar, ac⟩⟩ := run_inv cfg events
  refine ⟨?_, ?_, ?_, ?_, ?_, ?_, ?_⟩
  · intro key
    refine ⟨?_, ?_, ?_⟩
    · cases hk : mapGet (run cfg events).composite.compositeInflight key with
      | none =>
        refine filter_length_le_one _ (fun j => j.id) _ 0 cd ?_
        intro j hj hp
        have : j.key = key := by simpa using hp
        rw [← this, cr j hj] at hk
        cases hk
      | some x =>
        refine filter_length_le_one _ (fun j => j.id) _ x cd ?_
        intro j hj hp
        have : j.key = key := by simpa using hp
        rw [← this, cr j hj] at hk
        injection hk
    · cases hk : mapGet (run cfg events).cutout.faceCutoutInflight key with
      | none =>
        refine filter_length_le_one _ (fun j => j.id) _ 0 fd ?_
        intro j hj hp
        have : j.key = some key := by simpa using hp
        rw [fr j hj key this] at hk
        cases hk
      | some x =>
        refine filter_length_le_one _ (fun j => j.id) _ x fd ?_
        intro j hj hp
        have : j.key = some key := by simpa using hp
        rw [fr j hj key this] at hk
        injection hk
    · cases hk : mapGet (run cfg events).avatar.avatarInflight key with
      | none =>
        refine filter_length_le_one _ (fun j => j.id) _ 0 ad ?_
        intro j hj hp
        have : j.key = key := by simpa using hp
        rw [← this, ar j hj] at hk
        cases hk
      | some x =>
        refine filter_length_le_one _ (fun j => j.id) _ x ad ?_
        intro j hj hp
        have : j.key = key := by simpa using hp
        rw [← this, ar j hj] at hk
        injection hk
  · intro j hj src cid compositeSrc hsrc hcid hkey
    have h1 := cr j hj
    have h2 := cc j hj
    simp [effect, truthyString, hsrc, hcid, h1, h2, hkey]
  · intro j hj img faceSrc characterId key hkey hjk
    have h1 := fr j hj key hjk
    have h2 := fc j hj key hjk
    simp [createFaceCutout, hkey, h1, h2]
  · intro j hj sourceDataUrl hai hkey
    have h1 := ar j hj
    have h2 := ac j hj
    simp [getAvatarDataUrl, hai, hkey, h1, h2]
  · intro faceSrc characterId requests
    rw [run_append]
    exact effects_start_at_most_one cfg faceSrc characterId requests _
  · intro faceSrc characterId key requests hkey
    rw [run_append]
    exact cutout_calls_start_at_most_one cfg faceSrc characterId key hkey requests _
  · intro sourceDataUrl n
    rw [run_append]
    exact avatar_calls_start_at_most_one cfg sourceDataUrl n _

/-! ## Detached effect runs -/

theorem runHandler_uiBy_other (s : CompositeState) (c : Caller) (role : Role)
    (outcome : CompositeOutcome) (caller : ℕ) (h : c.id ≠ caller) :
    uiBy caller (runHandler s c role outcome) = uiBy caller s := by
  cases role <;> cases outcome <;> simp only [runHandler]
  · by_cases ha : c.active = true <;> simp [ha, uiBy, List.filter_append, List.filter_cons, h]
  · by_cases ha : c.active = true
    · by_cases ho : (‹String› = "")
      · simp [ha, ho, uiBy, List.filter_append, List.filter_cons, h]
      · simp only [ha, ho, Bool.not_true, decide_False, Bool.or_self, Bool.false_eq_true,
          if_false]
        rw [publish_uiBy _ _ _ _ _ h]
        rfl
    · simp [ha, uiBy]
  · by_cases ha : c.active = true <;> simp [ha, uiBy, List.filter_append, List.filter_cons, h]
  · by_cases ha : c.active = true
    · by_cases ho : (‹String› = "") <;>
        simp [ha, ho, uiBy, List.filter_append, List.filter_cons, h]
    · simp [ha, uiBy]
  · by_cases ha : c.active = true <;> simp [ha, uiBy, List.filter_append, List.filter_cons, h]

theorem runHandler_inactive (s : CompositeState) (c : Caller) (role : Role)
    (outcome : CompositeOutcome) (h : c.active = false) :
    (runHandler s c role outcome).ui = s.ui ∧
      (runHandler s c role outcome).compositeCache = s.compositeCache := by
  cases role <;> cases outcome <;> simp [runHandler, h]

theorem compositeSettles_quiet (s : CompositeState) (job : ℕ) (outcome : CompositeOutcome)
    (caller : ℕ) (hq : Quiet s caller) :
    uiBy caller (compositeSettles s job outcome) = uiBy caller s ∧
      (compositeSettles s job outcome).callers = s.callers := by
  unfold compositeSettles
  by_cases hany : (s.running.any fun j => decide (j.id = job)) = true
  · rw [if_pos hany]
    exact foldl_preserves
      (fun acc : CompositeState => uiBy caller acc = uiBy caller s ∧ acc.callers = s.callers)
      (notify job outcome) s.callers
      { s with running := s.running.filter fun r => decide (r.id ≠ job) } ⟨rfl, rfl⟩
      (by
        intro acc c hcm hacc
        obtain ⟨a1, a2⟩ := hacc
        unfold notify
        cases hwatch : c.watching with
        | none => exact ⟨a1, a2⟩
        | some w =>
          obtain ⟨watched, role⟩ := w
          simp only
          by_cases hwj : watched = job
          · rw [if_pos hwj]
            refine ⟨?_, (runHandler_frame acc c role outcome).2.2.1.trans a2⟩
            by_cases hid : c.id = caller
            · rcases hq c hcm hid with hin | hnone
              · unfold uiBy at a1 ⊢
                rw [(runHandler_inactive acc c role outcome hin).1]
                exact a1
              · rw [hnone] at hwatch
                cases hwatch
            · rw [runHandler_uiBy_other _ _ _ _ _ hid]
              exact a1
          · rw [if_neg hwj]
            exact ⟨a1, a2⟩)
  · rw [if_neg hany]
    exact ⟨rfl, rfl⟩

theorem effect_quiet (cfg : Config) (s : CompositeState) (faceSrc characterId : Option String)
    (compositeSrc : String) (caller : ℕ) (hlt : caller < s.callers.length)
    (hq : Quiet s caller) :
    uiBy caller (effect cfg s faceSrc characterId compositeSrc) = uiBy caller s ∧
      Quiet (effect cfg s faceSrc characterId compositeSrc) caller ∧
      caller < (effect cfg s faceSrc characterId compositeSrc).callers.length := by
  have hne : s.callers.length ≠ caller := Nat.ne_of_gt hlt
  have hquiet : ∀ w : Option (ℕ × Role),
      ∀ c ∈ s.callers ++
          [({ id := s.callers.length, active := true, compositeSrc := compositeSrc,
              key := compositeKey cfg ((truthyString characterId)) ((truthyString faceSrc).getD ""),
              watching := w } : Caller)],
        c.id = caller → c.active = false ∨ c.watching = none := by
    intro w c hcm hid
    rw [List.mem_append, List.mem_singleton] at hcm
    rcases hcm with hcm | rfl
    · exact hq c hcm hid
    · exact absurd hid hne
  unfold effect
  cases hs : truthyString faceSrc with
  | none => exact ⟨rfl, hq, hlt⟩
  | some src =>
    cases hc : truthyString characterId with
    | none => exact ⟨rfl, hq, hlt⟩
    | some cid =>
      rw [hs, hc] at hquiet
      simp only [Option.getD_some] at hquiet
      have hkeyeq : compositeKey cfg (some cid) src = compositeKey cfg (some cid) src := rfl
      simp only
      cases hcache : mapGet s.compositeCache (compositeKey cfg (some cid) src) with
      | some cached =>
        simp only
        refine ⟨?_, ?_, ?_⟩
        · rw [publish_uiBy _ _ _ _ _ hne]
          rfl
        · unfold Quiet
          rw [(publish_frame _ _ _ _).2.2.1]
          exact hquiet none
        · rw [(publish_frame _ _ _ _).2.2.1]
          simp only [List.length_append, List.length_singleton]
          exact Nat.lt_succ_of_lt hlt
      | none =>
        cases hin : mapGet s.compositeInflight (compositeKey cfg (some cid) src) with
        | some inflight =>
          simp only
          refine ⟨?_, hquiet _, ?_⟩
          · simp [uiBy, List.filter_append, List.filter_cons, hne]
          · simp only [List.length_append, List.length_singleton]
            exact Nat.lt_succ_of_lt hlt
        | none =>
          simp only
          refine ⟨?_, hquiet _, ?_⟩
          · simp [uiBy, List.filter_append, List.filter_cons, hne]
          · simp only [List.length_append, List.length_singleton]
            exact Nat.lt_succ_of_lt hlt

theorem cleanup_quiet (s : CompositeState) (caller other : ℕ) (hq : Quiet s other) :
    Quiet (cleanup s caller) other := by
  intro c hcm hid
  simp only [cleanup, List.mem_map] at hcm
  obtain ⟨c0, hc0, rfl⟩ := hcm
  by_cases hcond : c0.id = caller ∧ c0.watching.isSome = true
  · rw [if_pos hcond]
    exact Or.inl rfl
  · rw [if_neg hcond] at hid ⊢
    exact hq c0 hc0 hid

theorem cleanup_makes_quiet (s : CompositeState) (caller : ℕ) : Quiet (cleanup s caller) caller := by
  intro c hcm hid
  simp only [cleanup, List.mem_map] at hcm
  obtain ⟨c0, hc0, rfl⟩ := hcm
  by_cases hcond : c0.id = caller ∧ c0.watching.isSome = true
  · rw [if_pos hcond]
    exact Or.inl rfl
  · rw [if_neg hcond] at hid ⊢
    right
    cases hw : c0.watching with
    | none => rfl
    | some w => exact absurd ⟨hid, by simp [hw]⟩ hcond

theorem step_quiet (cfg : Config) (s : Machine) (e : Event) (caller : ℕ)
    (hlt : caller < s.composite.callers.length) (hq : Quiet s.composite caller) :
    uiBy caller (step cfg s e).composite = uiBy caller s.composite ∧
      Quiet (step cfg s e).composite caller ∧
      caller < (step cfg s e).composite.callers.length := by
  cases e with
  | effect faceSrc characterId compositeSrc =>
    exact effect_quiet cfg s.composite faceSrc characterId compositeSrc caller hlt hq
  | cleanup other =>
    refine ⟨rfl, cleanup_quiet _ _ _ hq, ?_⟩
    simp only [step, cleanup, List.length_map]
    exact hlt
  | compositeSettles job outcome =>
    obtain ⟨h1, h2⟩ := compositeSettles_quiet s.composite job outcome caller hq
    refine ⟨h1, ?_, ?_⟩
    · unfold Quiet
      simp only [step]
      rw [h2]
      exact hq
    · simp only [step]
      rw [h2]
      exact hlt
  | createFaceCutout img faceSrc characterId => exact ⟨rfl, hq, hlt⟩
  | faceCutoutSettles job env => exact ⟨rfl, hq, hlt⟩
  | getAvatarDataUrl sourceDataUrl => exact ⟨rfl, hq, hlt⟩
  | avatarSettles job outcome => exact ⟨rfl, hq, hlt⟩

/-- C6. Once the cleanup of an effect run has been called, no later event, in
any interleaving, calls setComposite, setCompositeSrc or setLoadingComposite on
behalf of that run: the setter calls made by the run are the ones it had made
before its cleanup. -/
theorem no_setter_call_after_cleanup (cfg : Config) (before after : List Event) (caller : ℕ)
    (h : caller < (run cfg before).composite.callers.length) :
    uiBy caller (run cfg (before ++ Event.cleanup caller :: after)).composite =
      uiBy caller (run cfg before).composite := by
  rw [run_append, List.foldl_cons]
  have hstart : uiBy caller (step cfg (run cfg before) (Event.cleanup caller)).composite =
        uiBy caller (run cfg before).composite ∧
      Quiet (step cfg (run cfg before) (Event.cleanup caller)).composite caller ∧
      caller < (step cfg (run cfg before) (Event.cleanup caller)).composite.callers.length := by
    refine ⟨rfl, cleanup_makes_quiet _ _, ?_⟩
    simp only [step, cleanup, List.length_map]
    exact h
  exact (foldl_preserves
    (fun s : Machine =>
      uiBy caller s.composite = uiBy caller (run cfg before).composite ∧
        Quiet s.composite caller ∧ caller < s.composite.callers.length)
    (step cfg) after _ hstart
    (by
      intro acc e _ hacc
      obtain ⟨a1, a2, a3⟩ := hacc
      obtain ⟨s1, s2, s3⟩ := step_quiet cfg acc e caller a3 a2
      exact ⟨s1.trans a1, s2, s3⟩)).1

/-- The amended C6 on a run whose job resolves after its cleanup: the two calls
it made when it started the job are all it ever makes. -/
theorem no_setter_call_after_cleanup_witness :
    0 < (run sampleConfig [sampleRequest]).composite.callers.length ∧
      uiBy 0 (run sampleConfig ([sampleRequest] ++
          Event.cleanup 0 :: [Event.compositeSettles 0 (.composed sampleComposite)])).composite =
        [(0, .setCompositeSrc ""), (0, .setLoadingComposite true)] :=
  ⟨by decide,
    (no_setter_call_after_cleanup sampleConfig [sampleRequest]
      [Event.compositeSettles 0 (.composed sampleComposite)] 0 (by decide)).trans (by decide)⟩

theorem foldl_after {α β : Type} (R Q : β → Prop) (f : β → α → β) (l : List α) (a : α)
    (ha : a ∈ l) (init : β) (hR0 : R init)
    (hR : ∀ acc x, x ∈ l → R acc → R (f acc x))
    (hQa : ∀ acc, R acc → Q (f acc a))
    (hQ : ∀ acc x, x ∈ l → R acc → Q acc → Q (f acc x)) : Q (l.foldl f init) := by
  induction l generalizing init with
  | nil => cases ha
  | cons x rest ih =>
    rw [List.foldl_cons]
    rcases List.mem_cons.mp ha with rfl | hmem
    · exact (foldl_preserves (fun acc => R acc ∧ Q acc) f rest (f init a)
        ⟨hR _ _ (List.mem_cons_self _ _) hR0, hQa _ hR0⟩
        (fun acc y hy hacc =>
          ⟨hR acc y (List.mem_cons_of_mem _ hy) hacc.1,
            hQ acc y (List.mem_cons_of_mem _ hy) hacc.1 hacc.2⟩)).2
    · exact ih hmem _ (hR _ _ (List.mem_cons_self _ _) hR0)
        (fun acc y hy => hR acc y (List.mem_cons_of_mem _ hy))
        (fun acc y hy => hQ acc y (List.mem_cons_of_mem _ hy))

theorem mapGet_delete_none {α : Type} (m : JsMap α) (k k1 : String) (h : mapGet m k1 = none) :
    mapGet (mapDelete m k) k1 = none := by
  by_cases e : k1 = k
  · rw [e]; exact mapGet_delete_self m k
  · rw [mapGet_delete_ne m e]; exact h

theorem runHandler_starter_composed (s : CompositeState) (c : Caller) (out : String)
    (ha : c.active = true) (ho : out ≠ "") :
    mapGet (runHandler s c .starter (.composed out)).compositeCache c.key = some out := by
  simp only [runHandler, ha, ho, Bool.not_true, decide_False, Bool.or_self, Bool.false_eq_true,
    if_false]
  rw [(publish_frame _ _ _ _).2.2.2.2]
  exact mapGet_set_self _ _ _

theorem runHandler_composed_cache (s : CompositeState) (c : Caller) (role : Role) (out : String) :
    (runHandler s c role (.composed out)).compositeCache = s.compositeCache ∨
      (role = .starter ∧
        (runHandler s c role (.composed out)).compositeCache =
          mapSet s.compositeCache c.key out) := by
  cases role <;> simp only [runHandler]
  · by_cases ha : c.active = true
    · by_cases ho : out = ""
      · left; simp [ha, ho]
      · right
        simp only [ha, ho, Bool.not_true, decide_False, Bool.or_self, Bool.false_eq_true,
          if_false]
        exact ⟨trivial, (publish_frame _ _ _ _).2.2.2.2⟩
    · left; simp [ha]
  · by_cases ha : c.active = true
    · by_cases ho : out = "" <;> simp [ha, ho]
    · simp [ha]

/-! ## What a settled composite job leaves in the maps -/

/-- C5 fails on a run that starts a job, is cleaned up, and whose job then
composes an image: the image is not stored in `compositeCache`, the in-flight
entry is removed, and the next request with the same key starts a second job. -/
theorem detached_result_is_not_cached :
    (run sampleConfig
        [sampleRequest, .cleanup 0, .compositeSettles 0 (.composed sampleComposite)]
      ).composite.compositeCache = [] ∧
      (run sampleConfig
        [sampleRequest, .cleanup 0, .compositeSettles 0 (.composed sampleComposite)]
      ).composite.compositeInflight = [] ∧
      (run sampleConfig
        [sampleRequest, .cleanup 0, .compositeSettles 0 (.composed sampleComposite)]
      ).composite.started = 1 ∧
      (run sampleConfig
        [sampleRequest, .cleanup 0, .compositeSettles 0 (.composed sampleComposite),
          sampleRequest]).composite.started = 2 ∧
      (run sampleConfig
        [sampleRequest, .compositeSettles 0 (.composed sampleComposite)]
      ).composite.compositeCache = [("migu:ai:photo-1", sampleComposite)] := by
  decide

theorem effect_starts (cfg : Config) (s : CompositeState) (src cid compositeSrc : String)
    (hsrc : src ≠ "") (hcid : cid ≠ "")
    (hcache : mapGet s.compositeCache (compositeKey cfg (some cid) src) = none)
    (hin : mapGet s.compositeInflight (compositeKey cfg (some cid) src) = none) :
    (effect cfg s (some src) (some cid) compositeSrc).started = s.started + 1 := by
  simp [effect, truthyString, hsrc, hcid, hcache, hin]

/-- C5, amended. A composite computation whose caller detached before it
resolved still runs to completion: the job leaves the running jobs and its
in-flight entry is removed. Its image is stored in the composite cache only
when the run that started it is still attached; when that run has detached the
cache is left unchanged, without an entry for the key, so a later request with
the same key starts a new composite job. -/
theorem detached_starter_leaves_cache (cfg : Config) (events : List Event) (j : CompositeJob)
    (c : Caller) (out : String)
    (hj : j ∈ (run cfg events).composite.running)
    (hc : c ∈ (run cfg events).composite.callers)
    (hwatch : c.watching = some (j.id, .starter)) :
    (compositeSettles (run cfg events).composite j.id (.composed out)).running =
        (run cfg events).composite.running.filter (fun r => decide (r.id ≠ j.id)) ∧
      mapGet (compositeSettles (run cfg events).composite j.id (.composed out)).compositeInflight
        j.key = none ∧
      ((∀ c1 ∈ (run cfg events).composite.callers, c1.watching = some (j.id, .starter) →
          c1.active = false) →
        (compositeSettles (run cfg events).composite j.id (.composed out)).compositeCache =
            (run cfg events).composite.compositeCache ∧
          mapGet (compositeSettles (run cfg events).composite j.id (.composed out)).compositeCache
            j.key = none ∧
          ∀ src cid compositeSrc : String, src ≠ "" → cid ≠ "" →
            compositeKey cfg (some cid) src = j.key →
            (effect cfg (compositeSettles (run cfg events).composite j.id (.composed out))
                (some src) (some cid) compositeSrc).started =
              (compositeSettles (run cfg events).composite j.id (.composed out)).started + 1) ∧
      (c.active = true → out ≠ "" →
        mapGet (compositeSettles (run cfg events).composite j.id (.composed out)).compositeCache
          j.key = some out) := by
  obtain ⟨⟨-, -, cr, cc, cw, -⟩, -, -⟩ := run_inv cfg events
  generalize run cfg events = m at *
  have hany : (m.composite.running.any fun r => decide (r.id = j.id)) = true := by
    rw [List.any_eq_true]
    exact ⟨j, hj, by simp⟩
  have hkey : ∀ c1 ∈ m.composite.callers, c1.watching = some (j.id, .starter) → c1.key = j.key :=
    fun c1 hc1 hw1 => ((cw c1 hc1 j.id hw1).2 j hj rfl).symm
  have hsettle : compositeSettles m.composite j.id (.composed out) =
      m.composite.callers.foldl (notify j.id (.composed out))
        { m.composite with
          running := m.composite.running.filter fun r => decide (r.id ≠ j.id) } := by
    unfold compositeSettles
    rw [if_pos hany]
  rw [hsettle]
  have hframe := foldl_preserves
    (fun acc : CompositeState =>
      acc.running = m.composite.running.filter (fun r => decide (r.id ≠ j.id)) ∧
        acc.started = m.composite.started)
    (notify j.id (.composed out)) m.composite.callers
    { m.composite with running := m.composite.running.filter fun r => decide (r.id ≠ j.id) }
    ⟨rfl, rfl⟩
    (by
      intro acc c1 _ hacc
      unfold notify
      cases hw1 : c1.watching with
      | none => exact hacc
      | some w =>
        obtain ⟨watched, role⟩ := w
        simp only
        by_cases hwj : watched = j.id
        · rw [if_pos hwj]
          obtain ⟨f1, f2, -⟩ := runHandler_frame acc c1 role (.composed out)
          exact ⟨f1.trans hacc.1, f2.trans hacc.2⟩
        · rw [if_neg hwj]
          exact hacc)
  have hinflight := foldl_after (fun _ : CompositeState => True)
    (fun acc : CompositeState => mapGet acc.compositeInflight j.key = none)
    (notify j.id (.composed out)) m.composite.callers c hc
    { m.composite with running := m.composite.running.filter fun r => decide (r.id ≠ j.id) }
    trivial (fun _ _ _ _ => trivial)
    (by
      intro acc _
      unfold notify
      rw [hwatch]
      simp only [if_true]
      rw [(runHandler_frame acc c .starter (.composed out)).2.2.2.1]
      simp only
      rw [hkey c hc hwatch]
      exact mapGet_delete_self _ _)
    (by
      intro acc c1 _ _ hacc
      unfold notify
      cases hw1 : c1.watching with
      | none => exact hacc
      | some w =>
        obtain ⟨watched, role⟩ := w
        simp only
        by_cases hwj : watched = j.id
        · rw [if_pos hwj, (runHandler_frame acc c1 role (.composed out)).2.2.2.1]
          cases role with
          | starter => exact mapGet_delete_none _ _ _ hacc
          | joiner => exact hacc
        · rw [if_neg hwj]
          exact hacc)
  refine ⟨hframe.1, hinflight, ?_, ?_⟩
  · intro hall
    have hcache := foldl_preserves
      (fun acc : CompositeState => acc.compositeCache = m.composite.compositeCache)
      (notify j.id (.composed out)) m.composite.callers
      { m.composite with running := m.composite.running.filter fun r => decide (r.id ≠ j.id) }
      rfl
      (by
        intro acc c1 hc1 hacc
        unfold notify
        cases hw1 : c1.watching with
        | none => exact hacc
        | some w =>
          obtain ⟨watched, role⟩ := w
          simp only
          by_cases hwj : watched = j.id
          · rw [if_pos hwj]
            cases role with
            | starter =>
              rw [(runHandler_inactive acc c1 .starter (.composed out)
                (hall c1 hc1 (by rw [hw1, hwj]))).2]
              exact hacc
            | joiner =>
              have := (runHandler_frame acc c1 .joiner (.composed out)).2.2.2.2
              simp only at this
              rw [this]
              exact hacc
          · rw [if_neg hwj]
            exact hacc)
    have hnone : mapGet (m.composite.callers.foldl (notify j.id (.composed out))
        { m.composite with
          running := m.composite.running.filter fun r => decide (r.id ≠ j.id) }).compositeCache
        j.key = none := by
      rw [hcache]
      exact cc j hj
    refine ⟨hcache, hnone, ?_⟩
    intro src cid compositeSrc hsrc hcid hk
    exact effect_starts cfg _ src cid compositeSrc hsrc hcid (by rw [hk]; exact hnone)
      (by rw [hk]; exact hinflight)
  · intro hactive hout
    exact foldl_after (fun _ : CompositeState => True)
      (fun acc : CompositeState => mapGet acc.compositeCache j.key = some out)
      (notify j.id (.composed out)) m.composite.callers c hc
      { m.composite with running := m.composite.running.filter fun r => decide (r.id ≠ j.id) }
      trivial (fun _ _ _ _ => trivial)
      (by
        intro acc _
        unfold notify
        rw [hwatch]
        simp only [if_true]
        rw [← hkey c hc hwatch]
        exact runHandler_starter_composed acc c out hactive hout)
      (by
        intro acc c1 hc1 _ hacc
        unfold notify
        cases hw1 : c1.watching with
        | none => exact hacc
        | some w =>
          obtain ⟨watched, role⟩ := w
          simp only
          by_cases hwj : watched = j.id
          · rw [if_pos hwj]
            rcases runHandler_composed_cache acc c1 role out with h1 | ⟨hrole, h1⟩
            · rw [h1]; exact hacc
            · rw [h1, ← hkey c1 hc1 (by rw [hw1, hwj, hrole])]
              exact mapGet_set_self _ _ _
          · rw [if_neg hwj]
            exact hacc)

/-- The amended C5 on the run of `sampleRequest` after its cleanup. -/
theorem detached_starter_leaves_cache_witness :
    sampleJob ∈ (run sampleConfig [sampleRequest, .cleanup 0]).composite.running ∧
      detachedCaller ∈ (run sampleConfig [sampleRequest, .cleanup 0]).composite.callers ∧
      (compositeSettles (run sampleConfig [sampleRequest, .cleanup 0]).composite sampleJob.id
        (.composed sampleComposite)).compositeCache =
        (run sampleConfig [sampleRequest, .cleanup 0]).composite.compositeCache :=
  ⟨by decide, by decide,
    ((detached_starter_leaves_cache sampleConfig [sampleRequest, .cleanup 0] sampleJob
      detachedCaller sampleComposite (by decide) (by decide) rfl).2.2.1 (by decide)).1⟩

set_option maxRecDepth 100000 in
/-- C4 at a cutout job that throws (a mesh list of 200 points): after the
failure `compositeInflight` is cleared, but `faceCutoutInflight` still maps the
key to the rejected job and `await job` never reached the `delete`; the next
call of `createFaceCutout` for the key is handed the rejected job instead of
starting a fresh one. -/
theorem rejected_cutout_job_stays_in_flight :
    (run sampleConfig rejectingRun).cutout.rejected = [0] ∧
      (run sampleConfig rejectingRun).cutout.running = [] ∧
      (run sampleConfig rejectingRun).composite.compositeInflight = [] ∧
      (run sampleConfig rejectingRun).composite.compositeCache = [] ∧
      mapGet (run sampleConfig rejectingRun).cutout.faceCutoutInflight "migu:photo-1" = some 0 ∧
      createFaceCutout (run sampleConfig rejectingRun).cutout samplePhoto (some "photo-1")
          (some "migu") =
        ((run sampleConfig rejectingRun).cutout, .joined 0) := by
  refine ⟨?_, ?_, ?_, ?_, ?_, ?_⟩ <;> with_unfolding_all decide

theorem eq_of_id_eq {α : Type} (l : List α) (id : α → ℕ)
    (hd : l.Pairwise fun a b => id a ≠ id b) {a b : α} (ha : a ∈ l) (hb : b ∈ l)
    (h : id a = id b) : a = b := by
  induction l with
  | nil => cases ha
  | cons x rest ih =>
    rw [List.pairwise_cons] at hd
    rcases List.mem_cons.mp ha with rfl | ha1 <;> rcases List.mem_cons.mp hb with rfl | hb1
    · rfl
    · exact absurd h (hd.1 b hb1)
    · exact absurd h.symm (hd.1 a ha1)
    · exact ih hd.2 ha1 hb1

/-- The sibling path does clear its map: when an avatar job resolves with
nothing, `avatarInflight` has no entry for its key and `avatarCache` is not
written. -/
theorem avatarSettles_failure_clears (cfg : Config) (events : List Event) (j : AvatarJob)
    (outcome : AvatarOutcome) (hj : j ∈ (run cfg events).avatar.running)
    (hfail : avatarJobResult outcome = none) :
    mapGet (avatarSettles (run cfg events).avatar j.id outcome).avatarInflight j.key = none ∧
      mapGet (avatarSettles (run cfg events).avatar j.id outcome).avatarCache j.key = none := by
  obtain ⟨-, -, -, ad, -, ac⟩ := run_inv cfg events
  generalize run cfg events = m at *
  unfold avatarSettles
  cases hfind : m.avatar.running.find? (fun r => decide (r.id = j.id)) with
  | none =>
    have := List.find?_eq_none.mp hfind j hj
    simp at this
  | some j1 =>
    have hj1 : j1 ∈ m.avatar.running := List.mem_of_find?_eq_some hfind
    have hid : j1.id = j.id := by simpa using List.find?_some hfind
    have hkey : j1 = j := eq_of_id_eq _ (fun r => r.id) ad hj1 hj hid
    subst hkey
    simp only [hfail]
    exact ⟨mapGet_delete_self _ _, ac j1 hj⟩

/-! ## Crop from a face box -/

/-- C11 fails for a face box that fills a 100 × 100 image: the crop has side
105 and starts at (0, 0), so it reaches beyond the right and bottom edges. -/
theorem crop_can_exceed_image :
    getCropFromBox samplePhoto (some ⟨0, 0, 100, 100⟩) = { sx := 0, sy := 0, size := 105 } ∧
      ¬ ∀ (img : Canvas) (box : Bounds), 0 < box.width → 0 < box.height →
        0 ≤ (getCropFromBox img (some box)).sx ∧
          (getCropFromBox img (some box)).sx + (getCropFromBox img (some box)).size ≤ img.width ∧
          0 ≤ (getCropFromBox img (some box)).sy ∧
          (getCropFromBox img (some box)).sy + (getCropFromBox img (some box)).size ≤
            img.height := by
  have hc : getCropFromBox samplePhoto (some ⟨0, 0, 100, 100⟩) =
      { sx := 0, sy := 0, size := 105 } := by
    with_unfolding_all decide
  refine ⟨hc, ?_⟩
  intro h
  have h1 := (h samplePhoto ⟨0, 0, 100, 100⟩ (by norm_num) (by norm_num)).2.1
  rw [hc] at h1
  norm_num [samplePhoto] at h1

/-- C11, amended. For every image of width W and height H and every detected
face box with positive width and height, getCropFromBox returns a square region
of side 1.05 × max(box.width, box.height), centered on (box.x + box.width/2,
box.y + 0.54 × box.height) before clamping, whose origin is clamped into the
image: 0 ≤ sx and 0 ≤ sy, with sx + size ≤ W whenever size ≤ W and sy + size ≤
H whenever size ≤ H; the region keeps its center whenever the centered square
lies within the image. -/
theorem crop_from_box_bounds (img : Canvas) (box : Bounds) (hw : 0 < box.width)
    (hh : 0 < box.height) :
    (getCropFromBox img (some box)).size = 105 / 100 * max box.width box.height ∧
      0 < (getCropFromBox img (some box)).size ∧
      0 ≤ (getCropFromBox img (some box)).sx ∧
      0 ≤ (getCropFromBox img (some box)).sy ∧
      ((getCropFromBox img (some box)).size ≤ img.width →
        (getCropFromBox img (some box)).sx + (getCropFromBox img (some box)).size ≤ img.width) ∧
      ((getCropFromBox img (some box)).size ≤ img.height →
        (getCropFromBox img (some box)).sy + (getCropFromBox img (some box)).size ≤
          img.height) ∧
      (0 ≤ box.x + box.width / 2 - (getCropFromBox img (some box)).size / 2 →
        box.x + box.width / 2 + (getCropFromBox img (some box)).size / 2 ≤ img.width →
        (getCropFromBox img (some box)).sx + (getCropFromBox img (some box)).size / 2 =
          box.x + box.width / 2) ∧
      (0 ≤ box.y + box.height * (54 / 100) - (getCropFromBox img (some box)).size / 2 →
        box.y + box.height * (54 / 100) + (getCropFromBox img (some box)).size / 2 ≤
          img.height →
        (getCropFromBox img (some box)).sy + (getCropFromBox img (some box)).size / 2 =
          box.y + box.height * (54 / 100)) := by
  have hpos : 0 < max box.width box.height := lt_of_lt_of_le hw (le_max_left _ _)
  simp only [getCropFromBox]
  refine ⟨by ring, by positivity, le_max_left _ _, le_max_left _ _, ?_, ?_, ?_, ?_⟩
  · intro hfit
    have h1 : min ((img.width : ℚ) - max box.width box.height * (105 / 100))
        (box.x + box.width / 2 - max box.width box.height * (105 / 100) / 2) ≤
        (img.width : ℚ) - max box.width box.height * (105 / 100) := min_le_left _ _
    have h2 : (0 : ℚ) ≤ (img.width : ℚ) - max box.width box.height * (105 / 100) := by linarith
    have h3 := max_le h2 h1
    linarith
  · intro hfit
    have h1 : min ((img.height : ℚ) - max box.width box.height * (105 / 100))
        (box.y + box.height * (54 / 100) - max box.width box.height * (105 / 100) / 2) ≤
        (img.height : ℚ) - max box.width box.height * (105 / 100) := min_le_left _ _
    have h2 : (0 : ℚ) ≤ (img.height : ℚ) - max box.width box.height * (105 / 100) := by linarith
    have h3 := max_le h2 h1
    linarith
  · intro hlo hhi
    rw [min_eq_right (by linarith), max_eq_right hlo]
    ring
  · intro hlo hhi
    rw [min_eq_right (by linarith), max_eq_right hlo]
    ring

/-- The amended C11 at a 40 × 40 box in the middle of a 100 × 100 image. -/
theorem crop_from_box_bounds_witness :
    (0 : ℚ) < 40 ∧ (getCropFromBox samplePhoto (some ⟨30, 30, 40, 40⟩)).size = 105 / 100 * max 40 40 :=
  ⟨by norm_num,
    (crop_from_box_bounds samplePhoto ⟨30, 30, 40, 40⟩ (by norm_num) (by norm_num)).1⟩

/-! ## Downscaling -/

/-- C12 fails for a bound that is not an integer: a 3 × 3 image with maxSize 1.5
is scaled by 0.5 and `Math.round(1.5)` is 2, above the bound. -/
theorem downscale_can_exceed_fractional_bound :
    (downscaleImage tinyPhoto (3 / 2)).width = 2 ∧
      ¬ ∀ (img : Canvas) (maxSize : ℚ), 1 ≤ img.width → 1 ≤ img.height → 1 ≤ maxSize →
        ((downscaleImage img maxSize).width : ℚ) ≤ maxSize := by
  have hc : (downscaleImage tinyPhoto (3 / 2)).width = 2 := by with_unfolding_all decide
  refine ⟨hc, ?_⟩
  intro h
  have h1 := h tinyPhoto (3 / 2) (by decide) (by decide) (by norm_num)
  rw [hc] at h1
  norm_num at h1

theorem jsRound_mono {a b : ℚ} (h : a ≤ b) : jsRound a ≤ jsRound b := by
  unfold jsRound
  exact Int.floor_le_floor (by linarith)

theorem jsRound_natCast (n : ℕ) : jsRound (n : ℚ) = n := by
  unfold jsRound
  rw [Int.floor_eq_iff]
  constructor
  · push_cast; linarith
  · push_cast; linarith

theorem canvasDim_max_one (z : ℤ) : canvasDim (max 1 (z : ℚ)) = (max 1 z).toNat := by
  have h : max (1 : ℚ) (z : ℚ) = ((max 1 z : ℤ) : ℚ) := by
    push_cast
    rfl
  rw [h, canvasDim_intCast]

/-- One dimension of the downscaled canvas. -/
theorem scaled_dim_bounds (w : ℕ) (scale : ℚ) (n : ℤ) (hw : 1 ≤ w) (hs1 : scale ≤ 1)
    (hn : jsRound (w * scale) ≤ n) (h1n : 1 ≤ n) :
    1 ≤ canvasDim (max 1 (jsRound ((w : ℚ) * scale))) ∧
      canvasDim (max 1 (jsRound ((w : ℚ) * scale))) ≤ w ∧
      (canvasDim (max 1 (jsRound ((w : ℚ) * scale))) : ℤ) ≤ n := by
  rw [canvasDim_max_one]
  have hpos : (1 : ℤ) ≤ max 1 (jsRound ((w : ℚ) * scale)) := le_max_left _ _
  have hcast : ((max 1 (jsRound ((w : ℚ) * scale))).toNat : ℤ) =
      max 1 (jsRound ((w : ℚ) * scale)) := Int.toNat_of_nonneg (by linarith)
  have hwq : (0 : ℚ) ≤ (w : ℚ) := Nat.cast_nonneg w
  have hle : jsRound ((w : ℚ) * scale) ≤ (w : ℤ) := by
    have h1 : (w : ℚ) * scale ≤ (w : ℚ) := by nlinarith
    have h2 := jsRound_mono h1
    rw [jsRound_natCast] at h2
    exact h2
  have hw1 : (1 : ℤ) ≤ (w : ℤ) := by exact_mod_cast hw
  refine ⟨?_, ?_, ?_⟩
  · have : (1 : ℤ) ≤ ((max 1 (jsRound ((w : ℚ) * scale))).toNat : ℤ) := by rw [hcast]; exact hpos
    exact_mod_cast this
  · have : ((max 1 (jsRound ((w : ℚ) * scale))).toNat : ℤ) ≤ (w : ℤ) := by
      rw [hcast]; exact max_le hw1 hle
    exact_mod_cast this
  · rw [hcast]; exact max_le h1n hn

/-- C12, amended. For every image with positive integer width and height and
every bound maxSize ≥ 1, downscaleImage returns a raster whose width and height
are both at least 1, both at most maxSize rounded to the nearest integer (so at
most maxSize itself whenever maxSize is an integer), and neither larger than the
corresponding input dimension; in particular the working image used for
detection has longest side at most 512. -/
theorem downscaleImage_bounds (img : Canvas) (maxSize : ℚ) (hw : 1 ≤ img.width)
    (hh : 1 ≤ img.height) (hmax : 1 ≤ maxSize) :
    1 ≤ (downscaleImage img maxSize).width ∧ 1 ≤ (downscaleImage img maxSize).height ∧
      (downscaleImage img maxSize).width ≤ img.width ∧
      (downscaleImage img maxSize).height ≤ img.height ∧
      ((downscaleImage img maxSize).width : ℤ) ≤ jsRound maxSize ∧
      ((downscaleImage img maxSize).height : ℤ) ≤ jsRound maxSize ∧
      (∀ n : ℕ, maxSize = n →
        (downscaleImage img maxSize).width ≤ n ∧ (downscaleImage img maxSize).height ≤ n) ∧
      ((downscaleImage img 512).width ≤ 512 ∧ (downscaleImage img 512).height ≤ 512) := by
  have key : ∀ m : ℚ, 1 ≤ m →
      (1 ≤ (downscaleImage img m).width ∧ (downscaleImage img m).width ≤ img.width ∧
          ((downscaleImage img m).width : ℤ) ≤ jsRound m) ∧
        (1 ≤ (downscaleImage img m).height ∧ (downscaleImage img m).height ≤ img.height ∧
          ((downscaleImage img m).height : ℤ) ≤ jsRound m) := by
    intro m hm
    have hwq : (1 : ℚ) ≤ (img.width : ℚ) := by exact_mod_cast hw
    have hhq : (1 : ℚ) ≤ (img.height : ℚ) := by exact_mod_cast hh
    have hdim : (0 : ℚ) < max (img.width : ℚ) (img.height : ℚ) :=
      lt_of_lt_of_le (by linarith) (le_max_left _ _)
    have hne : ¬ max (img.width : ℚ) (img.height : ℚ) = 0 := ne_of_gt hdim
    have hs1 : min 1 (m / max (img.width : ℚ) (img.height : ℚ)) ≤ 1 := min_le_left _ _
    have hs0 : 0 ≤ min 1 (m / max (img.width : ℚ) (img.height : ℚ)) :=
      le_min (by norm_num) (div_nonneg (by linarith) (le_of_lt hdim))
    have hround1 : (1 : ℤ) ≤ jsRound m := by
      have := jsRound_mono hm
      have h1 : jsRound (1 : ℚ) = 1 := by
        have := jsRound_natCast 1
        simpa using this
      rw [h1] at this
      exact this
    have hbound : ∀ d : ℚ, 0 ≤ d → d ≤ max (img.width : ℚ) (img.height : ℚ) →
        d * min 1 (m / max (img.width : ℚ) (img.height : ℚ)) ≤ m := by
      intro d hd0 hd
      have h1 : d * min 1 (m / max (img.width : ℚ) (img.height : ℚ)) ≤
          d * (m / max (img.width : ℚ) (img.height : ℚ)) :=
        mul_le_mul_of_nonneg_left (min_le_right _ _) hd0
      have h2 : d * (m / max (img.width : ℚ) (img.height : ℚ)) ≤ m := by
        rw [mul_div_assoc', div_le_iff₀ hdim]
        nlinarith
      linarith
    simp only [downscaleImage, hne, if_false]
    exact ⟨scaled_dim_bounds _ _ _ hw hs1
        (jsRound_mono (hbound _ (by linarith) (le_max_left _ _))) hround1,
      scaled_dim_bounds _ _ _ hh hs1
        (jsRound_mono (hbound _ (by linarith) (le_max_right _ _))) hround1⟩
  obtain ⟨⟨a1, a2, a3⟩, ⟨b1, b2, b3⟩⟩ := key maxSize hmax
  obtain ⟨⟨-, -, c3⟩, ⟨-, -, d3⟩⟩ := key 512 (by norm_num)
  have h512 : jsRound (512 : ℚ) = 512 := by
    have := jsRound_natCast 512
    simpa using this
  rw [h512] at c3 d3
  refine ⟨a1, b1, a2, b2, a3, b3, ?_, ?_⟩
  · intro n hn
    subst hn
    rw [jsRound_natCast] at a3 b3
    exact ⟨by exact_mod_cast a3, by exact_mod_cast b3⟩
  · exact ⟨by exact_mod_cast c3, by exact_mod_cast d3⟩

/-- The amended C12 at a 300 × 400 photo and the bound 512. -/
theorem downscaleImage_bounds_witness :
    1 ≤ portraitPhoto.width ∧ (downscaleImage portraitPhoto 512).height ≤ portraitPhoto.height :=
  ⟨by decide,
    (downscaleImage_bounds portraitPhoto 512 (by decide) (by decide) (by norm_num)).2.2.2.1⟩

/-! ## Minimum, maximum and bounding box of a point list -/

theorem foldl_min_le (xs : List ℚ) (x : ℚ) :
    xs.foldl min x ≤ x ∧ ∀ y ∈ xs, xs.foldl min x ≤ y := by
  induction xs generalizing x with
  | nil => exact ⟨le_refl _, fun y hy => by cases hy⟩
  | cons a rest ih =>
    rw [List.foldl_cons]
    obtain ⟨h1, h2⟩ := ih (min x a)
    refine ⟨le_trans h1 (min_le_left _ _), ?_⟩
    intro y hy
    rcases List.mem_cons.mp hy with rfl | hy
    · exact le_trans h1 (min_le_right _ _)
    · exact h2 y hy

theorem foldl_min_mem (xs : List ℚ) (x : ℚ) : xs.foldl min x ∈ x :: xs := by
  induction xs generalizing x with
  | nil => simp
  | cons a rest ih =>
    rw [List.foldl_cons]
    have h := ih (min x a)
    rcases List.mem_cons.mp h with h | h
    · rcases min_choice x a with hm | hm
      · rw [h, hm]; exact List.mem_cons_self _ _
      · rw [h, hm]; exact List.mem_cons_of_mem _ (List.mem_cons_self _ _)
    · exact List.mem_cons_of_mem _ (List.mem_cons_of_mem _ h)

theorem foldl_max_le (xs : List ℚ) (x : ℚ) :
    x ≤ xs.foldl max x ∧ ∀ y ∈ xs, y ≤ xs.foldl max x := by
  induction xs generalizing x with
  | nil => exact ⟨le_refl _, fun y hy => by cases hy⟩
  | cons a rest ih =>
    rw [List.foldl_cons]
    obtain ⟨h1, h2⟩ := ih (max x a)
    refine ⟨le_trans (le_max_left _ _) h1, ?_⟩
    intro y hy
    rcases List.mem_cons.mp hy with rfl | hy
    · exact le_trans (le_max_right _ _) h1
    · exact h2 y hy

theorem foldl_max_mem (xs : List ℚ) (x : ℚ) : xs.foldl max x ∈ x :: xs := by
  induction xs generalizing x with
  | nil => simp
  | cons a rest ih =>
    rw [List.foldl_cons]
    have h := ih (max x a)
    rcases List.mem_cons.mp h with h | h
    · rcases max_choice x a with hm | hm
      · rw [h, hm]; exact List.mem_cons_self _ _
      · rw [h, hm]; exact List.mem_cons_of_mem _ (List.mem_cons_self _ _)
    · exact List.mem_cons_of_mem _ (List.mem_cons_of_mem _ h)

theorem minOf_le {xs : List ℚ} {y : ℚ} (hy : y ∈ xs) : minOf xs ≤ y := by
  cases xs with
  | nil => cases hy
  | cons x rest =>
    rcases List.mem_cons.mp hy with rfl | hy
    · exact (foldl_min_le rest _).1
    · exact (foldl_min_le rest x).2 y hy

theorem minOf_mem {xs : List ℚ} (h : xs ≠ []) : minOf xs ∈ xs := by
  cases xs with
  | nil => exact absurd rfl h
  | cons x rest => exact foldl_min_mem rest x

theorem le_maxOf {xs : List ℚ} {y : ℚ} (hy : y ∈ xs) : y ≤ maxOf xs := by
  cases xs with
  | nil => cases hy
  | cons x rest =>
    rcases List.mem_cons.mp hy with rfl | hy
    · exact (foldl_max_le rest _).1
    · exact (foldl_max_le rest x).2 y hy

theorem maxOf_mem {xs : List ℚ} (h : xs ≠ []) : maxOf xs ∈ xs := by
  cases xs with
  | nil => exact absurd rfl h
  | cons x rest => exact foldl_max_mem rest x

/-- The bounds computed by the `forEach` loops are the tight bounding box. -/
theorem boundsOf_tight (polygon : List Point) (h : polygon ≠ []) :
    TightBounds polygon (boundsOf polygon) := by
  have hx : (polygon.map fun p => p.x) ≠ [] := by simpa using h
  have hy : (polygon.map fun p => p.y) ≠ [] := by simpa using h
  refine ⟨?_, ?_, ?_, ?_, ?_⟩
  · intro p hp
    have mx : p.x ∈ polygon.map fun p => p.x := List.mem_map.mpr ⟨p, hp, rfl⟩
    have my : p.y ∈ polygon.map fun p => p.y := List.mem_map.mpr ⟨p, hp, rfl⟩
    simp only [boundsOf]
    refine ⟨minOf_le mx, ?_, minOf_le my, ?_⟩
    · have := le_maxOf mx; linarith
    · have := le_maxOf my; linarith
  · obtain ⟨p, hp, hpx⟩ := List.mem_map.mp (minOf_mem hx)
    exact ⟨p, hp, hpx⟩
  · obtain ⟨p, hp, hpx⟩ := List.mem_map.mp (maxOf_mem hx)
    refine ⟨p, hp, ?_⟩
    simp only [boundsOf]
    rw [hpx]; ring
  · obtain ⟨p, hp, hpy⟩ := List.mem_map.mp (minOf_mem hy)
    exact ⟨p, hp, hpy⟩
  · obtain ⟨p, hp, hpy⟩ := List.mem_map.mp (maxOf_mem hy)
    refine ⟨p, hp, ?_⟩
    simp only [boundsOf]
    rw [hpy]; ring

/-! ## The mesh polygon builder -/

theorem mapOrThrow_none_of_mem {α β : Type} (f : α → Option β) (l : List α) (x : α)
    (hx : x ∈ l) (hf : f x = none) : mapOrThrow f l = none := by
  induction l with
  | nil => cases hx
  | cons a rest ih =>
    simp only [mapOrThrow]
    rcases List.mem_cons.mp hx with rfl | hx
    · rw [hf]
    · cases f a with
      | none => rfl
      | some y => simp [ih hx]

theorem mapOrThrow_some {α β : Type} (f : α → Option β) (l : List α)
    (h : ∀ x ∈ l, ∃ y, f x = some y) :
    ∃ ys, mapOrThrow f l = some ys ∧ ys.length = l.length := by
  induction l with
  | nil => exact ⟨[], rfl, rfl⟩
  | cons a rest ih =>
    obtain ⟨y, hy⟩ := h a (List.mem_cons_self _ _)
    obtain ⟨ys, hys, hlen⟩ := ih (fun x hx => h x (List.mem_cons_of_mem _ hx))
    exact ⟨y :: ys, by simp [mapOrThrow, hy, hys], by simp [hlen]⟩

theorem mapOrThrow_eq_filterMap {α β : Type} (f : α → Option β) (l : List α) (ys : List β)
    (h : mapOrThrow f l = some ys) : ys = l.filterMap f := by
  induction l generalizing ys with
  | nil =>
    simp only [mapOrThrow, Option.some.injEq] at h
    simp [← h]
  | cons a rest ih =>
    simp only [mapOrThrow] at h
    cases hfa : f a with
    | none => rw [hfa] at h; cases h
    | some y =>
      rw [hfa] at h
      cases hrest : mapOrThrow f rest with
      | none => rw [hrest] at h; cases h
      | some zs =>
        rw [hrest] at h
        simp only [Option.map_some', Option.some.injEq] at h
        rw [← h, List.filterMap_cons, hfa, ← ih zs hrest]

/-- A list shorter than 200 points, or no list, gives `null`. -/
theorem buildFacePolygonFromMesh_null (landmarks : Option (List Point)) (width height : ℚ)
    (h : ∀ lm, landmarks = some lm → lm.length < 200) :
    buildFacePolygonFromMesh landmarks width height = .ok none := by
  cases landmarks with
  | none => rfl
  | some lm => simp [buildFacePolygonFromMesh, h lm rfl]

/-- A list of 200 to 454 points passes the guard and makes the builder throw. -/
theorem buildFacePolygonFromMesh_throws (lm : List Point) (width height : ℚ)
    (h200 : 200 ≤ lm.length) (h454 : lm.length ≤ 454) :
    buildFacePolygonFromMesh (some lm) width height =
      .error "TypeError: Cannot read properties of undefined (reading 'x')" := by
  have hnone : outlinePoint lm width height 454 = none := by
    have : lm[454]? = none := List.getElem?_eq_none (by omega)
    simp [outlinePoint, this]
  have hmem : 454 ∈ FACE_OVAL := by decide
  simp [buildFacePolygonFromMesh, Nat.not_lt.mpr h200,
    mapOrThrow_none_of_mem _ _ 454 hmem hnone]

/-- A mesh landmark list of 200 to 454 points that arrives in time passes the
length guard of `buildFacePolygonFromMesh` and makes the job reject when it
arrives, whatever the sparse-landmark and box detectors do. -/
theorem createFaceCutoutJob_rejects_of_guarded_mesh (img : Canvas)
    (characterId : Option String) (env : Detectors) (t1 : ℕ) (lm : List Point)
    (h1 : withTimeout (detectFaceMeshLandmarks env) 1800 none = .fulfilled t1 (some lm))
    (h200 : 200 ≤ lm.length) (h454 : lm.length ≤ 454) :
    createFaceCutoutJob false img characterId env = .rejected t1 := by
  simp only [createFaceCutoutJob, h1, Promise.andThen, Bool.false_eq_true, if_false,
    buildFacePolygonFromMesh_throws lm _ _ h200 h454, Promise.delay, Nat.add_zero]

/-- A list of at least 455 points gives the 36 outline points, taken in
FACE_OVAL order and pushed outwards, with their tight bounding box. -/
theorem buildFacePolygonFromMesh_complete (lm : List Point) (width height : ℚ)
    (h455 : 455 ≤ lm.length) :
    ∃ polygon,
      polygon = FACE_OVAL.filterMap (outlinePoint lm width height) ∧ polygon.length = 36 ∧
      ∃ polyData,
        buildFacePolygonFromMesh (some lm) width height = .ok (some polyData) ∧
        polyData.polygon =
          polygon.map
            (adjustPoint (boundsOf polygon).x ((boundsOf polygon).x + (boundsOf polygon).width)
              (boundsOf polygon).y
              (max 1 ((boundsOf polygon).y + (boundsOf polygon).height - (boundsOf polygon).y))) ∧
        polyData.polygon.length = 36 ∧ TightBounds polyData.polygon polyData.bounds := by
  have hall : ∀ idx ∈ FACE_OVAL, ∃ p, outlinePoint lm width height idx = some p := by
    intro idx hidx
    have hlt : idx < 455 := by
      have : ∀ i ∈ FACE_OVAL, i < 455 := by decide
      exact this idx hidx
    have hbound : idx < lm.length := by omega
    cases hget : lm[idx]? with
    | none =>
      have := List.getElem?_eq_none_iff.mp hget
      omega
    | some q => exact ⟨{ x := q.x * width, y := q.y * height }, by simp [outlinePoint, hget]⟩
  obtain ⟨polygon, hpoly, hlen⟩ := mapOrThrow_some _ _ hall
  have hlen36 : polygon.length = 36 := by rw [hlen]; rfl
  refine ⟨polygon, mapOrThrow_eq_filterMap _ _ _ hpoly, hlen36, ?_⟩
  have hguard : ¬ lm.length < 200 := by omega
  refine ⟨(⟨polygon.map
        (adjustPoint (boundsOf polygon).x ((boundsOf polygon).x + (boundsOf polygon).width)
          (boundsOf polygon).y
          (max 1 ((boundsOf polygon).y + (boundsOf polygon).height - (boundsOf polygon).y))),
      boundsOf (polygon.map
        (adjustPoint (boundsOf polygon).x ((boundsOf polygon).x + (boundsOf polygon).width)
          (boundsOf polygon).y
          (max 1 ((boundsOf polygon).y + (boundsOf polygon).height - (boundsOf polygon).y))))⟩ :
      PolyData),
    by simp only [buildFacePolygonFromMesh, hguard, if_false, hpoly], rfl, ?_, ?_⟩
  · simp [hlen36]
  · apply boundsOf_tight
    intro hnil
    have := congrArg List.length hnil
    simp [hlen36] at this

/-- A mesh landmark list of at least 455 points that arrives in time wins: the
job resolves when it arrives with the cutout of its polygon, whatever the
sparse-landmark and box detectors do. -/
theorem createFaceCutoutJob_mesh_wins (img : Canvas) (characterId : Option String)
    (env : Detectors) (t1 : ℕ) (lm : List Point)
    (h1 : withTimeout (detectFaceMeshLandmarks env) 1800 none = .fulfilled t1 (some lm))
    (h455 : 455 ≤ lm.length) :
    ∃ polyData,
      buildFacePolygonFromMesh (some lm) (downscaleImage img 512).width
        (downscaleImage img 512).height = .ok (some polyData) ∧
      createFaceCutoutJob false img characterId env =
        .fulfilled t1 (polygonCutout (downscaleImage img 512) polyData characterId) := by
  obtain ⟨_, _, _, polyData, hpd, -⟩ :=
    buildFacePolygonFromMesh_complete lm (downscaleImage img 512).width
      (downscaleImage img 512).height h455
  refine ⟨polyData, hpd, ?_⟩
  simp only [createFaceCutoutJob, h1, Promise.andThen, Bool.false_eq_true, if_false, hpd,
    Promise.delay, Nat.add_zero]

set_option maxRecDepth 100000 in
/-- C16 at a mesh landmark list of 454 points: the list passes the guard
`landmarks.length < 200`, the outline index 454 is beyond its end, and the
builder throws instead of returning a polygon; a list of 199 points gives
`null` and a list of 468 points a polygon of 36 points. -/
theorem buildFacePolygonFromMesh_throws_at_454 :
    buildFacePolygonFromMesh (some incompleteMesh) 512 512 =
        .error "TypeError: Cannot read properties of undefined (reading 'x')" ∧
      buildFacePolygonFromMesh (some (List.replicate 199 ⟨1 / 2, 1 / 2⟩)) 512 512 = .ok none ∧
      ∃ polyData, buildFacePolygonFromMesh (some flatMesh) 512 512 = .ok (some polyData) ∧
        polyData.polygon.length = 36 := by
  refine ⟨buildFacePolygonFromMesh_throws _ _ _ (by simp [incompleteMesh])
      (by simp [incompleteMesh]),
    buildFacePolygonFromMesh_null _ _ _ (by intro lm h; cases h; simp), ?_⟩
  obtain ⟨_, _, _, pd, h1, _, h3, _⟩ :=
    buildFacePolygonFromMesh_complete flatMesh 512 512 (by simp [flatMesh])
  exact ⟨pd, h1, h3⟩

theorem mapOrThrow_length {α β : Type} (f : α → Option β) (l : List α) (ys : List β)
    (h : mapOrThrow f l = some ys) : ys.length = l.length := by
  induction l generalizing ys with
  | nil =>
    simp only [mapOrThrow, Option.some.injEq] at h
    simp [← h]
  | cons a rest ih =>
    simp only [mapOrThrow] at h
    cases hfa : f a with
    | none => rw [hfa] at h; cases h
    | some y =>
      rw [hfa] at h
      cases hrest : mapOrThrow f rest with
      | none => rw [hrest] at h; cases h
      | some zs =>
        rw [hrest] at h
        simp only [Option.map_some', Option.some.injEq] at h
        rw [← h, List.length_cons, List.length_cons, ih zs hrest]

theorem adjustPoint_x (minX maxX minY faceHeight : ℚ) (p : Point) (hfh : 1 ≤ faceHeight) :
    (p.x ≤ (minX + maxX) / 2 → (adjustPoint minX maxX minY faceHeight p).x ≤ p.x) ∧
      ((minX + maxX) / 2 ≤ p.x → p.x ≤ (adjustPoint minX maxX minY faceHeight p).x) := by
  have hden : (0 : ℚ) < max 1 (maxX - minX) := lt_of_lt_of_le (by norm_num) (le_max_left _ _)
  have hf : 0 ≤ faceHeight * (12 / 100) / max 1 (maxX - minX) :=
    div_nonneg (by nlinarith) (le_of_lt hden)
  simp only [adjustPoint]
  constructor
  · intro h
    nlinarith
  · intro h
    nlinarith

theorem adjustPoint_y (minX maxX minY faceHeight : ℚ) (p : Point) (hfh : 1 ≤ faceHeight)
    (hp : 0 ≤ p.y) :
    (p.y ≤ minY + faceHeight * (35 / 100) →
        (adjustPoint minX maxX minY faceHeight p).y ≤ p.y) ∧
      (¬ p.y ≤ minY + faceHeight * (35 / 100) →
        p.y ≤ (adjustPoint minX maxX minY faceHeight p).y) := by
  simp only [adjustPoint]
  constructor
  · intro h
    rw [if_pos h]
    exact max_le hp (by nlinarith)
  · intro h
    rw [if_neg h]
    by_cases h2 : p.y ≥ minY + faceHeight * (75 / 100)
    · rw [if_pos h2]; nlinarith
    · rw [if_neg h2]

/-- C17, amended. For every usable mesh whose outline points have normalized
coordinates in [0,1] and every positive image width and height, no outline
point is moved inward horizontally, top-zone points only move up and the other
points never move up; the bounding box of the returned polygon contains the
bounding box of the unexpanded pixel-space outline on the left, on the right and
at the top, and at the bottom whenever the unexpanded outline is more than 0.35
pixels high. -/
theorem mesh_outline_expands (lm : List Point) (width height : ℚ) (polygon : List Point)
    (polyData : PolyData) (hw : 0 < width) (hh : 0 < height)
    (hunit : ∀ idx ∈ FACE_OVAL, ∀ p, lm[idx]? = some p →
      0 ≤ p.x ∧ p.x ≤ 1 ∧ 0 ≤ p.y ∧ p.y ≤ 1)
    (hpoly : mapOrThrow (outlinePoint lm width height) FACE_OVAL = some polygon)
    (hbuild : buildFacePolygonFromMesh (some lm) width height = .ok (some polyData)) :
    ∃ adjust : Point → Point,
      polyData.polygon = polygon.map adjust ∧
      (∀ p ∈ polygon,
        (p.x ≤ (boundsOf polygon).x + (boundsOf polygon).width / 2 → (adjust p).x ≤ p.x) ∧
          ((boundsOf polygon).x + (boundsOf polygon).width / 2 ≤ p.x → p.x ≤ (adjust p).x) ∧
          (p.y ≤ (boundsOf polygon).y + max 1 (boundsOf polygon).height * (35 / 100) →
            (adjust p).y ≤ p.y) ∧
          (¬ p.y ≤ (boundsOf polygon).y + max 1 (boundsOf polygon).height * (35 / 100) →
            p.y ≤ (adjust p).y)) ∧
      polyData.bounds.x ≤ (boundsOf polygon).x ∧
      (boundsOf polygon).x + (boundsOf polygon).width ≤
        polyData.bounds.x + polyData.bounds.width ∧
      polyData.bounds.y ≤ (boundsOf polygon).y ∧
      (35 / 100 < (boundsOf polygon).height →
        (boundsOf polygon).y + (boundsOf polygon).height ≤
          polyData.bounds.y + polyData.bounds.height) := by
  have hlen : polygon.length = 36 := by
    rw [mapOrThrow_length _ _ _ hpoly]; rfl
  have hne : polygon ≠ [] := by
    intro hnil
    have := congrArg List.length hnil
    simp [hlen] at this
  have hguard : ¬ lm.length < 200 := by
    intro hlt
    simp [buildFacePolygonFromMesh, hlt] at hbuild
  simp only [buildFacePolygonFromMesh, hguard, if_false, hpoly, Except.ok.injEq,
    Option.some.injEq] at hbuild
  subst hbuild
  have hy0 : ∀ p ∈ polygon, 0 ≤ p.y := by
    intro p hp
    rw [mapOrThrow_eq_filterMap _ _ _ hpoly, List.mem_filterMap] at hp
    obtain ⟨idx, hidx, hout⟩ := hp
    unfold outlinePoint at hout
    cases hget : lm[idx]? with
    | none => rw [hget] at hout; cases hout
    | some q =>
      rw [hget] at hout
      simp only [Option.some.injEq] at hout
      rw [← hout]
      exact mul_nonneg (hunit idx hidx q hget).2.2.1 (le_of_lt hh)
  obtain ⟨hin, ⟨p0, hp0, hp0x⟩, ⟨p1, hp1, hp1x⟩, ⟨p2, hp2, hp2y⟩, ⟨p3, hp3, hp3y⟩⟩ :=
    boundsOf_tight polygon hne
  have hwidth : 0 ≤ (boundsOf polygon).width := by
    have := (hin p0 hp0).2.1
    linarith
  have hheight : 0 ≤ (boundsOf polygon).height := by
    have := (hin p2 hp2).2.2.2
    linarith
  have hfh : (1 : ℚ) ≤ max 1 ((boundsOf polygon).y + (boundsOf polygon).height -
      (boundsOf polygon).y) := le_max_left _ _
  have hfheq : max 1 ((boundsOf polygon).y + (boundsOf polygon).height -
      (boundsOf polygon).y) = max 1 (boundsOf polygon).height := by
    congr 1; ring
  have hcenter : ((boundsOf polygon).x + ((boundsOf polygon).x + (boundsOf polygon).width)) / 2 =
      (boundsOf polygon).x + (boundsOf polygon).width / 2 := by ring
  have hpoint : ∀ p ∈ polygon,
      (p.x ≤ (boundsOf polygon).x + (boundsOf polygon).width / 2 →
          (adjustPoint (boundsOf polygon).x ((boundsOf polygon).x + (boundsOf polygon).width)
            (boundsOf polygon).y
            (max 1 ((boundsOf polygon).y + (boundsOf polygon).height - (boundsOf polygon).y))
            p).x ≤ p.x) ∧
        ((boundsOf polygon).x + (boundsOf polygon).width / 2 ≤ p.x →
          p.x ≤ (adjustPoint (boundsOf polygon).x ((boundsOf polygon).x + (boundsOf polygon).width)
            (boundsOf polygon).y
            (max 1 ((boundsOf polygon).y + (boundsOf polygon).height - (boundsOf polygon).y))
            p).x) ∧
        (p.y ≤ (boundsOf polygon).y + max 1 (boundsOf polygon).height * (35 / 100) →
          (adjustPoint (boundsOf polygon).x ((boundsOf polygon).x + (boundsOf polygon).width)
            (boundsOf polygon).y
            (max 1 ((boundsOf polygon).y + (boundsOf polygon).height - (boundsOf polygon).y))
            p).y ≤ p.y) ∧
        (¬ p.y ≤ (boundsOf polygon).y + max 1 (boundsOf polygon).height * (35 / 100) →
          p.y ≤ (adjustPoint (boundsOf polygon).x ((boundsOf polygon).x + (boundsOf polygon).width)
            (boundsOf polygon).y
            (max 1 ((boundsOf polygon).y + (boundsOf polygon).height - (boundsOf polygon).y))
            p).y) := by
    intro p hp
    have hx := adjustPoint_x (boundsOf polygon).x ((boundsOf polygon).x + (boundsOf polygon).width)
      (boundsOf polygon).y
      (max 1 ((boundsOf polygon).y + (boundsOf polygon).height - (boundsOf polygon).y)) p hfh
    have hy := adjustPoint_y (boundsOf polygon).x ((boundsOf polygon).x + (boundsOf polygon).width)
      (boundsOf polygon).y
      (max 1 ((boundsOf polygon).y + (boundsOf polygon).height - (boundsOf polygon).y)) p hfh
      (hy0 p hp)
    rw [hcenter] at hx
    rw [hfheq] at hx hy ⊢
    exact ⟨hx.1, hx.2, hy.1, hy.2⟩
  refine ⟨_, rfl, hpoint, ?_, ?_, ?_, ?_⟩
  all_goals
    have hne2 : polygon.map
        (adjustPoint (boundsOf polygon).x ((boundsOf polygon).x + (boundsOf polygon).width)
          (boundsOf polygon).y
          (max 1 ((boundsOf polygon).y + (boundsOf polygon).height - (boundsOf polygon).y))) ≠
        [] := by
      simpa using hne
    have htight := (boundsOf_tight _ hne2).1
  · have h1 := (htight _ (List.mem_map_of_mem _ hp0)).1
    have h2 := (hpoint p0 hp0).1 (by rw [hp0x]; linarith)
    simp only at h1 ⊢
    linarith
  · have h1 := (htight _ (List.mem_map_of_mem _ hp1)).2.1
    have h2 := (hpoint p1 hp1).2.1 (by rw [hp1x]; linarith)
    simp only at h1 ⊢
    linarith
  · have h1 := (htight _ (List.mem_map_of_mem _ hp2)).2.2.1
    have h2 := (hpoint p2 hp2).2.2.1 (by
      rw [hp2y]
      have : (0 : ℚ) ≤ max 1 (boundsOf polygon).height * (35 / 100) :=
        mul_nonneg (le_trans (by norm_num) (le_max_left _ _)) (by norm_num)
      linarith)
    simp only at h1 ⊢
    linarith
  · intro hhigh
    have h1 := (htight _ (List.mem_map_of_mem _ hp3)).2.2.2
    have h2 := (hpoint p3 hp3).2.2.2 (by
      rw [hp3y]
      intro hcon
      rcases le_total (1 : ℚ) (boundsOf polygon).height with hge | hlt
      · rw [max_eq_right hge] at hcon
        nlinarith
      · rw [max_eq_left hlt] at hcon
        linarith)
    simp only at h1 ⊢
    linarith

set_option maxRecDepth 100000 in
/-- C17 fails for a flat outline: with all 468 landmarks at the centre of a
100 × 100 image the unexpanded outline is the point (50, 50); every point is in
the top zone and is moved up to y = 49.86, so the bounding box of the returned
polygon ends above the bottom of the bounding box of the outline. -/
theorem flat_outline_box_not_contained :
    mapOrThrow (outlinePoint flatMesh 100 100) FACE_OVAL = some (List.replicate 36 ⟨50, 50⟩) ∧
      buildFacePolygonFromMesh (some flatMesh) 100 100 =
        .ok (some
          { polygon := List.replicate 36 ⟨50, 4986 / 100⟩
            bounds := { x := 50, y := 4986 / 100, width := 0, height := 0 } }) ∧
      (boundsOf (List.replicate 36 ⟨50, 50⟩)).y + (boundsOf (List.replicate 36 ⟨50, 50⟩)).height =
        50 ∧
      ¬ ((50 : ℚ) ≤ 4986 / 100 + 0) := by
  refine ⟨by with_unfolding_all rfl, by with_unfolding_all rfl, by with_unfolding_all rfl,
    by norm_num⟩

set_option maxRecDepth 100000 in
/-- The amended C17 on the flat outline: the top of the returned box, 49.86, is
not below the top of the outline, 50. -/
theorem mesh_outline_expands_witness :
    (0 : ℚ) < 100 ∧
      (∀ idx ∈ FACE_OVAL, ∀ p, flatMesh[idx]? = some p →
        0 ≤ p.x ∧ p.x ≤ 1 ∧ 0 ≤ p.y ∧ p.y ≤ 1) ∧
      (4986 / 100 : ℚ) ≤ (boundsOf (List.replicate 36 ⟨50, 50⟩)).y := by
  have hunit : ∀ idx ∈ FACE_OVAL, ∀ p, flatMesh[idx]? = some p →
      0 ≤ p.x ∧ p.x ≤ 1 ∧ 0 ≤ p.y ∧ p.y ≤ 1 := by
    intro idx _ p hp
    simp only [flatMesh, List.getElem?_replicate] at hp
    split at hp
    · simp only [Option.some.injEq] at hp
      rw [← hp]
      norm_num
    · cases hp
  obtain ⟨_, hpoly, _, _, _, htop, _⟩ :=
    mesh_outline_expands flatMesh 100 100 (List.replicate 36 ⟨50, 50⟩)
      { polygon := List.replicate 36 ⟨50, 4986 / 100⟩
        bounds := { x := 50, y := 4986 / 100, width := 0, height := 0 } }
      (by norm_num) (by norm_num) hunit (by with_unfolding_all rfl) (by with_unfolding_all rfl)
  exact ⟨by norm_num, hunit, htop⟩

/-! ## The sparse-landmark polygon builder -/

theorem map_copy (l : List Point) : (l.map fun p => ({ x := p.x, y := p.y } : Point)) = l := by
  induction l with
  | nil => rfl
  | cons a rest ih => simp

set_option maxRecDepth 100000 in
/-- C18 fails for a face near the top edge: with the brow top at y = 10 and the
jaw bottom at y = 110 the forehead would rise by 0.26 × 100 = 26, but the top is
clamped at y = 0 and the brow points are raised by 10 only. -/
theorem brow_raise_is_clamped :
    buildFacePolygon highFace =
        { polygon := [⟨0, 60⟩, ⟨15, 110⟩, ⟨30, 60⟩, ⟨12, 2⟩, ⟨2, 0⟩, ⟨28, 0⟩, ⟨18, 2⟩]
          bounds := { x := 0, y := 0, width := 30, height := 110 } } ∧
      ¬ ∀ landmarks : Landmarks68,
        landmarks.getJawOutline ≠ [] → landmarks.getLeftEyeBrow ≠ [] →
        landmarks.getRightEyeBrow ≠ [] →
        (buildFacePolygon landmarks).polygon =
          landmarks.getJawOutline ++
            (landmarks.getRightEyeBrow.reverse ++ landmarks.getLeftEyeBrow.reverse).map fun p =>
              ({ x := p.x
                 y := p.y - 26 / 100 *
                   (maxOf (landmarks.getJawOutline.map fun q => q.y) -
                     minOf ((landmarks.getRightEyeBrow.reverse ++
                       landmarks.getLeftEyeBrow.reverse).map fun q => q.y)) } : Point) := by
  have hc : buildFacePolygon highFace =
      { polygon := [⟨0, 60⟩, ⟨15, 110⟩, ⟨30, 60⟩, ⟨12, 2⟩, ⟨2, 0⟩, ⟨28, 0⟩, ⟨18, 2⟩]
        bounds := { x := 0, y := 0, width := 30, height := 110 } } := by
    with_unfolding_all rfl
  refine ⟨hc, ?_⟩
  intro h
  have h1 := h highFace (by simp [highFace]) (by simp [highFace]) (by simp [highFace])
  rw [hc] at h1
  have h2 := congrArg (fun l => (l.map fun p => p.y)) h1
  have h3 : (maxOf (highFace.getJawOutline.map fun q => q.y) -
      minOf ((highFace.getRightEyeBrow.reverse ++ highFace.getLeftEyeBrow.reverse).map
        fun q => q.y)) = 100 := by
    with_unfolding_all rfl
  simp only [h3] at h2
  norm_num [highFace] at h2

/-- C18, amended. For every 68-point landmark set with non-empty jaw and brow
point lists, buildFacePolygon returns the jaw outline points in order followed
by the right-brow then left-brow points (each reversed), where every brow point
keeps its x and is raised by the same amount, the distance from the smallest
brow y down from the clamped top `max(0, smallest brow y − 0.26 × max(1,
largest jaw y − smallest brow y))`; that amount is 0.26 × (largest jaw y −
smallest brow y) whenever this difference is at least 1 and the raised top does
not pass y = 0; the returned bounds are the tight bounding box of the polygon. -/
theorem buildFacePolygon_shape (landmarks : Landmarks68) (minBrowY maxJawY : ℚ)
    (hjaw : landmarks.getJawOutline ≠ []) (hleft : landmarks.getLeftEyeBrow ≠ [])
    (hright : landmarks.getRightEyeBrow ≠ [])
    (hmin : minBrowY = minOf ((landmarks.getRightEyeBrow.reverse ++
      landmarks.getLeftEyeBrow.reverse).map fun p => p.y))
    (hmax : maxJawY = maxOf (landmarks.getJawOutline.map fun p => p.y)) :
    ((∀ p ∈ landmarks.getRightEyeBrow ++ landmarks.getLeftEyeBrow, minBrowY ≤ p.y) ∧
        (∃ p ∈ landmarks.getRightEyeBrow ++ landmarks.getLeftEyeBrow, p.y = minBrowY) ∧
        (∀ p ∈ landmarks.getJawOutline, p.y ≤ maxJawY) ∧
        (∃ p ∈ landmarks.getJawOutline, p.y = maxJawY)) ∧
      (buildFacePolygon landmarks).polygon =
        landmarks.getJawOutline ++
          ((landmarks.getRightEyeBrow.reverse ++ landmarks.getLeftEyeBrow.reverse).map fun p =>
            ({ x := p.x
               y := p.y - (minBrowY - max 0 (minBrowY - max 1 (maxJawY - minBrowY) * (26 / 100)))
            } : Point)) ∧
      (1 ≤ maxJawY - minBrowY → 26 / 100 * (maxJawY - minBrowY) ≤ minBrowY →
        minBrowY - max 0 (minBrowY - max 1 (maxJawY - minBrowY) * (26 / 100)) =
          26 / 100 * (maxJawY - minBrowY)) ∧
      TightBounds (buildFacePolygon landmarks).polygon (buildFacePolygon landmarks).bounds := by
  have hbrow : (landmarks.getRightEyeBrow.reverse ++ landmarks.getLeftEyeBrow.reverse) ≠ [] := by
    simp [hright]
  have hbrowy : ((landmarks.getRightEyeBrow.reverse ++ landmarks.getLeftEyeBrow.reverse).map
      fun p => p.y) ≠ [] := by
    simpa using hbrow
  have hjawy : (landmarks.getJawOutline.map fun p => p.y) ≠ [] := by simpa using hjaw
  refine ⟨⟨?_, ?_, ?_, ?_⟩, ?_, ?_, ?_⟩
  · intro p hp
    rw [hmin]
    apply minOf_le
    rw [List.mem_map]
    refine ⟨p, ?_, rfl⟩
    rw [List.mem_append] at hp ⊢
    rcases hp with hp | hp
    · exact Or.inl (List.mem_reverse.mpr hp)
    · exact Or.inr (List.mem_reverse.mpr hp)
  · obtain ⟨p, hp, hpy⟩ := List.mem_map.mp (minOf_mem hbrowy)
    refine ⟨p, ?_, by rw [hmin]; exact hpy⟩
    rw [List.mem_append] at hp ⊢
    rcases hp with hp | hp
    · exact Or.inl (List.mem_reverse.mp hp)
    · exact Or.inr (List.mem_reverse.mp hp)
  · intro p hp
    rw [hmax]
    exact le_maxOf (List.mem_map.mpr ⟨p, hp, rfl⟩)
  · obtain ⟨p, hp, hpy⟩ := List.mem_map.mp (maxOf_mem hjawy)
    exact ⟨p, hp, by rw [hmax]; exact hpy⟩
  · simp only [buildFacePolygon, map_copy, FACE_FOREHEAD_RATIO, ← hmin, ← hmax]
  · intro h1 h2
    rw [max_eq_right h1, max_eq_right (by linarith)]
    ring
  · apply boundsOf_tight
    simp only [buildFacePolygon, map_copy]
    simp [hjaw]

set_option maxRecDepth 100000 in
/-- The amended C18 on the face near the top edge: the brow points are raised by
10. -/
theorem buildFacePolygon_shape_witness :
    highFace.getJawOutline ≠ [] ∧
      (buildFacePolygon highFace).polygon =
        highFace.getJawOutline ++
          (highFace.getRightEyeBrow.reverse ++ highFace.getLeftEyeBrow.reverse).map fun p =>
            ({ x := p.x
               y := p.y - ((10 : ℚ) - max 0 (10 - max 1 (110 - 10) * (26 / 100))) } : Point) :=
  ⟨by simp [highFace],
    (buildFacePolygon_shape highFace 10 110 (by simp [highFace]) (by simp [highFace])
      (by simp [highFace]) (by with_unfolding_all rfl) (by with_unfolding_all rfl)).2.1⟩

/-! ## Character compositor -/

theorem faceConfigFor_total (characterId : Option String)
    (hproto : propertyKey characterId ∉ objectPrototypeKeys) :
    ∃ cfg, faceConfigFor characterId = .own cfg := by
  unfold faceConfigFor lookupOrDefault getProp
  cases hk : CHARACTER_FACE_CONFIG.lookup (propertyKey characterId) with
  | some v => exact ⟨v, by simp⟩
  | none =>
    simp only [hproto, if_false]
    exact ⟨⟨50, 22, 32, none, none, none⟩, rfl⟩

/-- With a calibration record and sources `drawImage` accepts, renderComposite
returns the composite built from that record. -/
theorem renderComposite_own (characterImg faceCutout : Canvas) (characterId : Option String)
    (cfg : FaceConfig) (hcfg : faceConfigFor characterId = .own cfg)
    (hface : faceCutout.isEmptyCanvas = false) (htemplate : characterImg.isEmptyCanvas = false) :
    renderComposite characterImg faceCutout characterId =
      .ok
        { width := characterImg.width
          height := characterImg.height
          clip :=
            { cx := cfg.cx / 100 * characterImg.width
              cy := cfg.cy / 100 * characterImg.height
              rx := cfg.size / 100 * characterImg.width / 2
              ry := cfg.size / 100 * characterImg.width / 2 }
          face :=
            { image := faceCutout
              rotationDegrees := cfg.rot.getD 0
              centerX := cfg.cx / 100 * characterImg.width
              centerY := cfg.cy / 100 * characterImg.height
              drawW := cfg.size / 100 * characterImg.width * orOne cfg.scaleX
              drawH := cfg.size / 100 * characterImg.width * orOne cfg.scaleY }
          shadow :=
            { x := cfg.cx / 100 * characterImg.width -
                cfg.size / 100 * characterImg.width * orOne cfg.scaleX / 2
              y := cfg.cy / 100 * characterImg.height -
                cfg.size / 100 * characterImg.width * orOne cfg.scaleY / 2
              width := cfg.size / 100 * characterImg.width * orOne cfg.scaleX
              height := cfg.size / 100 * characterImg.width * orOne cfg.scaleY }
          template := characterImg } := by
  simp [renderComposite, hcfg, hface, htemplate]

/-- C13 fails at the id "constructor": the lookup in CHARACTER_FACE_CONFIG
yields the member inherited from `Object.prototype`, which has no `cx`, `cy` or
`size`; every coordinate is `NaN`, `createRadialGradient` throws a `TypeError`,
and renderComposite outputs no raster.  The lookup of the template in
CHARACTER_IMG yields the inherited member as well, not the path of a template. -/
theorem renderComposite_without_calibration :
    faceConfigFor (some "constructor") = .inherited "constructor" ∧
      characterImgFor (some "constructor") = some (.inherited "constructor") ∧
      renderComposite sampleTemplate samplePhoto (some "constructor") =
        .error "TypeError: createRadialGradient: the provided double value is non-finite" ∧
      ¬ ∀ (characterImg faceCutout : Canvas) (characterId : Option String),
        ∃ composite, renderComposite characterImg faceCutout characterId = .ok composite ∧
          composite.width = characterImg.width ∧ composite.height = characterImg.height := by
  have hi : faceConfigFor (some "constructor") = .inherited "constructor" := by decide
  have hr : renderComposite sampleTemplate samplePhoto (some "constructor") =
      .error "TypeError: createRadialGradient: the provided double value is non-finite" := by
    simp [renderComposite, hi]
  refine ⟨hi, by decide, hr, ?_⟩
  intro h
  obtain ⟨composite, hc, -⟩ := h sampleTemplate samplePhoto (some "constructor")
  rw [hr] at hc
  cases hc

/-- C13, amended. For every character id that is not the name of a member
inherited from `Object.prototype`, every template of width W and height H and
every face raster, neither of them a canvas without pixels, renderComposite
outputs a raster of exactly W × H and clips the face layer, which it places as
it receives it, to an ellipse centered at (cx% of W, cy% of H) with diameter
size% of W taken from the id's calibration; for id "teddy" this is center
(38.5% of W, 33.2% of H), diameter 98% of W, with the top trim ratio 0.08
applied to the cutout, on the FAST_FACE path and for a detected face, before
placement. -/
theorem renderComposite_geometry (characterImg faceCutout : Canvas)
    (characterId : Option String)
    (hproto : propertyKey characterId ∉ objectPrototypeKeys)
    (hface : faceCutout.isEmptyCanvas = false) (htemplate : characterImg.isEmptyCanvas = false) :
    (∃ cfg composite, faceConfigFor characterId = .own cfg ∧
        renderComposite characterImg faceCutout characterId = .ok composite ∧
        composite.width = characterImg.width ∧ composite.height = characterImg.height ∧
        composite.clip =
          { cx := cfg.cx / 100 * characterImg.width
            cy := cfg.cy / 100 * characterImg.height
            rx := cfg.size / 100 * characterImg.width / 2
            ry := cfg.size / 100 * characterImg.width / 2 } ∧
        composite.face.image = faceCutout ∧ composite.template = characterImg) ∧
      (characterId = some "teddy" →
        (∃ composite, renderComposite characterImg faceCutout characterId = .ok composite ∧
          composite.clip =
            { cx := 385 / 1000 * characterImg.width
              cy := 332 / 1000 * characterImg.height
              rx := 98 / 100 * characterImg.width / 2
              ry := 98 / 100 * characterImg.width / 2 }) ∧
        (∀ canvas, applyTrim canvas characterId = trimCanvas canvas (8 / 100) 0) ∧
        (∀ (fastFace : Bool) (img : Canvas) (env : Detectors) (t t1 t2 t3 : ℕ) (c : FaceCutout)
            (mesh : Option (List Point)) (detection : Option Detection) (box : Option Bounds),
          withTimeout (detectFaceMeshLandmarks env) 1800 none = .fulfilled t1 mesh →
          withTimeout (detectLandmarks env) 1800 none = .fulfilled t2 detection →
          withTimeout (detectFaceBox env) 1200 none = .fulfilled t3 box →
          createFaceCutoutJob fastFace img characterId env = .fulfilled t c →
          (fastFace = true ∨
            (∃ polyData, buildFacePolygonFromMesh mesh (downscaleImage img 512).width
              (downscaleImage img 512).height = .ok (some polyData)) ∨
            (∃ landmarks, (detection.bind fun d => d.landmarks) = some landmarks) ∨
            (∃ b, box = some b)) →
          ∃ untrimmed : Canvas, untrimmed.width = c.size ∧
            c.image = trimCanvas untrimmed (8 / 100) 0)) := by
  constructor
  · obtain ⟨cfg, hcfg⟩ := faceConfigFor_total characterId hproto
    exact ⟨cfg, _, hcfg, renderComposite_own characterImg faceCutout characterId cfg hcfg hface
      htemplate, rfl, rfl, rfl, rfl, rfl⟩
  · rintro rfl
    have hcfg : faceConfigFor (some "teddy") =
        .own ⟨385 / 10, 332 / 10, 98, none, some (18 / 10), some (135 / 100)⟩ := by rfl
    have htrim : faceTrimFor (some "teddy") = .own ⟨8 / 100, 0⟩ := by rfl
    have happly : ∀ canvas, applyTrim canvas (some "teddy") = trimCanvas canvas (8 / 100) 0 := by
      intro canvas
      simp only [applyTrim, htrim]
      norm_num
    refine ⟨⟨_, renderComposite_own characterImg faceCutout (some "teddy") _ hcfg hface
      htemplate, ?_⟩, happly, ?_⟩
    · simp only [Ellipse.mk.injEq]
      refine ⟨?_, ?_, ?_, ?_⟩ <;> ring_nf
    · intro fastFace img env t t1 t2 t3 c mesh detection box h1 h2 h3 h hpath
      have hsq : ∀ x : Canvas,
          ∃ untrimmed : Canvas, untrimmed.width = (applyTrim x (some "teddy")).width ∧
            applyTrim x (some "teddy") = trimCanvas untrimmed (8 / 100) 0 :=
        fun x => ⟨x, (applyTrim_width x _).symm, happly x⟩
      rcases createFaceCutoutJob_value h1 h2 h3 h with
        ⟨-, rfl⟩ | ⟨hff, ⟨pd, -, rfl⟩ | ⟨lms, -, -, rfl⟩ | ⟨b, -, -, -, hbox⟩ |
          ⟨hb, hd, hnb, rfl⟩⟩
      · obtain ⟨sq, h2sq, h3sq⟩ := hsq (createFallbackCutout (downscaleImage img 512)).image
        exact ⟨sq, by rw [h2sq, applyTrim_width]; rfl, h3sq⟩
      · exact hsq _
      · exact hsq _
      · obtain ⟨masked, -, -, -, -, -, rfl⟩ := boxCutout_ok hbox
        exact hsq masked
      · rcases hpath with hf | ⟨pd, hpd⟩ | ⟨lms, hl⟩ | ⟨b, hb1⟩
        · rw [hff] at hf; cases hf
        · rw [hb] at hpd; cases hpd
        · rw [hd] at hl; cases hl
        · rw [hnb] at hb1; cases hb1

set_option maxRecDepth 100000 in
/-- The amended C13 for "teddy" on a 600 × 800 template, with the cutout of a
40 × 40 face box on a 100 × 100 photo: the composite is 600 × 800 and the clip
ellipse is centered at (231, 265.6) with radius 294. -/
theorem renderComposite_geometry_witness :
    ∃ c, createFaceCutoutJob false samplePhoto (some "teddy") (boxDetectors ⟨20, 20, 40, 40⟩) =
        .fulfilled 3700 c ∧
      propertyKey (some "teddy") ∉ objectPrototypeKeys ∧
      c.image.isEmptyCanvas = false ∧ sampleTemplate.isEmptyCanvas = false ∧
      ∃ composite, renderComposite sampleTemplate c.image (some "teddy") = .ok composite ∧
        composite.width = 600 ∧ composite.height = 800 ∧
        composite.clip = { cx := 231, cy := 2656 / 10, rx := 294, ry := 294 } := by
  have hjob : ∃ c, createFaceCutoutJob false samplePhoto (some "teddy")
      (boxDetectors ⟨20, 20, 40, 40⟩) = .fulfilled 3700 c :=
    ⟨_, by with_unfolding_all rfl⟩
  obtain ⟨c, hc⟩ := hjob
  have hdraw := createFaceCutoutJob_drawable hc
  obtain ⟨composite, hcomp, hclip⟩ :=
    ((renderComposite_geometry sampleTemplate c.image (some "teddy") (by decide) hdraw rfl).2
      rfl).1
  have hsize := (renderComposite_geometry sampleTemplate c.image (some "teddy") (by decide)
    hdraw rfl).1
  obtain ⟨cfg, composite1, -, hcomp1, hw, hh, -⟩ := hsize
  rw [hcomp] at hcomp1
  cases hcomp1
  refine ⟨c, hc, by decide, hdraw, rfl, composite, hcomp, hw, hh, ?_⟩
  rw [hclip]
  simp only [sampleTemplate, Ellipse.mk.injEq]
  refine ⟨?_, ?_, ?_, ?_⟩ <;> norm_num

/-! ## The avatarize route -/

/-- C14. When no API credential is configured, the POST handler answers with
status 500 and the error "Missing GEMINI_API_KEY." for every request body,
valid or not, and does nothing else: it does not read the body and makes no
call to the generative model. -/
theorem missing_credential_fails_fast (env : RouteEnv) (request : RequestBody)
    (upstream : Upstream) (hgemini : truthyString env.GEMINI_API_KEY = none)
    (hgoogle : truthyString env.GOOGLE_API_KEY = none) :
    POST env request upstream =
      ({ status := 500, body := errorBody "Missing GEMINI_API_KEY." }, []) := by
  have hkey : API_KEY env = "" := by simp [API_KEY, hgemini, hgoogle]
  simp [POST, hkey]

/-- C14 on an environment where GEMINI_API_KEY is absent and GOOGLE_API_KEY is
empty. -/
theorem missing_credential_fails_fast_witness :
    truthyString noCredential.GEMINI_API_KEY = none ∧
      POST noCredential sampleBody (.responded 200 12 none (.data [])) =
        ({ status := 500, body := errorBody "Missing GEMINI_API_KEY." }, []) :=
  ⟨by decide,
    missing_credential_fails_fast noCredential sampleBody _ (by decide) (by decide)⟩

/-- C15 fails for an upstream answer with status 500 and the body "No image
returned from Gemini.": the response of the handler is the one it gives when
the upstream answer is a success without an image. -/
theorem upstream_500_is_taken_for_no_image :
    statusOk 500 = false ∧ statusOk 200 = true ∧ (extractImageFromResponse []).2 = "" ∧
      (POST withCredential sampleBody
          (.responded 500 12 (some "No image returned from Gemini.") (.data []))).1 =
        (POST withCredential sampleBody (.responded 200 12 (some "") (.data []))).1 := by
  decide

/-- C15, amended. The responses for a missing credential, for a failed avatar
step (upstream non-success status, or upstream success without an image) and
for a timeout are pairwise distinguishable by status code and error message,
the timeout carrying its own status code 504 and the others 500; the two kinds
of failed avatar step share the status code and the error message and differ
only in the fields `status` and `details` of the body, so they are
distinguishable unless upstream answered with status 500 and the body "No image
returned from Gemini." in the same elapsed time. -/
theorem failure_kinds_distinguishable (envMissing env : RouteEnv) (anyRequest : RequestBody)
    (anyUpstream : Upstream) (image : String) (characterId : Option String)
    (parsed : String × String) (status elapsedMs : ℕ) (text : Option String)
    (json : UpstreamJson) (okStatus elapsedMs2 : ℕ) (text2 : Option String) (parts : List Part)
    (hmissing : API_KEY envMissing = "") (hkey : API_KEY env ≠ "") (himage : image ≠ "")
    (hparsed : parseDataUrl image = some parsed) (hfail : statusOk status = false)
    (hok : statusOk okStatus = true) (hempty : (extractImageFromResponse parts).2 = "") :
    (POST envMissing anyRequest anyUpstream).1 =
        { status := 500, body := errorBody "Missing GEMINI_API_KEY." } ∧
      (POST env (.json (.string image) characterId)
          (.responded status elapsedMs text json)).1 =
        { status := 500,
          body :=
            { error := some "Gemini avatar step failed.", status := some status,
              elapsedMs := some elapsedMs, details := some (text.getD ""), ok := none,
              avatarDataUrl := none } } ∧
      (POST env (.json (.string image) characterId)
          (.responded okStatus elapsedMs2 text2 (.data parts))).1 =
        { status := 500,
          body :=
            { error := some "Gemini avatar step failed.", status := some 500,
              elapsedMs := some elapsedMs2, details := some "No image returned from Gemini.",
              ok := none, avatarDataUrl := none } } ∧
      (POST env (.json (.string image) characterId) .aborted).1 =
        { status := 504, body := errorBody "Gemini request timed out." } ∧
      (POST envMissing anyRequest anyUpstream).1 ≠
        (POST env (.json (.string image) characterId)
          (.responded status elapsedMs text json)).1 ∧
      (POST envMissing anyRequest anyUpstream).1 ≠
        (POST env (.json (.string image) characterId)
          (.responded okStatus elapsedMs2 text2 (.data parts))).1 ∧
      (POST envMissing anyRequest anyUpstream).1 ≠
        (POST env (.json (.string image) characterId) .aborted).1 ∧
      (POST env (.json (.string image) characterId)
          (.responded status elapsedMs text json)).1 ≠
        (POST env (.json (.string image) characterId) .aborted).1 ∧
      (POST env (.json (.string image) characterId)
          (.responded okStatus elapsedMs2 text2 (.data parts))).1 ≠
        (POST env (.json (.string image) characterId) .aborted).1 ∧
      ((POST env (.json (.string image) characterId)
            (.responded status elapsedMs text json)).1 =
          (POST env (.json (.string image) characterId)
            (.responded okStatus elapsedMs2 text2 (.data parts))).1 ↔
        status = 500 ∧ text.getD "" = "No image returned from Gemini." ∧
          elapsedMs = elapsedMs2) := by
  have r1 : (POST envMissing anyRequest anyUpstream).1 =
      { status := 500, body := errorBody "Missing GEMINI_API_KEY." } := by
    simp [POST, hmissing]
  have r2 : (POST env (.json (.string image) characterId)
      (.responded status elapsedMs text json)).1 =
      { status := 500,
        body :=
          { error := some "Gemini avatar step failed.", status := some status,
            elapsedMs := some elapsedMs, details := some (text.getD ""), ok := none,
            avatarDataUrl := none } } := by
    simp [POST, hkey, himage, hparsed, callGemini, hfail]
  have r3 : (POST env (.json (.string image) characterId)
      (.responded okStatus elapsedMs2 text2 (.data parts))).1 =
      { status := 500,
        body :=
          { error := some "Gemini avatar step failed.", status := some 500,
            elapsedMs := some elapsedMs2, details := some "No image returned from Gemini.",
            ok := none, avatarDataUrl := none } } := by
    simp [POST, hkey, himage, hparsed, callGemini, hok, hempty]
  have r4 : (POST env (.json (.string image) characterId) .aborted).1 =
      { status := 504, body := errorBody "Gemini request timed out." } := by
    simp [POST, hkey, himage, hparsed, callGemini, handleError]
  refine ⟨r1, r2, r3, r4, ?_, ?_, ?_, ?_, ?_, ?_⟩
  · rw [r1, r2]; simp [errorBody]
  · rw [r1, r3]; simp [errorBody]
  · rw [r1, r4]; simp
  · rw [r2, r4]; simp
  · rw [r3, r4]; simp
  · rw [r2, r3]
    simp only [Response.mk.injEq, ResponseBody.mk.injEq, Option.some.injEq, true_and, and_true]
    constructor
    · rintro ⟨h1, h2, h3⟩; exact ⟨h1, h3, h2⟩
    · rintro ⟨h1, h2, h3⟩; exact ⟨h1, h3, h2⟩

/-- The amended C15 on a request with a well-formed image: an upstream answer
404 is told apart from a timeout. -/
theorem failure_kinds_distinguishable_witness :
    API_KEY noCredential = "" ∧ API_KEY withCredential ≠ "" ∧
      (POST withCredential (.json (.string "data:image/png;base64,AAAA") (some "migu"))
          (.responded 404 12 (some "not found") (.data []))).1 ≠
        (POST withCredential (.json (.string "data:image/png;base64,AAAA") (some "migu"))
          .aborted).1 :=
  ⟨by decide, by decide,
    (failure_kinds_distinguishable noCredential withCredential sampleBody .aborted
      "data:image/png;base64,AAAA" (some "migu") ("image/png", "AAAA") 404 12 (some "not found")
      (.data []) 200 15 none [] (by decide) (by decide) (by decide) (by decide) (by decide)
      (by decide) (by decide)).2.2.2.2.2.2.2.1⟩

end PhotoBooth
